import Mathlib

/-!
# SafeChat moderation pipeline

A shallow embedding of the moderation core of the SafeChat backend:

* `backend/src/services/mockMLService.js` : the built-in keyword engine,
* `backend/src/services/mlService.js`     : the adapter producing the Message `analysis`,
* `backend/src/routes/messages.js`        : `POST /api/messages` (submitMessage),
* `backend/src/routes/flags.js`           : `POST /api/flags` (createManualFlag),
  `PUT /api/flags/:id/review` (reviewFlag) and `takeModeratorAction`,
* `backend/src/models/Flag.js`, `backend/src/models/Message.js` : the schemas,
* `backend/src/server.js`                 : the socket handlers (presence, typing),
* `backend/src/middleware/validation.js`  : `validateUser` and `handleValidationErrors`.

Conventions of the embedding.

* JavaScript numbers are idealised as rationals (`ℚ`); the literals `0.1`, `0.3`, ... are the
  exact fractions.
* `Math.random()` is a stream `rng : Nat → ℚ` read through an explicit counter: the `n`-th call
  of a run returns `rng n`.  Statements about "every outcome of the random draws" quantify over
  all streams with values in `[0, 1)`.
* `new Date()` is a parameter `now : Nat`.
* Mongo ObjectIds are natural numbers drawn from the counter `Store.nextId`.
* Strings stay strings: statuses, actions, reasons and categories are compared exactly as the
  source compares them.  A Lean string is a sequence of Unicode characters; `jsLength` gives
  the `length` of the JavaScript string (UTF-16 code units), and `toLowerCase` follows the
  case mappings of the Unicode Character Database, version 14.0.
-/

namespace SafeChat

/-! ## Lower-casing (`String.prototype.toLowerCase`) -/

/-- The simple lowercase mappings of the Unicode Character Database (version 14.0), as ranges
`(first, last, step, image)`: the code points `first`, `first + step`, ... up to `last` are
mapped to `image`, `image + step`, ...  The code point U+0130, which is mapped to two code
points, is not in the table. -/
def lowerRanges : List (Nat × Nat × Nat × Nat) :=
  [ (65, 90, 1, 97), (192, 214, 1, 224), (216, 222, 1, 248), (256, 302, 2, 257),
    (306, 310, 2, 307), (313, 327, 2, 314), (330, 374, 2, 331), (376, 376, 1, 255),
    (377, 381, 2, 378), (385, 385, 1, 595), (386, 388, 2, 387), (390, 390, 1, 596),
    (391, 391, 1, 392), (393, 394, 1, 598), (395, 395, 1, 396), (398, 398, 1, 477),
    (399, 399, 1, 601), (400, 400, 1, 603), (401, 401, 1, 402), (403, 403, 1, 608),
    (404, 404, 1, 611), (406, 406, 1, 617), (407, 407, 1, 616), (408, 408, 1, 409),
    (412, 412, 1, 623), (413, 413, 1, 626), (415, 415, 1, 629), (416, 420, 2, 417),
    (422, 422, 1, 640), (423, 423, 1, 424), (425, 425, 1, 643), (428, 428, 1, 429),
    (430, 430, 1, 648), (431, 431, 1, 432), (433, 434, 1, 650), (435, 437, 2, 436),
    (439, 439, 1, 658), (440, 440, 1, 441), (444, 444, 1, 445), (452, 452, 1, 454),
    (453, 453, 1, 454), (455, 455, 1, 457), (456, 456, 1, 457), (458, 458, 1, 460),
    (459, 475, 2, 460), (478, 494, 2, 479), (497, 497, 1, 499), (498, 500, 2, 499),
    (502, 502, 1, 405), (503, 503, 1, 447), (504, 542, 2, 505), (544, 544, 1, 414),
    (546, 562, 2, 547), (570, 570, 1, 11365), (571, 571, 1, 572), (573, 573, 1, 410),
    (574, 574, 1, 11366), (577, 577, 1, 578), (579, 579, 1, 384), (580, 580, 1, 649),
    (581, 581, 1, 652), (582, 590, 2, 583), (880, 882, 2, 881), (886, 886, 1, 887),
    (895, 895, 1, 1011), (902, 902, 1, 940), (904, 906, 1, 941), (908, 908, 1, 972),
    (910, 911, 1, 973), (913, 929, 1, 945), (931, 939, 1, 963), (975, 975, 1, 983),
    (984, 1006, 2, 985), (1012, 1012, 1, 952), (1015, 1015, 1, 1016), (1017, 1017, 1, 1010),
    (1018, 1018, 1, 1019), (1021, 1023, 1, 891), (1024, 1039, 1, 1104), (1040, 1071, 1, 1072),
    (1120, 1152, 2, 1121), (1162, 1214, 2, 1163), (1216, 1216, 1, 1231), (1217, 1229, 2, 1218),
    (1232, 1326, 2, 1233), (1329, 1366, 1, 1377), (4256, 4293, 1, 11520),
    (4295, 4295, 1, 11559), (4301, 4301, 1, 11565), (5024, 5103, 1, 43888),
    (5104, 5109, 1, 5112), (7312, 7354, 1, 4304), (7357, 7359, 1, 4349), (7680, 7828, 2, 7681),
    (7838, 7838, 1, 223), (7840, 7934, 2, 7841), (7944, 7951, 1, 7936), (7960, 7965, 1, 7952),
    (7976, 7983, 1, 7968), (7992, 7999, 1, 7984), (8008, 8013, 1, 8000), (8025, 8031, 2, 8017),
    (8040, 8047, 1, 8032), (8072, 8079, 1, 8064), (8088, 8095, 1, 8080), (8104, 8111, 1, 8096),
    (8120, 8121, 1, 8112), (8122, 8123, 1, 8048), (8124, 8124, 1, 8115), (8136, 8139, 1, 8050),
    (8140, 8140, 1, 8131), (8152, 8153, 1, 8144), (8154, 8155, 1, 8054), (8168, 8169, 1, 8160),
    (8170, 8171, 1, 8058), (8172, 8172, 1, 8165), (8184, 8185, 1, 8056), (8186, 8187, 1, 8060),
    (8188, 8188, 1, 8179), (8486, 8486, 1, 969), (8490, 8490, 1, 107), (8491, 8491, 1, 229),
    (8498, 8498, 1, 8526), (8544, 8559, 1, 8560), (8579, 8579, 1, 8580), (9398, 9423, 1, 9424),
    (11264, 11311, 1, 11312), (11360, 11360, 1, 11361), (11362, 11362, 1, 619),
    (11363, 11363, 1, 7549), (11364, 11364, 1, 637), (11367, 11371, 2, 11368),
    (11373, 11373, 1, 593), (11374, 11374, 1, 625), (11375, 11375, 1, 592),
    (11376, 11376, 1, 594), (11378, 11378, 1, 11379), (11381, 11381, 1, 11382),
    (11390, 11391, 1, 575), (11392, 11490, 2, 11393), (11499, 11501, 2, 11500),
    (11506, 11506, 1, 11507), (42560, 42604, 2, 42561), (42624, 42650, 2, 42625),
    (42786, 42798, 2, 42787), (42802, 42862, 2, 42803), (42873, 42875, 2, 42874),
    (42877, 42877, 1, 7545), (42878, 42886, 2, 42879), (42891, 42891, 1, 42892),
    (42893, 42893, 1, 613), (42896, 42898, 2, 42897), (42902, 42920, 2, 42903),
    (42922, 42922, 1, 614), (42923, 42923, 1, 604), (42924, 42924, 1, 609),
    (42925, 42925, 1, 620), (42926, 42926, 1, 618), (42928, 42928, 1, 670),
    (42929, 42929, 1, 647), (42930, 42930, 1, 669), (42931, 42931, 1, 43859),
    (42932, 42946, 2, 42933), (42948, 42948, 1, 42900), (42949, 42949, 1, 642),
    (42950, 42950, 1, 7566), (42951, 42953, 2, 42952), (42960, 42960, 1, 42961),
    (42966, 42968, 2, 42967), (42997, 42997, 1, 42998), (65313, 65338, 1, 65345),
    (66560, 66599, 1, 66600), (66736, 66771, 1, 66776), (66928, 66938, 1, 66967),
    (66940, 66954, 1, 66979), (66956, 66962, 1, 66995), (66964, 66965, 1, 67003),
    (68736, 68786, 1, 68800), (71840, 71871, 1, 71872), (93760, 93791, 1, 93792),
    (125184, 125217, 1, 125218) ]

/-- Whether a code point is one of the sources of a range. -/
def inLowerRange (n : Nat) (r : Nat × Nat × Nat × Nat) : Bool :=
  decide (r.1 ≤ n) && decide (n ≤ r.2.1) && (n - r.1) % r.2.2.1 == 0

/-- The simple lowercase mapping of a code point. -/
def lowerCode (n : Nat) : Nat :=
  match lowerRanges.find? (inLowerRange n) with
  | some r => r.2.2.2 + (n - r.1)
  | none => n

/-- The code points with the property Case_Ignorable (Unicode 14.0), as ranges
`(first, last)`. -/
def caseIgnorableRanges : List (Nat × Nat) :=
  [ (39, 39), (46, 46), (58, 58), (94, 94), (96, 96), (168, 168), (173, 173), (175, 175),
    (180, 180), (183, 184), (688, 879), (884, 885), (890, 890), (900, 901), (903, 903),
    (1155, 1161), (1369, 1369), (1375, 1375), (1425, 1469), (1471, 1471), (1473, 1474),
    (1476, 1477), (1479, 1479), (1524, 1524), (1536, 1541), (1552, 1562), (1564, 1564),
    (1600, 1600), (1611, 1631), (1648, 1648), (1750, 1757), (1759, 1768), (1770, 1773),
    (1807, 1807), (1809, 1809), (1840, 1866), (1958, 1968), (2027, 2037), (2042, 2042),
    (2045, 2045), (2070, 2093), (2137, 2139), (2184, 2184), (2192, 2193), (2200, 2207),
    (2249, 2306), (2362, 2362), (2364, 2364), (2369, 2376), (2381, 2381), (2385, 2391),
    (2402, 2403), (2417, 2417), (2433, 2433), (2492, 2492), (2497, 2500), (2509, 2509),
    (2530, 2531), (2558, 2558), (2561, 2562), (2620, 2620), (2625, 2626), (2631, 2632),
    (2635, 2637), (2641, 2641), (2672, 2673), (2677, 2677), (2689, 2690), (2748, 2748),
    (2753, 2757), (2759, 2760), (2765, 2765), (2786, 2787), (2810, 2815), (2817, 2817),
    (2876, 2876), (2879, 2879), (2881, 2884), (2893, 2893), (2901, 2902), (2914, 2915),
    (2946, 2946), (3008, 3008), (3021, 3021), (3072, 3072), (3076, 3076), (3132, 3132),
    (3134, 3136), (3142, 3144), (3146, 3149), (3157, 3158), (3170, 3171), (3201, 3201),
    (3260, 3260), (3263, 3263), (3270, 3270), (3276, 3277), (3298, 3299), (3328, 3329),
    (3387, 3388), (3393, 3396), (3405, 3405), (3426, 3427), (3457, 3457), (3530, 3530),
    (3538, 3540), (3542, 3542), (3633, 3633), (3636, 3642), (3654, 3662), (3761, 3761),
    (3764, 3772), (3782, 3782), (3784, 3789), (3864, 3865), (3893, 3893), (3895, 3895),
    (3897, 3897), (3953, 3966), (3968, 3972), (3974, 3975), (3981, 3991), (3993, 4028),
    (4038, 4038), (4141, 4144), (4146, 4151), (4153, 4154), (4157, 4158), (4184, 4185),
    (4190, 4192), (4209, 4212), (4226, 4226), (4229, 4230), (4237, 4237), (4253, 4253),
    (4348, 4348), (4957, 4959), (5906, 5908), (5938, 5939), (5970, 5971), (6002, 6003),
    (6068, 6069), (6071, 6077), (6086, 6086), (6089, 6099), (6103, 6103), (6109, 6109),
    (6155, 6159), (6211, 6211), (6277, 6278), (6313, 6313), (6432, 6434), (6439, 6440),
    (6450, 6450), (6457, 6459), (6679, 6680), (6683, 6683), (6742, 6742), (6744, 6750),
    (6752, 6752), (6754, 6754), (6757, 6764), (6771, 6780), (6783, 6783), (6823, 6823),
    (6832, 6862), (6912, 6915), (6964, 6964), (6966, 6970), (6972, 6972), (6978, 6978),
    (7019, 7027), (7040, 7041), (7074, 7077), (7080, 7081), (7083, 7085), (7142, 7142),
    (7144, 7145), (7149, 7149), (7151, 7153), (7212, 7219), (7222, 7223), (7288, 7293),
    (7376, 7378), (7380, 7392), (7394, 7400), (7405, 7405), (7412, 7412), (7416, 7417),
    (7468, 7530), (7544, 7544), (7579, 7679), (8125, 8125), (8127, 8129), (8141, 8143),
    (8157, 8159), (8173, 8175), (8189, 8190), (8203, 8207), (8216, 8217), (8228, 8228),
    (8231, 8231), (8234, 8238), (8288, 8292), (8294, 8303), (8305, 8305), (8319, 8319),
    (8336, 8348), (8400, 8432), (11388, 11389), (11503, 11505), (11631, 11631), (11647, 11647),
    (11744, 11775), (11823, 11823), (12293, 12293), (12330, 12333), (12337, 12341),
    (12347, 12347), (12441, 12446), (12540, 12542), (40981, 40981), (42232, 42237),
    (42508, 42508), (42607, 42610), (42612, 42621), (42623, 42623), (42652, 42655),
    (42736, 42737), (42752, 42785), (42864, 42864), (42888, 42890), (42994, 42996),
    (43000, 43001), (43010, 43010), (43014, 43014), (43019, 43019), (43045, 43046),
    (43052, 43052), (43204, 43205), (43232, 43249), (43263, 43263), (43302, 43309),
    (43335, 43345), (43392, 43394), (43443, 43443), (43446, 43449), (43452, 43453),
    (43471, 43471), (43493, 43494), (43561, 43566), (43569, 43570), (43573, 43574),
    (43587, 43587), (43596, 43596), (43632, 43632), (43644, 43644), (43696, 43696),
    (43698, 43700), (43703, 43704), (43710, 43711), (43713, 43713), (43741, 43741),
    (43756, 43757), (43763, 43764), (43766, 43766), (43867, 43871), (43881, 43883),
    (44005, 44005), (44008, 44008), (44013, 44013), (64286, 64286), (64434, 64450),
    (65024, 65039), (65043, 65043), (65056, 65071), (65106, 65106), (65109, 65109),
    (65279, 65279), (65287, 65287), (65294, 65294), (65306, 65306), (65342, 65342),
    (65344, 65344), (65392, 65392), (65438, 65439), (65507, 65507), (65529, 65531),
    (66045, 66045), (66272, 66272), (66422, 66426), (67456, 67461), (67463, 67504),
    (67506, 67514), (68097, 68099), (68101, 68102), (68108, 68111), (68152, 68154),
    (68159, 68159), (68325, 68326), (68900, 68903), (69291, 69292), (69446, 69456),
    (69506, 69509), (69633, 69633), (69688, 69702), (69744, 69744), (69747, 69748),
    (69759, 69761), (69811, 69814), (69817, 69818), (69821, 69821), (69826, 69826),
    (69837, 69837), (69888, 69890), (69927, 69931), (69933, 69940), (70003, 70003),
    (70016, 70017), (70070, 70078), (70089, 70092), (70095, 70095), (70191, 70193),
    (70196, 70196), (70198, 70199), (70206, 70206), (70367, 70367), (70371, 70378),
    (70400, 70401), (70459, 70460), (70464, 70464), (70502, 70508), (70512, 70516),
    (70712, 70719), (70722, 70724), (70726, 70726), (70750, 70750), (70835, 70840),
    (70842, 70842), (70847, 70848), (70850, 70851), (71090, 71093), (71100, 71101),
    (71103, 71104), (71132, 71133), (71219, 71226), (71229, 71229), (71231, 71232),
    (71339, 71339), (71341, 71341), (71344, 71349), (71351, 71351), (71453, 71455),
    (71458, 71461), (71463, 71467), (71727, 71735), (71737, 71738), (71995, 71996),
    (71998, 71998), (72003, 72003), (72148, 72151), (72154, 72155), (72160, 72160),
    (72193, 72202), (72243, 72248), (72251, 72254), (72263, 72263), (72273, 72278),
    (72281, 72283), (72330, 72342), (72344, 72345), (72752, 72758), (72760, 72765),
    (72767, 72767), (72850, 72871), (72874, 72880), (72882, 72883), (72885, 72886),
    (73009, 73014), (73018, 73018), (73020, 73021), (73023, 73029), (73031, 73031),
    (73104, 73105), (73109, 73109), (73111, 73111), (73459, 73460), (78896, 78904),
    (92912, 92916), (92976, 92982), (92992, 92995), (94031, 94031), (94095, 94111),
    (94176, 94177), (94179, 94180), (110576, 110579), (110581, 110587), (110589, 110590),
    (113821, 113822), (113824, 113827), (118528, 118573), (118576, 118598), (119143, 119145),
    (119155, 119170), (119173, 119179), (119210, 119213), (119362, 119364), (121344, 121398),
    (121403, 121452), (121461, 121461), (121476, 121476), (121499, 121503), (121505, 121519),
    (122880, 122886), (122888, 122904), (122907, 122913), (122915, 122916), (122918, 122922),
    (123184, 123197), (123566, 123566), (123628, 123631), (125136, 125142), (125252, 125259),
    (127995, 127999), (917505, 917505), (917536, 917631), (917760, 917999) ]

/-- The code points with the property Cased (Unicode 14.0), as ranges `(first, last)`. -/
def casedRanges : List (Nat × Nat) :=
  [ (65, 90), (97, 122), (170, 170), (181, 181), (186, 186), (192, 214), (216, 246), (248, 442),
    (444, 447), (452, 659), (661, 696), (704, 705), (736, 740), (837, 837), (880, 883),
    (886, 887), (890, 893), (895, 895), (902, 902), (904, 906), (908, 908), (910, 929),
    (931, 1013), (1015, 1153), (1162, 1327), (1329, 1366), (1376, 1416), (4256, 4293),
    (4295, 4295), (4301, 4301), (4304, 4346), (4349, 4351), (5024, 5109), (5112, 5117),
    (7296, 7304), (7312, 7354), (7357, 7359), (7424, 7615), (7680, 7957), (7960, 7965),
    (7968, 8005), (8008, 8013), (8016, 8023), (8025, 8025), (8027, 8027), (8029, 8029),
    (8031, 8061), (8064, 8116), (8118, 8124), (8126, 8126), (8130, 8132), (8134, 8140),
    (8144, 8147), (8150, 8155), (8160, 8172), (8178, 8180), (8182, 8188), (8305, 8305),
    (8319, 8319), (8336, 8348), (8450, 8450), (8455, 8455), (8458, 8467), (8469, 8469),
    (8473, 8477), (8484, 8484), (8486, 8486), (8488, 8488), (8490, 8493), (8495, 8500),
    (8505, 8505), (8508, 8511), (8517, 8521), (8526, 8526), (8544, 8575), (8579, 8580),
    (9398, 9449), (11264, 11492), (11499, 11502), (11506, 11507), (11520, 11557),
    (11559, 11559), (11565, 11565), (42560, 42605), (42624, 42653), (42786, 42887),
    (42891, 42894), (42896, 42954), (42960, 42961), (42963, 42963), (42965, 42969),
    (42997, 42998), (43000, 43002), (43824, 43866), (43868, 43880), (43888, 43967),
    (64256, 64262), (64275, 64279), (65313, 65338), (65345, 65370), (66560, 66639),
    (66736, 66771), (66776, 66811), (66928, 66938), (66940, 66954), (66956, 66962),
    (66964, 66965), (66967, 66977), (66979, 66993), (66995, 67001), (67003, 67004),
    (67456, 67456), (67459, 67461), (67463, 67504), (67506, 67514), (68736, 68786),
    (68800, 68850), (71840, 71903), (93760, 93823), (119808, 119892), (119894, 119964),
    (119966, 119967), (119970, 119970), (119973, 119974), (119977, 119980), (119982, 119993),
    (119995, 119995), (119997, 120003), (120005, 120069), (120071, 120074), (120077, 120084),
    (120086, 120092), (120094, 120121), (120123, 120126), (120128, 120132), (120134, 120134),
    (120138, 120144), (120146, 120485), (120488, 120512), (120514, 120538), (120540, 120570),
    (120572, 120596), (120598, 120628), (120630, 120654), (120656, 120686), (120688, 120712),
    (120714, 120744), (120746, 120770), (120772, 120779), (122624, 122633), (122635, 122654),
    (125184, 125251), (127280, 127305), (127312, 127337), (127344, 127369) ]

/-- Membership of a code point in a list of ranges. -/
def inRanges (rs : List (Nat × Nat)) (n : Nat) : Bool :=
  rs.any (fun r => decide (r.1 ≤ n) && decide (n ≤ r.2))

/-- The property Case_Ignorable. -/
def isCaseIgnorable (c : Char) : Bool := inRanges caseIgnorableRanges c.toNat

/-- The property Cased. -/
def isCased (c : Char) : Bool := inRanges casedRanges c.toNat

/-- Skipping case-ignorable characters, the first character met is cased. -/
def reachesCased (cs : List Char) : Bool :=
  match cs.dropWhile isCaseIgnorable with
  | c :: _ => isCased c
  | [] => false

/-- The condition Final_Sigma of `SpecialCasing.txt`: a cased letter comes before (across
case-ignorable characters) and none comes after.  `before` lists the preceding characters,
nearest first. -/
def finalSigma (before after : List Char) : Bool :=
  reachesCased before && !reachesCased after

/-- The lowercase mapping of a character other than U+0130 and U+03A3. -/
def lowerChar (c : Char) : Char :=
  if c.toNat < 128 then c.toLower else Char.ofNat (lowerCode c.toNat)

/-- Lower-casing of the characters of a text, given the characters already passed (nearest
first): U+03A3 becomes U+03C2 in final position and U+03C3 elsewhere, U+0130 becomes U+0069
U+0307, every other character follows the simple mapping. -/
def lowerFrom : List Char → List Char → List Char
  | _, [] => []
  | before, c :: rest =>
    (if c.toNat = 931 then [Char.ofNat (if finalSigma before rest then 962 else 963)]
     else if c.toNat = 304 then [Char.ofNat 105, Char.ofNat 775]
     else [lowerChar c]) ++ lowerFrom (c :: before) rest

/-- The method `text.toLowerCase()`: the locale-insensitive lowercase mapping of the Unicode
Character Database, special casing included. -/
def toLowerCase (text : String) : String :=
  String.mk (lowerFrom [] text.toList)

/-! ## The built-in analysis engine (`mockMLService.js`) -/

/-- The stream of values returned by successive `Math.random()` calls. -/
abbrev Rng := Nat → ℚ

/-- Every draw lies in `[0, 1)`, as `Math.random()` guarantees. -/
def Rng.unit (rng : Rng) : Prop := ∀ n, 0 ≤ rng n ∧ rng n < 1

/-- The table `this.abuseKeywords`, in insertion order (the order of `Object.entries`). -/
def abuseKeywords : List (String × List String) :=
  [ ("harassment", ["idiot", "stupid", "loser", "worthless", "useless"]),
    ("hate_speech", ["hate", "racist", "bigot", "nazi", "supremacist"]),
    ("threats", ["kill", "hurt", "destroy", "attack", "violence"]),
    ("bullying", ["weak", "pathetic", "nobody", "freak", "reject"]),
    ("spam", ["buy now", "click here", "free money", "winner", "lottery"]),
    ("sexual_content", ["xxx", "adult", "explicit", "sexual", "inappropriate"]) ]

/-- The table `this.emotionKeywords`, in insertion order. -/
def emotionKeywords : List (String × List String) :=
  [ ("anger", ["angry", "mad", "furious", "rage", "irritated", "pissed"]),
    ("joy", ["happy", "excited", "love", "great", "awesome", "amazing"]),
    ("sadness", ["sad", "depressed", "upset", "crying", "miserable", "lonely"]),
    ("fear", ["scared", "afraid", "terrified", "worried", "anxious", "panic"]),
    ("surprise", ["wow", "amazing", "incredible", "shocking", "unexpected"]),
    ("neutral", ["okay", "fine", "normal", "regular", "standard"]) ]

/-- Substring test on character lists: some suffix of `content` starts with `keyword`. -/
def includesChars : List Char → List Char → Bool
  | [], keyword => keyword.isEmpty
  | c :: cs, keyword => keyword.isPrefixOf (c :: cs) || includesChars cs keyword

/-- The method `content.includes(keyword)`. -/
def includes (content keyword : String) : Bool :=
  includesChars content.toList keyword.toList

/-- The inner loop `for (const keyword of keywords) if (content.includes(keyword)) matches++`. -/
def countMatches (content : String) (keywords : List String) : Nat :=
  keywords.foldl (fun hits keyword => if includes content keyword then hits + 1 else hits) 0

/-- The loop state of `detectAbuse`: `highestConfidence`, `detectedType`, `categories`. -/
structure AbuseScan where
  highestConfidence : ℚ
  detectedType : Option String
  categories : List (String × ℚ)
deriving DecidableEq

/-- One iteration of the category loop of `detectAbuse`. -/
def abuseStep (content : String) (st : AbuseScan) (entry : String × List String) : AbuseScan :=
  let confidence : ℚ := (countMatches content entry.2 : ℚ) / (entry.2.length : ℚ)
  let categories := st.categories ++ [(entry.1, confidence)]
  if confidence > st.highestConfidence then
    { highestConfidence := confidence, detectedType := some entry.1, categories := categories }
  else
    { st with categories := categories }

/-- The category loop of `detectAbuse` (lines 45 to 67). -/
def abuseScan (content : String) : AbuseScan :=
  abuseKeywords.foldl (abuseStep content)
    { highestConfidence := 0, detectedType := none, categories := [] }

/-- The object returned by `detectAbuse`. -/
structure AbuseDetection where
  is_abusive : Bool
  abuse_type : Option String
  confidence : ℚ
  categories : List (String × ℚ)
deriving DecidableEq

/-- The index `Math.floor(x)` as a natural number (negative values give index 0 only for
out-of-contract draws). -/
def floorIndex (x : ℚ) : Nat := (Rat.floor x).toNat

/-- The method `MockMLService.detectAbuse(content)`, reading its draws from position `n` of the stream;
returns the result and the position of the next unread draw. -/
def MockMLService.detectAbuse (content : String) (rng : Rng) (n : Nat) : AbuseDetection × Nat :=
  let scan := abuseScan content
  let r : ℚ × Option String × Nat :=
    if scan.highestConfidence > 1 / 10 then
      (min (95 / 100) (scan.highestConfidence + rng n * (3 / 10)), scan.detectedType, n + 1)
    else if rng n < 5 / 100 then
      let types := abuseKeywords.map Prod.fst
      (2 / 10 + rng (n + 2) * (3 / 10), types[floorIndex (rng (n + 1) * (types.length : ℚ))]?, n + 3)
    else
      (scan.highestConfidence, scan.detectedType, n + 1)
  ({ is_abusive := decide (r.1 > 3 / 10),
     abuse_type := if r.1 > 3 / 10 then r.2.1 else none,
     confidence := r.1,
     categories := scan.categories }, r.2.2)

/-- An entry of `secondaryEmotions` / the `primary_emotion` object. -/
structure EmotionEntry where
  emotion : String
  intensity : ℚ
  confidence : ℚ
deriving DecidableEq

/-- The loop state of the first loop of `detectEmotion`. -/
structure EmotionScan where
  highestIntensity : ℚ
  primaryEmotion : String
  emotionScores : List (String × ℚ)
  next : Nat
deriving DecidableEq

/-- One iteration of the category loop of `detectEmotion` (one draw per category). -/
def emotionStep (content : String) (rng : Rng) (st : EmotionScan)
    (entry : String × List String) : EmotionScan :=
  let intensity : ℚ :=
    min 1 ((countMatches content entry.2 : ℚ) / (entry.2.length : ℚ) + rng st.next * (2 / 10))
  let scores := st.emotionScores ++ [(entry.1, intensity)]
  if intensity > st.highestIntensity then
    { highestIntensity := intensity, primaryEmotion := entry.1, emotionScores := scores,
      next := st.next + 1 }
  else
    { st with emotionScores := scores, next := st.next + 1 }

/-- The category loop of `detectEmotion` (lines 90 to 116). -/
def emotionScan (content : String) (rng : Rng) (n : Nat) : EmotionScan :=
  emotionKeywords.foldl (emotionStep content rng)
    { highestIntensity := 0, primaryEmotion := "neutral", emotionScores := [], next := n }

/-- Assignment `emotionScores[key] = value` on an insertion-ordered object. -/
def setScore (scores : List (String × ℚ)) (key : String) (value : ℚ) : List (String × ℚ) :=
  if scores.any (fun e => e.1 == key) then
    scores.map (fun e => if e.1 == key then (e.1, value) else e)
  else scores ++ [(key, value)]

/-- The neutral default (lines 118 to 123): applied when the best score is below `0.1`. -/
def emotionDefault (rng : Rng) (st : EmotionScan) : EmotionScan :=
  if st.highestIntensity < 1 / 10 then
    let h : ℚ := 3 / 10 + rng st.next * (4 / 10)
    { highestIntensity := h, primaryEmotion := "neutral",
      emotionScores := setScore st.emotionScores "neutral" h, next := st.next + 1 }
  else st

/-- The second loop of `detectEmotion` (lines 126 to 135): one draw per pushed entry. -/
def secondaryLoop (rng : Rng) (primaryEmotion : String) :
    List (String × ℚ) → Nat → List EmotionEntry × Nat
  | [], n => ([], n)
  | (emotion, intensity) :: rest, n =>
    if emotion ≠ primaryEmotion ∧ intensity > 2 / 10 then
      let r := secondaryLoop rng primaryEmotion rest (n + 1)
      ({ emotion := emotion, intensity := intensity, confidence := 7 / 10 + rng n * (3 / 10) } :: r.1,
        r.2)
    else secondaryLoop rng primaryEmotion rest n

/-- The object returned by `detectEmotion`. -/
structure EmotionAnalysis where
  primary_emotion : EmotionEntry
  secondary_emotions : List EmotionEntry
  all_emotions : List (String × ℚ)
deriving DecidableEq

/-- The method `MockMLService.detectEmotion(content)`, reading its draws from position `n`. -/
def MockMLService.detectEmotion (content : String) (rng : Rng) (n : Nat) : EmotionAnalysis × Nat :=
  let st := emotionDefault rng (emotionScan content rng n)
  let sec := secondaryLoop rng st.primaryEmotion st.emotionScores st.next
  ({ primary_emotion :=
       { emotion := st.primaryEmotion, intensity := st.highestIntensity,
         confidence := 8 / 10 + rng sec.2 * (2 / 10) },
     secondary_emotions := sec.1.take 2,
     all_emotions := st.emotionScores }, sec.2 + 1)

/-- The object returned by `MockMLService.analyzeText` (the ISO timestamp is kept as `now`). -/
structure MockResult where
  text : String
  abuse_detection : AbuseDetection
  emotion_analysis : EmotionAnalysis
  timestamp : Nat
deriving DecidableEq

/-- The method `MockMLService.analyzeText(text)`: lower-case, then abuse, then emotion. -/
def MockMLService.analyzeText (text : String) (rng : Rng) (now : Nat) : MockResult :=
  let content := toLowerCase text
  let abuse := MockMLService.detectAbuse content rng 0
  let emo := MockMLService.detectEmotion content rng abuse.2
  { text := text, abuse_detection := abuse.1, emotion_analysis := emo.1, timestamp := now }

/-! ## The adapter (`mlService.js`) and the Message `analysis` sub-document -/

/-- An element of `analysis.secondary_emotions`. -/
structure SecondaryEmotion where
  emotion : String
  intensity : ℚ
deriving DecidableEq

/-- The analysis object returned by `MLService.analyzeText` and stored in `message.analysis`
(`raw_analysis` and `error` are not schema paths and are dropped on assignment). -/
structure Analysis where
  abuse_detected : Bool
  abuse_type : String
  confidence_score : ℚ
  emotion : String
  emotion_intensity : ℚ
  secondary_emotions : List SecondaryEmotion
  processed_at : Nat
deriving DecidableEq

/-- The method `MLService.getDefaultAnalysis()`. -/
def MLService.getDefaultAnalysis (now : Nat) : Analysis :=
  { abuse_detected := false, abuse_type := "none", confidence_score := 0, emotion := "neutral",
    emotion_intensity := 0, secondary_emotions := [], processed_at := now }

/-- The JavaScript expression `x || 'none'` on an optional string (`null`, `undefined` and the
empty string are falsy). -/
def orNone : Option String → String
  | some s => if s = "" then "none" else s
  | none => "none"

/-- The conversion "mock format to expected format" of `MLService.analyzeText`
(lines 25 to 37). -/
def MLService.convert (result : MockResult) (now : Nat) : Analysis :=
  { abuse_detected := result.abuse_detection.is_abusive,
    abuse_type := orNone result.abuse_detection.abuse_type,
    confidence_score := result.abuse_detection.confidence,
    emotion := result.emotion_analysis.primary_emotion.emotion,
    emotion_intensity := result.emotion_analysis.primary_emotion.intensity,
    secondary_emotions := result.emotion_analysis.secondary_emotions.map
      (fun e => { emotion := e.emotion, intensity := e.intensity }),
    processed_at := now }

/-- The method `MLService.analyzeText(text)`.  With `USE_MOCK_ML` the built-in engine is run and converted;
otherwise the answer of the external service is returned, `external = none` standing for a
failed or timed-out request, which yields the default analysis. -/
def MLService.analyzeText (USE_MOCK_ML : Bool) (text : String) (rng : Rng)
    (external : Option Analysis) (now : Nat) : Analysis :=
  if USE_MOCK_ML then
    MLService.convert (MockMLService.analyzeText text rng now) now
  else
    match external with
    | some data => data
    | none => MLService.getDefaultAnalysis now

/-! ## Entities (`models/Message.js`, `models/Flag.js`) -/

/-- Modelled from the spec: the User model (`models/User.js`) is not among the sources; the
record keeps the identity, the display name, the account switch `isActive` and the three
counters `stats.totalMessages`, `stats.flaggedMessages`, `stats.warningsReceived` that the
message and flag routes read or update. -/
structure User where
  _id : Nat
  username : String
  isActive : Bool
  totalMessages : Nat
  flaggedMessages : Nat
  warningsReceived : Nat
deriving DecidableEq

/-- A Message document (the transport metadata `ip_address` / `user_agent` is left out). -/
structure Message where
  _id : Nat
  userId : Nat
  username : String
  text : String
  chatroom : String
  messageType : String
  recipientId : Option Nat
  recipientUsername : Option String
  analysis : Analysis
  status : String
  createdAt : Nat
deriving DecidableEq

/-- The `metadata` sub-document of a Flag. -/
structure FlagMetadata where
  chatroom : Option String
  user_previous_flags : Option Nat
  emotion_trigger : Option String
  intensity_threshold_exceeded : Option Bool
deriving DecidableEq

/-- A Flag document (`escalated_to` / `escalated_at` are never written by the core and are
left out). -/
structure Flag where
  _id : Nat
  messageId : Nat
  userId : Nat
  moderatorId : Option Nat
  flagType : String
  reason : String
  description : Option String
  severity : String
  status : String
  action_taken : String
  ai_confidence : ℚ
  reviewer_notes : Option String
  reviewed_by : Option Nat
  reviewed_at : Option Nat
  metadata : FlagMetadata
  createdAt : Nat
deriving DecidableEq

/-- The property `v.length` of a JavaScript string: the number of UTF-16 code units, two for
every character outside the Basic Multilingual Plane. -/
def jsLength (v : String) : Nat :=
  (v.toList.map (fun c => if c.toNat < 65536 then 1 else 2)).sum

/-- The `maxlength` validator of mongoose on an optional string path: `v.length <= limit`,
in UTF-16 code units. -/
def maxlength (limit : Nat) : Option String → Bool
  | some v => decide (jsLength v ≤ limit)
  | none => true

/-- The `min: 0, max: 100` validators on a number path. -/
def inRange100 (v : ℚ) : Bool := decide (0 ≤ v) && decide (v ≤ 100)

/-- The `enum` of `flagSchema.flagType`. -/
def flagTypes : List String := ["auto", "manual", "user_report"]

/-- The `enum` of `flagSchema.reason` (also the list of `validateFlag`). -/
def flagReasons : List String :=
  ["harassment", "bullying", "hate_speech", "threats", "spam", "sexual_content",
   "inappropriate_emotion", "other"]

/-- The `enum` of `flagSchema.severity` (also the list of `validateFlag`). -/
def severities : List String := ["low", "medium", "high", "critical"]

/-- The `enum` of `flagSchema.status`. -/
def flagStatuses : List String := ["pending", "reviewed", "dismissed", "escalated"]

/-- The `enum` of `flagSchema.action_taken`; also the list tested by the review route. -/
def actions : List String :=
  ["none", "warning", "timeout", "ban", "message_removal", "account_suspension"]

/-- The list of statuses accepted by the review route. -/
def reviewStatuses : List String := ["reviewed", "dismissed", "escalated"]

/-- The `enum` of `messageSchema.analysis.abuse_type`. -/
def abuseTypes : List String :=
  ["harassment", "bullying", "hate_speech", "threats", "spam", "sexual_content", "none"]

/-- The `enum` of `messageSchema.analysis.emotion`. -/
def emotions : List String :=
  ["anger", "joy", "sadness", "fear", "disgust", "surprise", "neutral"]

/-- The `enum` of `messageSchema.messageType`. -/
def messageTypes : List String := ["public", "private"]

/-- The `enum` of `messageSchema.status`. -/
def messageStatuses : List String := ["active", "flagged", "hidden", "deleted"]

/-- Schema validation run by `flag.save()` (`models/Flag.js`). -/
def Flag.valid (f : Flag) : Bool :=
  flagTypes.contains f.flagType && flagReasons.contains f.reason &&
  maxlength 500 f.description && severities.contains f.severity &&
  flagStatuses.contains f.status && actions.contains f.action_taken &&
  inRange100 f.ai_confidence && maxlength 1000 f.reviewer_notes

/-- Schema validation of the `analysis` sub-document (`models/Message.js`, lines 37 to 79). -/
def Analysis.valid (a : Analysis) : Bool :=
  abuseTypes.contains a.abuse_type && inRange100 a.confidence_score &&
  emotions.contains a.emotion && inRange100 a.emotion_intensity &&
  a.secondary_emotions.all (fun e => emotions.contains e.emotion && inRange100 e.intensity)

/-- Schema validation run by `message.save()` (`models/Message.js`). -/
def Message.valid (m : Message) : Bool :=
  m.username != "" && m.text != "" && decide (jsLength m.text ≤ 2000) && m.chatroom != "" &&
  messageTypes.contains m.messageType &&
  (m.messageType != "private" ||
    (m.recipientId.isSome && (m.recipientUsername.getD "") != "")) &&
  m.analysis.valid && messageStatuses.contains m.status

/-! ## The store and the real-time events -/

/-- The three collections, and the source of fresh ObjectIds. -/
structure Store where
  users : List User
  messages : List Message
  flags : List Flag
  nextId : Nat
deriving DecidableEq

/-- The scope of an emission: `io.emit`, `io.to('moderators').emit`, or
`io.to(<user id>).emit`. -/
inductive Target where
  | all
  | moderators
  | user (id : Nat)
deriving DecidableEq

/-- The payloads of the events emitted by the message and flag routes. -/
inductive Payload where
  | newMessage (message : Message) (userId : Nat) (username : String)
  | messageFlagged (message : Message) (flag : Flag) (userId : Nat) (username : String)
  | flagCreated (flag : Flag) (message : Message) (flaggedBy : String)
  | flagReviewed (flagId : Nat) (status : String) (action_taken : Option String)
      (reviewedBy : String)
  | messageStatusUpdated (messageId : Nat) (status : String) (updatedBy : String)
deriving DecidableEq

/-- One call `io[.to(room)].emit(event, payload)`. -/
structure Emission where
  target : Target
  event : String
  payload : Payload
deriving DecidableEq

/-- The HTTP answer: status code, `success` and `message` of the JSON body. -/
structure Response where
  status : Nat
  success : Bool
  message : String
deriving DecidableEq

/-- What a route handler leaves behind: the store, the answer and the emissions, in order. -/
structure Outcome where
  store : Store
  response : Response
  events : List Emission
deriving DecidableEq

/-- An update of the first document selected by `p` (`updateOne` / `findByIdAndUpdate` /
`save()` of a loaded document). -/
def updateFirst {α : Type} (p : α → Bool) (g : α → α) : List α → List α
  | [] => []
  | x :: xs => if p x then g x :: xs else x :: updateFirst p g xs

/-- The query `User.findById(id)`. -/
def Store.findUser (s : Store) (id : Nat) : Option User := s.users.find? (fun u => u._id == id)

/-- The query `Message.findById(id)`. -/
def Store.findMessage (s : Store) (id : Nat) : Option Message :=
  s.messages.find? (fun m => m._id == id)

/-- The query `Flag.findById(id)`. -/
def Store.findFlag (s : Store) (id : Nat) : Option Flag := s.flags.find? (fun f => f._id == id)

/-- The update `User.findByIdAndUpdate(id, update)`. -/
def Store.updateUser (s : Store) (id : Nat) (g : User → User) : Store :=
  { s with users := updateFirst (fun u => u._id == id) g s.users }

/-- The update `Message.findByIdAndUpdate(id, update)`, and `message.save()` of a loaded message. -/
def Store.updateMessage (s : Store) (id : Nat) (g : Message → Message) : Store :=
  { s with messages := updateFirst (fun m => m._id == id) g s.messages }

/-- The method `flag.save()` of a loaded flag. -/
def Store.updateFlag (s : Store) (id : Nat) (g : Flag → Flag) : Store :=
  { s with flags := updateFirst (fun f => f._id == id) g s.flags }

/-- The query `{ messageId, status: { $ne: 'dismissed' } }` of the manual-flag route. -/
def activeFor (messageId : Nat) (f : Flag) : Bool :=
  f.messageId == messageId && f.status != "dismissed"

/-- The answer of the catch-all handler. -/
def serverError : Response := { status := 500, success := false, message := "Server error" }

/-- JavaScript truthiness of an optional string. -/
def truthy : Option String → Bool
  | some v => v != ""
  | none => false

/-! ## `POST /api/messages` (submitMessage) -/

/-- What the auto-flag rule hands to the flag constructor (lines 125 to 137 of
`routes/messages.js`): the fields of the new flag that are computed from the analysis. -/
structure FlagDirective where
  reason : String
  severity : String
  ai_confidence : ℚ
  emotion_trigger : String
  intensity_threshold_exceeded : Bool
deriving DecidableEq

/-- The auto-flag rule: `if (analysis.abuse_detected && analysis.confidence_score > 70)`,
with the severity and threshold expressions of the flag literal. -/
def autoFlagDirective (analysis : Analysis) : Option FlagDirective :=
  if analysis.abuse_detected = true ∧ analysis.confidence_score > 70 then
    some { reason := analysis.abuse_type,
           severity := if analysis.confidence_score > 90 then "high" else "medium",
           ai_confidence := analysis.confidence_score,
           emotion_trigger := analysis.emotion,
           intensity_threshold_exceeded := decide (analysis.emotion_intensity > 80) }
  else none

/-- The flag built by `new Flag(...)` in the message route (schema defaults filled in). -/
def autoFlag (id messageId : Nat) (caller : User) (chatroom : String) (d : FlagDirective)
    (now : Nat) : Flag :=
  { _id := id, messageId := messageId, userId := caller._id, moderatorId := none,
    flagType := "auto", reason := d.reason, description := none, severity := d.severity,
    status := "pending", action_taken := "none", ai_confidence := d.ai_confidence,
    reviewer_notes := none, reviewed_by := none, reviewed_at := none,
    metadata := { chatroom := some chatroom, user_previous_flags := none,
                  emotion_trigger := some d.emotion_trigger,
                  intensity_threshold_exceeded := some d.intensity_threshold_exceeded },
    createdAt := now }

/-- The analysis block of the message route (lines 119 to 157): attaches the analysis and, when
the rule fires, saves an auto flag, marks the message flagged and notifies the moderators.  A
flag rejected by the schema makes `flag.save()` throw, which the inner `catch` absorbs. -/
def analysisBlock (s : Store) (caller : User) (chatroom : String) (message : Message)
    (now : Nat) : Store × Message × List Emission :=
  match autoFlagDirective message.analysis with
  | some d =>
    let flag := autoFlag s.nextId message._id caller chatroom d now
    let s1 := { s with nextId := s.nextId + 1 }
    if flag.valid then
      let flagged := { message with status := "flagged" }
      ({ s1 with flags := s1.flags ++ [flag] }, flagged,
        [{ target := Target.moderators, event := "message-flagged",
           payload := Payload.messageFlagged flagged flag caller._id caller.username }])
    else (s1, message, [])
  | none => (s, message, [])

/-- The emissions of the `new-message` event (lines 166 to 195). -/
def newMessageEvents (caller : User) (messageType : String) (recipientId : Option Nat)
    (message : Message) : List Emission :=
  let payload := Payload.newMessage message caller._id caller.username
  if messageType = "private" then
    { target := Target.user caller._id, event := "new-message", payload := payload } ::
      recipientId.toList.map
        (fun r => { target := Target.user r, event := "new-message", payload := payload })
  else
    [{ target := Target.all, event := "new-message", payload := payload }]

/-- The document built by `new Message(...)` (lines 102 to 117); `recipientUser` is the
document found for a private message. -/
def newMessage (id : Nat) (caller : User) (text chatroom : String) (recipientId : Option Nat)
    (messageType : String) (recipientUser : Option User) (analysis : Analysis) (now : Nat) :
    Message :=
  { _id := id, userId := caller._id, username := caller.username, text := text,
    chatroom := chatroom, messageType := messageType,
    recipientId := if messageType = "private" then recipientId else none,
    recipientUsername := recipientUser.map (fun u => u.username),
    analysis := analysis, status := "active", createdAt := now }

/-- The tail of the message route (lines 159 to 201): `message.save()`, the `totalMessages`
counter, the `new-message` emissions and the answer.  A message rejected by the schema makes
`message.save()` throw, which the outer `catch` turns into the 500 answer. -/
def persistMessage (caller : User) (messageType : String) (recipientId : Option Nat)
    (r : Store × Message × List Emission) : Outcome :=
  if r.2.1.valid then
    let saved := { r.1 with messages := r.1.messages ++ [r.2.1] }
    { store := saved.updateUser caller._id
        (fun u => { u with totalMessages := u.totalMessages + 1 }),
      events := r.2.2 ++ newMessageEvents caller messageType recipientId r.2.1,
      response := { status := 201, success := true,
                    message := "Message created successfully" } }
  else
    { store := r.1, events := r.2.2, response := serverError }

/-- The handler of `POST /api/messages`, after authentication and `validateMessage`.
`analysis` is the value `mlService.analyzeText(text)` resolves to. -/
def submitMessage (s : Store) (caller : User) (text chatroom : String)
    (recipientId : Option Nat) (messageType : String) (analysis : Analysis) (now : Nat) :
    Outcome :=
  if messageType = "private" ∧ recipientId = none then
    { store := s, events := [],
      response := { status := 400, success := false,
                    message := "Recipient ID is required for private messages" } }
  else
    let recipientUser : Option User :=
      if messageType = "private" then recipientId.bind s.findUser else none
    if messageType = "private" ∧ recipientUser = none then
      { store := s, events := [],
        response := { status := 404, success := false, message := "Recipient not found" } }
    else
      persistMessage caller messageType recipientId
        (analysisBlock { s with nextId := s.nextId + 1 } caller chatroom
          (newMessage s.nextId caller text chatroom recipientId messageType recipientUser
            analysis now) now)

/-! ## `PUT /api/messages/:id/status` and `POST /api/messages/:id/reanalyze` -/

/-- The handler of `PUT /api/messages/:id/status` (setMessageStatus), after `moderatorAuth`.
`findByIdAndUpdate` writes without running the schema validators. -/
def setMessageStatus (s : Store) (caller : User) (messageId : Nat) (status : String) :
    Outcome :=
  if ¬ messageStatuses.contains status then
    { store := s, events := [],
      response := { status := 400, success := false, message := "Invalid status" } }
  else
    match s.findMessage messageId with
    | none =>
      { store := s, events := [],
        response := { status := 404, success := false, message := "Message not found" } }
    | some message =>
      { store := s.updateMessage messageId (fun m => { m with status := status }),
        events := [{ target := Target.moderators, event := "message-status-updated",
                     payload := Payload.messageStatusUpdated message._id status
                       caller.username }],
        response := { status := 200, success := true, message := "Message status updated" } }

/-- The handler of `POST /api/messages/:id/reanalyze` (reanalyzeMessage), after
`moderatorAuth`.  `analysis` is the value `mlService.analyzeText(message.text)` resolves
to. -/
def reanalyzeMessage (s : Store) (messageId : Nat) (analysis : Analysis) (now : Nat) :
    Outcome :=
  match s.findMessage messageId with
  | none =>
    { store := s, events := [],
      response := { status := 404, success := false, message := "Message not found" } }
  | some message =>
    let updated := { message with analysis := { analysis with processed_at := now } }
    if updated.valid then
      { store := s.updateMessage message._id
          (fun m => { m with analysis := { analysis with processed_at := now } }),
        events := [],
        response := { status := 200, success := true,
                      message := "Message re-analyzed successfully" } }
    else { store := s, events := [], response := serverError }

/-! ## `POST /api/flags` (createManualFlag) -/

/-- White space in the sense of the class `\s` of regular expressions, which the sanitizer
`trim()` strips from both ends. -/
def isSpace (c : Char) : Bool :=
  [9, 10, 11, 12, 13, 32, 160, 5760, 8232, 8233, 8239, 8287, 12288, 65279].contains c.toNat ||
    (decide (8192 ≤ c.toNat) && decide (c.toNat ≤ 8202))

/-- The sanitizer `trim()`. -/
def trim (v : String) : String :=
  String.mk ((v.toList.dropWhile isSpace).reverse.dropWhile isSpace).reverse

/-- The validator `isLength({ min, max })`; lengths are counted in characters. -/
def isLength (min : Nat) (max : Option Nat) (v : String) : Bool :=
  decide (min ≤ v.length) &&
    (match max with
     | some m => decide (v.length ≤ m)
     | none => true)

/-- The middleware `validateFlag` on the request body: `isIn` on the reason and the severity,
and `optional().trim().isLength({ max: 500 })` on the description (`none` is an absent
description). -/
def validateFlag (reason : String) (description : Option String) (severity : String) : Bool :=
  flagReasons.contains reason &&
    (match description with
     | some d => isLength 0 (some 500) (trim d)
     | none => true) &&
    severities.contains severity

/-- The flag built by `new Flag(...)` in the manual-flag route (schema defaults filled in). -/
def manualFlag (s : Store) (caller : User) (message : Message) (reason : String)
    (description : Option String) (severity : String) (now : Nat) : Flag :=
  { _id := s.nextId, messageId := message._id, userId := message.userId,
    moderatorId := some caller._id, flagType := "manual", reason := reason,
    description := description, severity := severity, status := "pending",
    action_taken := "none", ai_confidence := 0, reviewer_notes := none, reviewed_by := none,
    reviewed_at := none,
    metadata := { chatroom := some message.chatroom,
                  user_previous_flags :=
                    some (s.flags.countP (fun f => f.userId == message.userId)),
                  emotion_trigger := none, intensity_threshold_exceeded := none },
    createdAt := now }

/-- The handler of `POST /api/flags`, after `moderatorAuth`, `validateFlag` and
`handleValidationErrors`. -/
def createManualFlag (s : Store) (caller : User) (messageId : Nat) (reason : String)
    (description : Option String) (severity : String) (now : Nat) : Outcome :=
  match s.findMessage messageId with
  | none =>
    { store := s, events := [],
      response := { status := 404, success := false, message := "Message not found" } }
  | some message =>
    if s.flags.any (activeFor messageId) then
      { store := s, events := [],
        response := { status := 400, success := false,
                      message := "Message is already flagged" } }
    else
      let flag := manualFlag s caller message reason description severity now
      let s1 := { s with nextId := s.nextId + 1 }
      if flag.valid then
        let s2 := { s1 with flags := s1.flags ++ [flag] }
        let flagged := { message with status := "flagged" }
        if flagged.valid then
          let s3 := s2.updateMessage message._id (fun m => { m with status := "flagged" })
          { store := s3.updateUser message.userId
              (fun u => { u with flaggedMessages := u.flaggedMessages + 1 }),
            events := [{ target := Target.moderators, event := "flag-created",
                         payload := Payload.flagCreated flag flagged caller.username }],
            response := { status := 201, success := true,
                          message := "Flag created successfully" } }
        else { store := s2, events := [], response := serverError }
      else { store := s1, events := [], response := serverError }

/-! ## `PUT /api/flags/:id/review` (reviewFlag) and `takeModeratorAction` -/

/-- The helper `takeModeratorAction(flag, action, moderatorId)`: the `switch` on the action.
Its `try`/`catch` only logs, so the helper always returns. -/
def takeModeratorAction (s : Store) (flag : Flag) (action : String) : Store :=
  if action = "warning" then
    s.updateUser flag.userId (fun u => { u with warningsReceived := u.warningsReceived + 1 })
  else if action = "message_removal" then
    s.updateMessage flag.messageId (fun m => { m with status := "deleted" })
  else if action = "timeout" then
    s.updateUser flag.userId (fun u => { u with isActive := false })
  else if action = "ban" ∨ action = "account_suspension" then
    s.updateUser flag.userId (fun u => { u with isActive := false })
  else s

/-- The assignments of lines 183 to 187 on the loaded flag. -/
def reviewedFlag (flag : Flag) (caller : User) (status : String)
    (action_taken reviewer_notes : Option String) (now : Nat) : Flag :=
  { flag with status := status,
              action_taken := if truthy action_taken then action_taken.getD "" else "none",
              reviewer_notes := reviewer_notes,
              reviewed_by := some caller._id,
              reviewed_at := some now }

/-- The handler of `PUT /api/flags/:id/review`, after `moderatorAuth`. -/
def reviewFlag (s : Store) (caller : User) (flagId : Nat) (status : String)
    (action_taken reviewer_notes : Option String) (now : Nat) : Outcome :=
  if ¬ reviewStatuses.contains status then
    { store := s, events := [],
      response := { status := 400, success := false, message := "Invalid status" } }
  else if truthy action_taken ∧ ¬ actions.contains (action_taken.getD "") then
    { store := s, events := [],
      response := { status := 400, success := false, message := "Invalid action" } }
  else
    match s.findFlag flagId with
    | none =>
      { store := s, events := [],
        response := { status := 404, success := false, message := "Flag not found" } }
    | some flag =>
      let flag1 := reviewedFlag flag caller status action_taken reviewer_notes now
      if flag1.valid then
        let s1 := s.updateFlag flag._id (fun _ => flag1)
        let s2 :=
          if truthy action_taken ∧ action_taken.getD "" ≠ "none" then
            takeModeratorAction s1 flag1 (action_taken.getD "")
          else s1
        { store := s2,
          events := [{ target := Target.moderators, event := "flag-reviewed",
                       payload := Payload.flagReviewed flag._id status action_taken
                         caller.username }],
          response := { status := 200, success := true,
                        message := "Flag reviewed successfully" } }
      else { store := s, events := [], response := serverError }

/-! ## Sequential runs of the three operations -/

/-- A request to one of the three state-changing operations of the flag lifecycle. -/
inductive Op where
  | submit (caller : User) (text chatroom : String) (recipientId : Option Nat)
      (messageType : String) (analysis : Analysis) (now : Nat)
  | manual (caller : User) (messageId : Nat) (reason : String) (description : Option String)
      (severity : String) (now : Nat)
  | review (caller : User) (flagId : Nat) (status : String)
      (action_taken reviewer_notes : Option String) (now : Nat)

/-- Running one request. -/
def Op.run (s : Store) : Op → Outcome
  | Op.submit caller text chatroom recipientId messageType analysis now =>
    submitMessage s caller text chatroom recipientId messageType analysis now
  | Op.manual caller messageId reason description severity now =>
    createManualFlag s caller messageId reason description severity now
  | Op.review caller flagId status action_taken reviewer_notes now =>
    reviewFlag s caller flagId status action_taken reviewer_notes now

/-- Running a sequence of requests one after the other. -/
def runAll (s : Store) (ops : List Op) : Store :=
  ops.foldl (fun st op => (op.run st).store) s

/-- The number of non-dismissed flags that reference a message. -/
def activeCount (s : Store) (messageId : Nat) : Nat := s.flags.countP (activeFor messageId)

/-- A store with users but neither messages nor flags. -/
def emptyStore (users : List User) (nextId : Nat) : Store :=
  { users := users, messages := [], flags := [], nextId := nextId }

/-! ## Worked examples -/

/-- The text of Scenario A. -/
def scenarioA : String := "you are worthless and I will kill you"

/-- A chat user used in the worked examples. -/
def alice : User :=
  { _id := 1, username := "alice", isActive := true, totalMessages := 0, flaggedMessages := 0,
    warningsReceived := 0 }

/-- A moderator used in the worked examples. -/
def bob : User :=
  { _id := 2, username := "bob", isActive := true, totalMessages := 0, flaggedMessages := 0,
    warningsReceived := 0 }

/-! ## Predicates and abbreviations used in the statements -/

/-- A score table whose names are schema emotions and whose values lie in `[0, 1]`. -/
def ScoresOk (scores : List (String × ℚ)) : Prop :=
  ∀ e ∈ scores, emotions.contains e.1 = true ∧ 0 ≤ e.2 ∧ e.2 ≤ 1

/-- The invariant of the emotion loop: the running maximum and every recorded score lie in
`[0, 1]`, and every name is one of the schema emotions. -/
def EmotionScan.Ok (st : EmotionScan) : Prop :=
  0 ≤ st.highestIntensity ∧ st.highestIntensity ≤ 1 ∧
    emotions.contains st.primaryEmotion = true ∧ ScoresOk st.emotionScores

/-- The names of the six abuse categories, in table order. -/
def abuseNames : List String := abuseKeywords.map Prod.fst

/-- The invariant of the abuse loop: the running maximum lies in `[0, 1]` and the candidate,
if any, is one of the six categories. -/
def AbuseScan.Ok (st : AbuseScan) : Prop :=
  0 ≤ st.highestConfidence ∧ st.highestConfidence ≤ 1 ∧
    ∀ t, st.detectedType = some t → t ∈ abuseNames

/-- The analysis of the text of Scenario A by the built-in engine. -/
def scenarioAAnalysis (rng : Rng) (now : Nat) : Analysis :=
  MLService.analyzeText true scenarioA rng none now

/-- The action is absent (or falsy), or one of the six defined actions. -/
def actionOk (action_taken : Option String) : Bool :=
  !truthy action_taken || actions.contains (action_taken.getD "")

/-- The store a successful review leaves behind. -/
def reviewedStore (s : Store) (f : Flag) (caller : User) (status : String)
    (action_taken reviewer_notes : Option String) (now : Nat) : Store :=
  if truthy action_taken ∧ action_taken.getD "" ≠ "none" then
    takeModeratorAction
      (s.updateFlag f._id (fun _ => reviewedFlag f caller status action_taken reviewer_notes now))
      (reviewedFlag f caller status action_taken reviewer_notes now) (action_taken.getD "")
  else
    s.updateFlag f._id (fun _ => reviewedFlag f caller status action_taken reviewer_notes now)

/-- A stored public message of alice, already flagged. -/
def sampleMessage : Message :=
  { _id := 10, userId := 1, username := "alice", text := "hello", chatroom := "general",
    messageType := "public", recipientId := none, recipientUsername := none,
    analysis := MLService.getDefaultAnalysis 0, status := "flagged", createdAt := 0 }

/-- A pending manual flag of bob on that message. -/
def sampleFlag : Flag :=
  { _id := 11, messageId := 10, userId := 1, moderatorId := some 2, flagType := "manual",
    reason := "spam", description := none, severity := "low", status := "pending",
    action_taken := "none", ai_confidence := 0, reviewer_notes := none, reviewed_by := none,
    reviewed_at := none,
    metadata := { chatroom := some "general", user_previous_flags := some 0,
                  emotion_trigger := none, intensity_threshold_exceeded := none },
    createdAt := 1 }

/-- The store holding alice, bob, the message and its flag. -/
def sampleStore : Store :=
  { users := [alice, bob], messages := [sampleMessage], flags := [sampleFlag], nextId := 12 }

/-- The request of Scenario D: review as "reviewed" with action "message_removal". -/
def scenarioD (s : Store) (caller : User) (flagId : Nat) (reviewer_notes : Option String)
    (now : Nat) : Outcome :=
  reviewFlag s caller flagId "reviewed" (some "message_removal") reviewer_notes now

/-- The conflict answer of the manual-flag route. -/
def conflict : Response :=
  { status := 400, success := false, message := "Message is already flagged" }

/-- The store a successful manual flag leaves behind. -/
def flaggedStore (s : Store) (caller : User) (message : Message) (reason : String)
    (description : Option String) (severity : String) (now : Nat) : Store :=
  (Store.updateMessage
    { s with nextId := s.nextId + 1,
             flags := s.flags ++ [manualFlag s caller message reason description severity now] }
    message._id (fun m => { m with status := "flagged" })).updateUser message.userId
    (fun u => { u with flaggedMessages := u.flaggedMessages + 1 })

/-- A request that does not move a dismissed flag to another status (every request that is
not a review, and every review of a flag that is not dismissed, qualifies). -/
def Op.keepsDismissed (s : Store) : Op → Bool
  | Op.review _ flagId status _ _ _ =>
    match s.findFlag flagId with
    | some f => f.status != "dismissed" || status == "dismissed"
    | none => true
  | _ => true

/-- A sequence of requests none of which, at the time it runs, revives a dismissed flag. -/
def admissible : Store → List Op → Bool
  | _, [] => true
  | s, op :: rest => op.keepsDismissed s && admissible (op.run s).store rest

/-- The invariant carried along a run: identities of referenced and stored messages are
below the ObjectId counter, and no message has two non-dismissed flags. -/
def Store.Inv (s : Store) : Prop :=
  (∀ f ∈ s.flags, f.messageId < s.nextId) ∧ (∀ m ∈ s.messages, m._id < s.nextId) ∧
    ∀ messageId, activeCount s messageId ≤ 1

/-- The requests of the worked run: alice posts, bob flags the post, dismisses his flag, flags
the post again, and then reviews the dismissed flag once more, as "reviewed". -/
def revivalRun : List Op :=
  [ Op.submit alice "hello" "general" none "public" (MLService.getDefaultAnalysis 0) 0,
    Op.manual bob 10 "spam" none "low" 1,
    Op.review bob 11 "dismissed" none none 2,
    Op.manual bob 10 "spam" none "low" 3,
    Op.review bob 11 "reviewed" none none 4 ]

/-- The requests of the second worked run: alice posts, bob flags the post and reviews his
flag as "reviewed". -/
def secondReviewRun : List Op :=
  [ Op.submit alice "hello" "general" none "public" (MLService.getDefaultAnalysis 0) 0,
    Op.manual bob 10 "spam" none "low" 1,
    Op.review bob 11 "reviewed" none none 2 ]

/-! ## Worked examples for the message lifecycle -/

/-- The sample message after a moderator removed it. -/
def deletedMessage : Message := { sampleMessage with status := "deleted" }

/-- A store holding alice, bob and the removed message, without flags. -/
def deletedStore : Store :=
  { users := [alice, bob], messages := [deletedMessage], flags := [], nextId := 11 }

/-- An analysis, as an external service may answer it, that reports abuse with confidence 80
but names no category. -/
def uncategorised : Analysis :=
  { abuse_detected := true, abuse_type := "none", confidence_score := 80, emotion := "anger",
    emotion_intensity := 85, secondary_emotions := [], processed_at := 0 }

/-- An analysis, as an external service may answer it, that reports harassment with
confidence 85. -/
def harassing : Analysis :=
  { abuse_detected := true, abuse_type := "harassment", confidence_score := 85,
    emotion := "anger", emotion_intensity := 90, secondary_emotions := [], processed_at := 0 }

/-- The recipient document looked up by the message route (lines 91 to 100). -/
def recipientOf (s : Store) (messageType : String) (recipientId : Option Nat) : Option User :=
  if messageType = "private" then recipientId.bind s.findUser else none

/-- The `message-flagged` emission of the message route. -/
def flaggedEvent (caller : User) (message : Message) (flag : Flag) : Emission :=
  { target := Target.moderators, event := "message-flagged",
    payload := Payload.messageFlagged message flag caller._id caller.username }

/-- The `try`/`catch` structure of `MLService.analyzeText` with the failure of the call made
explicit: `engine` is what `this.mockService.analyzeText(text)` returned and `external` what
the POST to `/analyze` returned, `none` standing for a call that threw or timed out; in
either mode a failed call is answered by `getDefaultAnalysis()`. -/
def MLService.analyzeTextWith (USE_MOCK_ML : Bool) (engine : Option MockResult)
    (external : Option Analysis) (now : Nat) : Analysis :=
  if USE_MOCK_ML then
    match engine with
    | some result => MLService.convert result now
    | none => MLService.getDefaultAnalysis now
  else
    match external with
    | some data => data
    | none => MLService.getDefaultAnalysis now

/-- A second stored message of alice. -/
def secondMessage : Message := { sampleMessage with _id := 20, text := "again", status := "flagged" }

/-- A store in which alice already has two flags: a dismissed one on her first message and a
pending one on her second message. -/
def busyStore : Store :=
  { users := [alice, bob], messages := [{ sampleMessage with status := "active" }, secondMessage],
    flags := [{ sampleFlag with status := "dismissed" },
              { sampleFlag with _id := 21, messageId := 20, flagType := "auto",
                                moderatorId := none }],
    nextId := 30 }

/-! ## The emotion loop as scores followed by a maximum -/

/-- The score of one emotion category: keyword ratio plus jitter, capped at 1 (line 105 to
108 of `mockMLService.js`), for the draw at position `pos`. -/
def emotionIntensity (content : String) (rng : Rng) (pos : Nat) (keywords : List String) : ℚ :=
  min 1 ((countMatches content keywords : ℚ) / (keywords.length : ℚ) + rng pos * (2 / 10))

/-- The scores of the categories of a table, the first one using the draw at `pos`. -/
def emotionScoresFrom (content : String) (rng : Rng) :
    Nat → List (String × List String) → List (String × ℚ)
  | _, [] => []
  | pos, e :: rest =>
    (e.1, emotionIntensity content rng pos e.2) :: emotionScoresFrom content rng (pos + 1) rest

/-- The running maximum of a score table: a later score replaces the maximum only when it is
strictly greater. -/
def bestScore (init : ℚ × String) (scores : List (String × ℚ)) : ℚ × String :=
  scores.foldl (fun acc e => if e.2 > acc.1 then (e.2, e.1) else acc) init

/-- The text of Scenario B. -/
def scenarioB : String := "have a great day, feeling happy"

/-- The analysis of the text of Scenario B by the built-in engine. -/
def scenarioBAnalysis (rng : Rng) (now : Nat) : Analysis :=
  MLService.analyzeText true scenarioB rng none now

/-- Draws under which the engine injects a false positive: every draw is 0 except the third,
which is one half. -/
def falsePositiveDraws : Rng := fun n => if n = 2 then 1 / 2 else 0

/-! ## The real-time layer (`server.js`, lines 91 to 178) -/

/-- An entry of the map `onlineUsers`: `{ id, socketId, joinedAt }`. -/
structure PresenceEntry where
  id : String
  socketId : Nat
  joinedAt : Nat
deriving DecidableEq

/-- A connected socket: `socket.id`, the property `socket.userId` set by `authenticate`, and
the rooms joined through `socket.join` (the socket's own default room is left out). -/
structure Socket where
  id : Nat
  userId : Option String
  rooms : List String
deriving DecidableEq

/-- The state of the real-time layer: the map `onlineUsers` in insertion order, the connected
sockets, and the source of fresh socket identifiers. -/
structure Realtime where
  onlineUsers : List PresenceEntry
  sockets : List Socket
  nextSocket : Nat
deriving DecidableEq

/-- The scope of an emission of a socket handler: `io.emit` (everyone), `socket.broadcast.emit`
(everyone but the sender), `socket.to(room).emit` (the room, but not the sender) and
`socket.emit` (the sender alone). -/
inductive Scope where
  | everyone
  | others (sender : Nat)
  | roomOthers (room : String) (sender : Nat)
  | sender (socket : Nat)
deriving DecidableEq

/-- The payloads of the events emitted by the socket handlers. -/
inductive SocketPayload where
  | usersOnline (snapshot : List PresenceEntry)
  | userJoined (id : String)
  | userLeft (id : String)
  | typing (username chatroom : String)
  | analyzing (messageId text userId chatroom : String)
  | analysisError
deriving DecidableEq

/-- One emission of a socket handler. -/
structure SocketEmission where
  scope : Scope
  event : String
  payload : SocketPayload
deriving DecidableEq

/-- The call `onlineUsers.set(key, value)`: an existing key keeps its place and gets the new
value, a new key is appended. -/
def mapSet (m : List PresenceEntry) (e : PresenceEntry) : List PresenceEntry :=
  if m.any (fun x => x.id == e.id) then m.map (fun x => if x.id == e.id then e else x)
  else m ++ [e]

/-- The call `onlineUsers.delete(key)`. -/
def mapDelete (m : List PresenceEntry) (key : String) : List PresenceEntry :=
  m.filter (fun x => x.id != key)

/-- The call `socket.join(room)` on the set of rooms of a socket. -/
def joinRoom (rooms : List String) (room : String) : List String :=
  if rooms.contains room then rooms else rooms ++ [room]

/-- The connected socket with a given identifier. -/
def Realtime.findSocket (st : Realtime) (socket : Nat) : Option Socket :=
  st.sockets.find? (fun k => k.id == socket)

/-- The event `connection`: a socket with a fresh identifier and no handlers run yet. -/
def onConnection (st : Realtime) : Realtime × List SocketEmission :=
  ({ st with sockets := st.sockets ++ [{ id := st.nextSocket, userId := none, rooms := [] }],
             nextSocket := st.nextSocket + 1 }, [])

/-- The handler of `authenticate` (lines 98 to 118); the empty string stands for every falsy
identity.  A socket that is not connected has no handler. -/
def onAuthenticate (st : Realtime) (socket : Nat) (userId : String) (now : Nat) :
    Realtime × List SocketEmission :=
  match st.findSocket socket with
  | none => (st, [])
  | some _ =>
    if userId ≠ "" then
      let online := mapSet st.onlineUsers { id := userId, socketId := socket, joinedAt := now }
      ({ st with
          sockets := updateFirst (fun k => k.id == socket)
            (fun k => { k with userId := some userId, rooms := joinRoom k.rooms userId })
            st.sockets,
          onlineUsers := online },
        [{ scope := Scope.everyone, event := "users-online",
           payload := SocketPayload.usersOnline online },
         { scope := Scope.others socket, event := "user-joined",
           payload := SocketPayload.userJoined userId }])
    else (st, [])

/-- The handler of `join-moderator` (lines 121 to 124). -/
def onJoinModerator (st : Realtime) (socket : Nat) : Realtime × List SocketEmission :=
  match st.findSocket socket with
  | none => (st, [])
  | some _ =>
    ({ st with
        sockets := updateFirst (fun k => k.id == socket)
          (fun k => { k with rooms := joinRoom k.rooms "moderators" }) st.sockets }, [])

/-- The handler of `analyze-message` (lines 127 to 138); `data = none` stands for a payload
that cannot be destructured, which the `catch` answers with `analysis-error`. -/
def onAnalyzeMessage (st : Realtime) (socket : Nat)
    (data : Option (String × String × String × String)) : Realtime × List SocketEmission :=
  match st.findSocket socket with
  | none => (st, [])
  | some _ =>
    match data with
    | some (messageId, text, userId, chatroom) =>
      (st, [{ scope := Scope.roomOthers "moderators" socket, event := "message-analyzing",
              payload := SocketPayload.analyzing messageId text userId chatroom }])
    | none =>
      (st, [{ scope := Scope.sender socket, event := "analysis-error",
              payload := SocketPayload.analysisError }])

/-- The common body of the handlers of `typing-start` and `typing-stop` (lines 141 to 159),
`event` being `user-typing` or `user-stopped-typing`; the empty string stands for a falsy
`recipientId`. -/
def onTyping (event : String) (st : Realtime) (socket : Nat)
    (chatroom username messageType recipientId : String) : Realtime × List SocketEmission :=
  match st.findSocket socket with
  | none => (st, [])
  | some _ =>
    if messageType = "private" ∧ recipientId ≠ "" then
      (st, [{ scope := Scope.roomOthers recipientId socket, event := event,
              payload := SocketPayload.typing username chatroom }])
    else
      (st, [{ scope := Scope.others socket, event := event,
              payload := SocketPayload.typing username chatroom }])

/-- The handler of `disconnect` (lines 162 to 177); afterwards the socket is gone. -/
def onDisconnect (st : Realtime) (socket : Nat) : Realtime × List SocketEmission :=
  match st.findSocket socket with
  | none => (st, [])
  | some k =>
    let remaining := st.sockets.filter (fun x => x.id != socket)
    if truthy k.userId then
      let online := mapDelete st.onlineUsers (k.userId.getD "")
      ({ st with onlineUsers := online, sockets := remaining },
        [{ scope := Scope.everyone, event := "users-online",
           payload := SocketPayload.usersOnline online },
         { scope := Scope.others socket, event := "user-left",
           payload := SocketPayload.userLeft (k.userId.getD "") }])
    else ({ st with sockets := remaining }, [])

/-- The events the real-time layer reacts to. -/
inductive SocketEvent where
  | connection
  | authenticate (socket : Nat) (userId : String) (now : Nat)
  | joinModerator (socket : Nat)
  | analyzeMessage (socket : Nat) (data : Option (String × String × String × String))
  | typingStart (socket : Nat) (chatroom username messageType recipientId : String)
  | typingStop (socket : Nat) (chatroom username messageType recipientId : String)
  | disconnect (socket : Nat)
deriving DecidableEq

/-- The reaction to one event. -/
def Realtime.handle (st : Realtime) : SocketEvent → Realtime × List SocketEmission
  | SocketEvent.connection => onConnection st
  | SocketEvent.authenticate socket userId now => onAuthenticate st socket userId now
  | SocketEvent.joinModerator socket => onJoinModerator st socket
  | SocketEvent.analyzeMessage socket data => onAnalyzeMessage st socket data
  | SocketEvent.typingStart socket chatroom username messageType recipientId =>
    onTyping "user-typing" st socket chatroom username messageType recipientId
  | SocketEvent.typingStop socket chatroom username messageType recipientId =>
    onTyping "user-stopped-typing" st socket chatroom username messageType recipientId
  | SocketEvent.disconnect socket => onDisconnect st socket

/-- The state after a sequence of events. -/
def Realtime.run (st : Realtime) (events : List SocketEvent) : Realtime :=
  events.foldl (fun acc ev => (acc.handle ev).1) st

/-- The state at service start: nobody online, nobody connected. -/
def Realtime.initial : Realtime := { onlineUsers := [], sockets := [], nextSocket := 0 }

/-- The state reached from service start by a sequence of events. -/
def reached (events : List SocketEvent) : Realtime := Realtime.run Realtime.initial events

/-- The events of the worked run of the presence tracker: one socket connects, authenticates
as "X", authenticates again as "Y", and disconnects. -/
def staleRun : List SocketEvent :=
  [ SocketEvent.connection, SocketEvent.authenticate 0 "X" 1, SocketEvent.authenticate 0 "Y" 2,
    SocketEvent.disconnect 0 ]

/-- The events of Scenario F before the join under study: three sockets connect, socket 0
authenticates as "X" at time 1 and socket 1 as "Z" at time 2. -/
def presenceRun : List SocketEvent :=
  [ SocketEvent.connection, SocketEvent.connection, SocketEvent.connection,
    SocketEvent.authenticate 0 "X" 1, SocketEvent.authenticate 1 "Z" 2 ]

/-! ## Worked examples for the event scopes -/

/-- A private message that alice sends to herself, in a store holding alice and bob. -/
def selfNote : Outcome :=
  submitMessage (emptyStore [alice, bob] 10) alice "note to self" "general" (some 1) "private"
    (MLService.getDefaultAnalysis 0) 0

/-- The targets of the `new-message` emissions of an outcome, in order. -/
def newMessageTargets (o : Outcome) : List Target :=
  (o.events.filter (fun e => e.event == "new-message")).map (fun e => e.target)

/-! ## The abuse loop as ratios followed by a maximum -/

/-- The ratio `matches / totalKeywords` of one category (lines 50 to 60 of
`mockMLService.js`). -/
def keywordRatio (content : String) (keywords : List String) : ℚ :=
  (countMatches content keywords : ℚ) / (keywords.length : ℚ)

/-- The table `categories` filled by the loop of `detectAbuse`. -/
def abuseRatios (content : String) : List (String × ℚ) :=
  abuseKeywords.map (fun e => (e.1, keywordRatio content e.2))

/-- The score table of `detectEmotion` for the draws read from position `n`. -/
def emotionTable (content : String) (rng : Rng) (n : Nat) : List (String × ℚ) :=
  emotionScoresFrom content rng n emotionKeywords

/-- The empty text, used in the worked examples of the neutral default. -/
def silence : String := ""

/-! ## Concurrent requests to `POST /api/flags` -/

/-- The caller and the body of one request to the manual-flag route. -/
structure FlagRequest where
  caller : User
  messageId : Nat
  reason : String
  description : Option String
  severity : String
  now : Nat
deriving DecidableEq

/-- The point a running request of the manual-flag route has reached.  Each constructor names
the awaited store operation that comes next (`Message.findById`, `Flag.findOne`,
`Flag.countDocuments`, `flag.save()`, `message.save()`, `User.findByIdAndUpdate`) and carries
the local variables of the handler; `done` holds the answer and the emissions. -/
inductive FlagTask where
  | findMessage
  | findExisting (message : Message)
  | countFlags (message : Message)
  | saveFlag (message : Message) (flag : Flag)
  | saveMessage (message : Message) (flag : Flag)
  | updateUser (message : Message) (flag : Flag)
  | done (response : Response) (events : List Emission)
deriving DecidableEq

/-- One awaited store operation of a request of the manual-flag route, with the synchronous
code that follows it up to the next `await` (lines 85 to 143 of `routes/flags.js`). -/
def FlagTask.step (req : FlagRequest) (s : Store) : FlagTask → Store × FlagTask
  | FlagTask.findMessage =>
    match s.findMessage req.messageId with
    | none =>
      (s, FlagTask.done { status := 404, success := false, message := "Message not found" } [])
    | some message => (s, FlagTask.findExisting message)
  | FlagTask.findExisting message =>
    if s.flags.any (activeFor req.messageId) then
      (s, FlagTask.done
        { status := 400, success := false, message := "Message is already flagged" } [])
    else (s, FlagTask.countFlags message)
  | FlagTask.countFlags message =>
    ({ s with nextId := s.nextId + 1 },
      FlagTask.saveFlag message
        (manualFlag s req.caller message req.reason req.description req.severity req.now))
  | FlagTask.saveFlag message flag =>
    if flag.valid then ({ s with flags := s.flags ++ [flag] }, FlagTask.saveMessage message flag)
    else (s, FlagTask.done serverError [])
  | FlagTask.saveMessage message flag =>
    if ({ message with status := "flagged" } : Message).valid then
      (s.updateMessage message._id (fun m => { m with status := "flagged" }),
        FlagTask.updateUser { message with status := "flagged" } flag)
    else (s, FlagTask.done serverError [])
  | FlagTask.updateUser flagged flag =>
    (s.updateUser flagged.userId (fun u => { u with flaggedMessages := u.flaggedMessages + 1 }),
      FlagTask.done { status := 201, success := true, message := "Flag created successfully" }
        [{ target := Target.moderators, event := "flag-created",
           payload := Payload.flagCreated flag flagged req.caller.username }])
  | FlagTask.done response events => (s, FlagTask.done response events)

/-- Two requests of the manual-flag route in flight on one store. -/
structure Race where
  store : Store
  first : FlagTask
  second : FlagTask
deriving DecidableEq

/-- The scheduler lets one of the two requests run up to its next `await`: `true` picks the
first request, `false` the second. -/
def Race.step (a b : FlagRequest) (r : Race) (turn : Bool) : Race :=
  if turn then
    { store := (r.first.step a r.store).1, first := (r.first.step a r.store).2,
      second := r.second }
  else
    { store := (r.second.step b r.store).1, first := r.first,
      second := (r.second.step b r.store).2 }

/-- Both requests have just arrived. -/
def Race.start (s : Store) : Race :=
  { store := s, first := FlagTask.findMessage, second := FlagTask.findMessage }

/-- The state after an interleaving, given as the list of turns. -/
def Race.run (a b : FlagRequest) (s : Store) (schedule : List Bool) : Race :=
  schedule.foldl (Race.step a b) (Race.start s)

/-- The answer of a request, once it is done. -/
def FlagTask.response : FlagTask → Option Response
  | FlagTask.done response _ => some response
  | _ => none

/-- A second moderator used in the worked examples. -/
def carol : User :=
  { _id := 3, username := "carol", isActive := true, totalMessages := 0, flaggedMessages := 0,
    warningsReceived := 0 }

/-- A store holding alice, the moderators bob and carol, and an unflagged message of alice. -/
def raceStore : Store :=
  { users := [alice, bob, carol], messages := [{ sampleMessage with status := "active" }],
    flags := [], nextId := 11 }

/-- The request of bob to flag the message as spam. -/
def bobRequest : FlagRequest :=
  { caller := bob, messageId := 10, reason := "spam", description := none, severity := "low",
    now := 1 }

/-- The request of carol to flag the same message as harassment. -/
def carolRequest : FlagRequest :=
  { caller := carol, messageId := 10, reason := "harassment", description := none,
    severity := "high", now := 1 }

/-- The interleaving in which the two requests take turns, bob first. -/
def alternating : List Bool :=
  [true, false, true, false, true, false, true, false, true, false, true, false]

/-- The interleaving in which bob's request runs to its end before carol's starts. -/
def oneAfterTheOther : List Bool :=
  [true, true, true, true, true, true, false, false, false, false, false, false]

/-! ## Registration input validation (`middleware/validation.js`) -/

/-- The fields of a registration body that `validateUser` reads; a missing field is the empty
string, which is what the validators are run on in that case. -/
structure RegistrationBody where
  username : String
  email : String
  password : String
deriving DecidableEq

/-- One entry of `errors.array()`: the field and the message set by `withMessage`. -/
structure ValidationError where
  param : String
  msg : String
deriving DecidableEq

/-- The class `[a-zA-Z0-9_]`. -/
def isWordChar (c : Char) : Bool := c.isAlphanum || c == '_'

/-- The validator `matches(/^[a-zA-Z0-9_]+$/)`. -/
def matchesUsername (v : String) : Bool := !v.toList.isEmpty && v.toList.all isWordChar

/-- The line terminators, which `.` does not match. -/
def isLineTerminator (c : Char) : Bool := [10, 13, 8232, 8233].contains c.toNat

/-- A lookahead `(?=.*[class])` at the start of the value: a character of the class occurs
before the first line terminator. -/
def lookahead (cls : Char → Bool) (v : String) : Bool :=
  (v.toList.takeWhile (fun c => !isLineTerminator c)).any cls

/-- The validator `matches(/^(?=.*[a-z])(?=.*[A-Z])(?=.*\d)/)`. -/
def matchesPassword (v : String) : Bool :=
  lookahead Char.isLower v && lookahead Char.isUpper v && lookahead Char.isDigit v

/-- The errors that the chains of `validateUser` (lines 15 to 31) record for a body.  A chain
runs every one of its validators; `isEmail` is the validator of that name of the library. -/
def validateUser (isEmail : String → Bool) (body : RegistrationBody) : List ValidationError :=
  (if isLength 3 (some 30) (trim body.username) then []
    else [{ param := "username", msg := "Username must be between 3 and 30 characters" }]) ++
  (if matchesUsername (trim body.username) then []
    else [{ param := "username",
            msg := "Username can only contain letters, numbers, and underscores" }]) ++
  (if isEmail body.email then []
    else [{ param := "email", msg := "Please provide a valid email" }]) ++
  (if isLength 6 none body.password then []
    else [{ param := "password", msg := "Password must be at least 6 characters long" }]) ++
  (if matchesPassword body.password then []
    else [{ param := "password",
            msg := "Password must contain at least one lowercase letter, one uppercase " ++
              "letter, and one number" }])

/-- What a validation middleware does with a request: it answers it, or calls `next()`. -/
inductive Passage where
  | rejected (response : Response) (errors : List ValidationError)
  | next
deriving DecidableEq

/-- The middleware `handleValidationErrors` (lines 57 to 67). -/
def handleValidationErrors (errors : List ValidationError) : Passage :=
  if ¬ errors.isEmpty then
    Passage.rejected { status := 400, success := false, message := "Validation errors" } errors
  else Passage.next

/-- The middleware `validateUser` followed by `handleValidationErrors`. -/
def registrationGate (isEmail : String → Bool) (body : RegistrationBody) : Passage :=
  handleValidationErrors (validateUser isEmail body)

/-- The body of the test "should register a new user" (`tests/auth.test.js`). -/
def goodRegistration : RegistrationBody :=
  { username := "testuser", email := "test@example.com", password := "Test123!" }

/-- The body of the test "should not register user with invalid data". -/
def badRegistration : RegistrationBody :=
  { username := "test", email := "invalid-email", password := "123" }

/-! ## Stability of the table of lowercase mappings -/

/-- The images of the range `r` are not sources of the range `q`. -/
def rangeAvoids (r q : Nat × Nat × Nat × Nat) : Bool :=
  decide (r.2.2.2 + (r.2.1 - r.1) < q.1) || decide (q.2.1 < r.2.2.2) ||
    (List.range (r.2.1 - r.1 + 1)).all
      (fun i => i % r.2.2.1 != 0 || !inLowerRange (r.2.2.2 + i) q)

/-- The images of the range `r` are code points of characters, none of them U+0130 or U+03A3,
and none of them a source of the table. -/
def rangeStable (r : Nat × Nat × Nat × Nat) : Bool :=
  (decide (r.2.2.2 + (r.2.1 - r.1) < 55296) ||
      (decide (57344 ≤ r.2.2.2) && decide (r.2.2.2 + (r.2.1 - r.1) < 1114112))) &&
    (decide (r.2.2.2 + (r.2.1 - r.1) < 304) || decide (304 < r.2.2.2)) &&
    (decide (r.2.2.2 + (r.2.1 - r.1) < 931) || decide (931 < r.2.2.2)) &&
    lowerRanges.all (rangeAvoids r)

/-- A character that lower-casing leaves as it is, whatever surrounds it. -/
def Lowered (c : Char) : Prop := c.toNat ≠ 931 ∧ c.toNat ≠ 304 ∧ lowerChar c = c

/-- A threat written with capitals, the first letter being the Kelvin sign U+212A. -/
def kelvinThreat : String := "\u212AILL you"

/-- A threat written in mixed case. -/
def mixedThreat : String := "I Will KILL You"

/-! ## Worked examples for the length limits -/

/-- A character outside the Basic Multilingual Plane (U+1F600): one character, two UTF-16
code units. -/
def emoji : Char := Char.ofNat 128512

/-- A description of 300 such characters: 300 characters for `validateFlag`, 600 code units
for the Flag schema. -/
def emojiDescription : String := String.mk (List.replicate 300 emoji)

/-- Reviewer notes of 501 such characters: 1002 code units. -/
def emojiNotes : String := String.mk (List.replicate 501 emoji)

/-- A message text of 1001 such characters: 2002 code units. -/
def emojiText : String := String.mk (List.replicate 1001 emoji)

/-! ## The auto-flag rule -/

/-- Claim C1: the auto-flag decision of submitMessage depends on the analysis alone.  A
directive is produced exactly when `abuse_detected` holds and `confidence_score > 70`; its
severity is "high" above 90 and "medium" otherwise; its `intensity_threshold_exceeded` is true
exactly when `emotion_intensity > 80`; equal analyses give equal directives; and the analysis
block of the route creates a flag only from that directive (the flag is `autoFlag` of the
directive when the schema accepts it, and no flag or event is produced without a directive). -/
theorem C1_auto_flag_rule (a : Analysis) :
    ((autoFlagDirective a).isSome = true ↔ (a.abuse_detected = true ∧ a.confidence_score > 70)) ∧
    (∀ d, autoFlagDirective a = some d →
      d.severity = (if a.confidence_score > 90 then "high" else "medium") ∧
      (d.intensity_threshold_exceeded = true ↔ a.emotion_intensity > 80) ∧
      d.reason = a.abuse_type ∧ d.ai_confidence = a.confidence_score) ∧
    (∀ b : Analysis, a = b → autoFlagDirective a = autoFlagDirective b) ∧
    (∀ (s : Store) (caller : User) (chatroom : String) (m : Message) (now : Nat),
      m.analysis = a →
      (autoFlagDirective a = none → analysisBlock s caller chatroom m now = (s, m, [])) ∧
      (∀ d, autoFlagDirective a = some d →
        (autoFlag s.nextId m._id caller chatroom d now).valid = true →
        (analysisBlock s caller chatroom m now).1.flags =
          s.flags ++ [autoFlag s.nextId m._id caller chatroom d now] ∧
        (analysisBlock s caller chatroom m now).2.1.status = "flagged")) := by
  refine ⟨?_, ?_, ?_, ?_⟩
  · unfold autoFlagDirective
    by_cases h : a.abuse_detected = true ∧ a.confidence_score > 70
    · simp [h]
    · simp only [h, if_false, Option.isSome_none, iff_false]
      simp
  · intro d hd
    unfold autoFlagDirective at hd
    by_cases h : a.abuse_detected = true ∧ a.confidence_score > 70
    · rw [if_pos h] at hd
      cases hd
      simp
    · rw [if_neg h] at hd
      cases hd
  · intro b hb
    rw [hb]
  · intro s caller chatroom m now hm
    constructor
    · intro hnone
      simp [analysisBlock, hm, hnone]
    · intro d hd hv
      simp [analysisBlock, hm, hd, hv]

/-! ## Scale of the analysis scores -/

/-- Claim C3 (the code departs from it): the adapter copies the engine scores unchanged.  For
every text and every draw the returned `confidence_score` is the engine confidence itself and
the returned `emotion_intensity` is the engine intensity itself; for the text
"you are an idiot" with every draw equal to one half the engine confidence is 7/20 and the
returned `confidence_score` is 7/20, not 35. -/
theorem C3_scores_not_scaled :
    (∀ (text : String) (rng : Rng) (now : Nat),
      (MLService.analyzeText true text rng none now).confidence_score =
        (MockMLService.analyzeText text rng now).abuse_detection.confidence ∧
      (MLService.analyzeText true text rng none now).emotion_intensity =
        (MockMLService.analyzeText text rng now).emotion_analysis.primary_emotion.intensity) ∧
    (MockMLService.analyzeText "you are an idiot" (fun _ => 1 / 2) 0).abuse_detection.confidence
      = 7 / 20 ∧
    (MLService.analyzeText true "you are an idiot" (fun _ => 1 / 2) none 0).confidence_score
      = 7 / 20 ∧
    (MLService.analyzeText true "you are an idiot" (fun _ => 1 / 2) none 0).confidence_score
      ≠ 100 * (MockMLService.analyzeText "you are an idiot" (fun _ => 1 / 2) 0).abuse_detection.confidence := by
  have h1 : countMatches (toLowerCase "you are an idiot")
      ["idiot", "stupid", "loser", "worthless", "useless"] = 1 := by decide
  have h2 : countMatches (toLowerCase "you are an idiot")
      ["hate", "racist", "bigot", "nazi", "supremacist"] = 0 := by decide
  have h3 : countMatches (toLowerCase "you are an idiot")
      ["kill", "hurt", "destroy", "attack", "violence"] = 0 := by decide
  have h4 : countMatches (toLowerCase "you are an idiot")
      ["weak", "pathetic", "nobody", "freak", "reject"] = 0 := by decide
  have h5 : countMatches (toLowerCase "you are an idiot")
      ["buy now", "click here", "free money", "winner", "lottery"] = 0 := by decide
  have h6 : countMatches (toLowerCase "you are an idiot")
      ["xxx", "adult", "explicit", "sexual", "inappropriate"] = 0 := by decide
  have hscan : (abuseScan (toLowerCase "you are an idiot")).highestConfidence = 1 / 5 := by
    simp only [abuseScan, abuseKeywords, List.foldl, abuseStep, h1, h2, h3, h4, h5, h6]
    norm_num
  have hconf : (MockMLService.analyzeText "you are an idiot" (fun _ => 1 / 2) 0).abuse_detection.confidence
      = 7 / 20 := by
    simp only [MockMLService.analyzeText, MockMLService.detectAbuse, hscan]
    norm_num
  refine ⟨fun text rng now => ⟨rfl, rfl⟩, hconf, ?_, ?_⟩
  · exact hconf
  · show (MockMLService.analyzeText "you are an idiot" (fun _ => 1 / 2) 0).abuse_detection.confidence
      ≠ _
    rw [hconf]
    norm_num

/-! ## Range of the emotion scores of the built-in engine -/

theorem ratio_nonneg (content : String) (keywords : List String) :
    (0 : ℚ) ≤ (countMatches content keywords : ℚ) / (keywords.length : ℚ) :=
  div_nonneg (Nat.cast_nonneg _) (Nat.cast_nonneg _)

theorem emotionStep_ok (content : String) (rng : Rng) (hr : Rng.unit rng) (st : EmotionScan)
    (entry : String × List String) (hst : st.Ok) (hname : emotions.contains entry.1 = true) :
    (emotionStep content rng st entry).Ok := by
  obtain ⟨h0, h1, hp, hs⟩ := hst
  have hq := ratio_nonneg content entry.2
  have hr0 := (hr st.next).1
  have hi0 : (0 : ℚ) ≤ min 1 ((countMatches content entry.2 : ℚ) / (entry.2.length : ℚ)
      + rng st.next * (2 / 10)) := le_min (by norm_num) (by nlinarith)
  have hi1 : min 1 ((countMatches content entry.2 : ℚ) / (entry.2.length : ℚ)
      + rng st.next * (2 / 10)) ≤ (1 : ℚ) := min_le_left _ _
  have hscores : ScoresOk (st.emotionScores ++ [(entry.1, min 1
      ((countMatches content entry.2 : ℚ) / (entry.2.length : ℚ) + rng st.next * (2 / 10)))]) := by
    intro e he
    rcases List.mem_append.1 he with h | h
    · exact hs e h
    · rw [List.mem_singleton] at h
      subst h
      exact ⟨hname, hi0, hi1⟩
  unfold emotionStep
  dsimp only
  split_ifs with hgt
  · exact ⟨hi0, hi1, hname, hscores⟩
  · exact ⟨h0, h1, hp, hscores⟩

theorem emotionFold_ok (content : String) (rng : Rng) (hr : Rng.unit rng) :
    ∀ (l : List (String × List String)) (st : EmotionScan),
      (∀ e ∈ l, emotions.contains e.1 = true) → st.Ok →
      (l.foldl (emotionStep content rng) st).Ok := by
  intro l
  induction l with
  | nil => intro st _ hst; exact hst
  | cons e rest ih =>
    intro st hl hst
    rw [List.foldl_cons]
    exact ih _ (fun x hx => hl x (List.mem_cons_of_mem _ hx))
      (emotionStep_ok content rng hr st e hst (hl e (List.mem_cons_self _ _)))

theorem emotionScan_ok (content : String) (rng : Rng) (hr : Rng.unit rng) (n : Nat) :
    (emotionScan content rng n).Ok := by
  unfold emotionScan
  apply emotionFold_ok content rng hr
  · decide
  · have hn : emotions.contains "neutral" = true := by decide
    refine ⟨le_refl _, by norm_num, hn, ?_⟩
    intro e he
    cases he

theorem setScore_ok (scores : List (String × ℚ)) (key : String) (value : ℚ)
    (hs : ScoresOk scores) (hk : emotions.contains key = true) (h0 : 0 ≤ value)
    (h1 : value ≤ 1) : ScoresOk (setScore scores key value) := by
  unfold setScore
  split_ifs with hany
  · intro e he
    rw [List.mem_map] at he
    obtain ⟨x, hx, rfl⟩ := he
    split_ifs with hxk
    · exact ⟨(hs x hx).1, h0, h1⟩
    · exact hs x hx
  · intro e he
    rcases List.mem_append.1 he with h | h
    · exact hs e h
    · rw [List.mem_singleton] at h
      subst h
      exact ⟨hk, h0, h1⟩

theorem emotionDefault_ok (rng : Rng) (hr : Rng.unit rng) (st : EmotionScan) (hst : st.Ok) :
    (emotionDefault rng st).Ok := by
  unfold emotionDefault
  have hr0 := (hr st.next).1
  have hr1 := (hr st.next).2
  split_ifs with hlow
  · have ha : (0 : ℚ) ≤ 3 / 10 + rng st.next * (4 / 10) := by nlinarith
    have hb : 3 / 10 + rng st.next * (4 / 10) ≤ (1 : ℚ) := by nlinarith
    have hn : emotions.contains "neutral" = true := by decide
    exact ⟨ha, hb, hn, setScore_ok _ _ _ hst.2.2.2 hn ha hb⟩
  · exact hst

theorem secondaryLoop_mem (rng : Rng) (primaryEmotion : String) :
    ∀ (scores : List (String × ℚ)) (n : Nat) (x : EmotionEntry),
      x ∈ (secondaryLoop rng primaryEmotion scores n).1 →
      (x.emotion, x.intensity) ∈ scores := by
  intro scores
  induction scores with
  | nil => intro n x hx; simp [secondaryLoop] at hx
  | cons e rest ih =>
    intro n x hx
    obtain ⟨emotion, intensity⟩ := e
    unfold secondaryLoop at hx
    split_ifs at hx with hc
    · rcases List.mem_cons.1 hx with h | h
      · subst h
        exact List.mem_cons_self _ _
      · exact List.mem_cons_of_mem _ (ih _ x h)
    · exact List.mem_cons_of_mem _ (ih _ x hx)

/-- Whatever the text and the draws, the emotion verdict of the engine names schema emotions
and carries intensities in `[0, 1]`. -/
theorem detectEmotion_range (content : String) (rng : Rng) (hr : Rng.unit rng) (n : Nat) :
    emotions.contains (MockMLService.detectEmotion content rng n).1.primary_emotion.emotion = true ∧
      0 ≤ (MockMLService.detectEmotion content rng n).1.primary_emotion.intensity ∧
      (MockMLService.detectEmotion content rng n).1.primary_emotion.intensity ≤ 1 ∧
      ∀ x ∈ (MockMLService.detectEmotion content rng n).1.secondary_emotions,
        emotions.contains x.emotion = true ∧ 0 ≤ x.intensity ∧ x.intensity ≤ 1 := by
  have hst := emotionDefault_ok rng hr _ (emotionScan_ok content rng hr n)
  obtain ⟨h0, h1, hp, hs⟩ := hst
  refine ⟨hp, h0, h1, ?_⟩
  intro x hx
  have hx1 := List.mem_of_mem_take hx
  exact hs _ (secondaryLoop_mem rng _ _ _ x hx1)

/-! ## Range of the abuse verdict of the built-in engine -/

theorem countMatches_le_aux (content : String) :
    ∀ (keywords : List String) (k : Nat),
      keywords.foldl (fun hits keyword => if includes content keyword then hits + 1 else hits) k
        ≤ k + keywords.length := by
  intro keywords
  induction keywords with
  | nil => intro k; simp
  | cons w rest ih =>
    intro k
    rw [List.foldl_cons, List.length_cons]
    split_ifs
    · have := ih (k + 1); omega
    · have := ih k; omega

theorem countMatches_le (content : String) (keywords : List String) :
    countMatches content keywords ≤ keywords.length := by
  have := countMatches_le_aux content keywords 0
  unfold countMatches
  omega

theorem ratio_le_one (content : String) (keywords : List String) :
    (countMatches content keywords : ℚ) / (keywords.length : ℚ) ≤ 1 := by
  apply div_le_one_of_le₀
  · exact_mod_cast countMatches_le content keywords
  · exact Nat.cast_nonneg _

theorem abuseStep_ok (content : String) (st : AbuseScan) (entry : String × List String)
    (hst : st.Ok) (hname : entry.1 ∈ abuseNames) : (abuseStep content st entry).Ok := by
  obtain ⟨h0, h1, ht⟩ := hst
  unfold abuseStep
  dsimp only
  split_ifs with hgt
  · refine ⟨ratio_nonneg _ _, ratio_le_one _ _, ?_⟩
    intro t htt
    cases htt
    exact hname
  · exact ⟨h0, h1, ht⟩

theorem abuseFold_ok (content : String) :
    ∀ (l : List (String × List String)) (st : AbuseScan),
      (∀ e ∈ l, e.1 ∈ abuseNames) → st.Ok → (l.foldl (abuseStep content) st).Ok := by
  intro l
  induction l with
  | nil => intro st _ hst; exact hst
  | cons e rest ih =>
    intro st hl hst
    rw [List.foldl_cons]
    exact ih _ (fun x hx => hl x (List.mem_cons_of_mem _ hx))
      (abuseStep_ok content st e hst (hl e (List.mem_cons_self _ _)))

theorem abuseScan_ok (content : String) : (abuseScan content).Ok := by
  unfold abuseScan
  apply abuseFold_ok content
  · intro e he
    exact List.mem_map_of_mem Prod.fst he
  · refine ⟨le_refl _, by norm_num, ?_⟩
    intro t ht
    cases ht

/-- Whatever the text and the draws, the confidence of the abuse verdict lies in `[0, 0.95]`
and the reported type, if any, is one of the six categories. -/
theorem detectAbuse_range (content : String) (rng : Rng) (hr : Rng.unit rng) (n : Nat) :
    0 ≤ (MockMLService.detectAbuse content rng n).1.confidence ∧
    (MockMLService.detectAbuse content rng n).1.confidence ≤ 95 / 100 ∧
    ∀ t, (MockMLService.detectAbuse content rng n).1.abuse_type = some t → t ∈ abuseNames := by
  obtain ⟨h0, h1, ht⟩ := abuseScan_ok content
  have hn0 := (hr n).1
  have hn2a := (hr (n + 2)).1
  have hn2b := (hr (n + 2)).2
  unfold MockMLService.detectAbuse
  dsimp only
  by_cases hhi : (abuseScan content).highestConfidence > 1 / 10
  · simp only [hhi, if_true]
    refine ⟨le_min (by norm_num) (by nlinarith), min_le_left _ _, ?_⟩
    intro t htt
    split_ifs at htt
    · exact ht t htt
  · simp only [hhi, if_false]
    by_cases hfp : rng n < 5 / 100
    · simp only [hfp, if_true]
      refine ⟨by nlinarith, by nlinarith, ?_⟩
      intro t htt
      split_ifs at htt
      exact List.getElem?_mem htt
    · simp only [hfp, if_false]
      refine ⟨h0, by linarith, ?_⟩
      intro t htt
      split_ifs at htt
      · exact ht t htt

theorem orNone_mem (o : Option String) (h : ∀ t, o = some t → t ∈ abuseNames) :
    abuseTypes.contains (orNone o) = true := by
  cases o with
  | none => decide
  | some t =>
    have hm := h t rfl
    have hcases : t = "harassment" ∨ t = "hate_speech" ∨ t = "threats" ∨ t = "bullying" ∨
        t = "spam" ∨ t = "sexual_content" := by
      simpa [abuseNames, abuseKeywords] using hm
    rcases hcases with h | h | h | h | h | h <;> subst h <;> decide

theorem inRange100_of_unit (v : ℚ) (h0 : 0 ≤ v) (h1 : v ≤ 1) : inRange100 v = true := by
  have : v ≤ 100 := by linarith
  simp [inRange100, h0, this]

/-- Whatever the text and the draws, the analysis built from the engine passes the schema of
`message.analysis`, and its `confidence_score` is at most 0.95. -/
theorem analyzeText_mock_valid (text : String) (rng : Rng) (hr : Rng.unit rng) (now : Nat) :
    (MLService.analyzeText true text rng none now).valid = true ∧
    (MLService.analyzeText true text rng none now).confidence_score ≤ 95 / 100 := by
  obtain ⟨ha0, ha1, hat⟩ := detectAbuse_range (toLowerCase text) rng hr 0
  obtain ⟨he, hi0, hi1, hsec⟩ := detectEmotion_range (toLowerCase text) rng hr
    (MockMLService.detectAbuse (toLowerCase text) rng 0).2
  refine ⟨?_, ha1⟩
  simp only [MLService.analyzeText, if_true, MLService.convert, MockMLService.analyzeText,
    Analysis.valid, Bool.and_eq_true]
  refine ⟨⟨⟨⟨orNone_mem _ hat, inRange100_of_unit _ ha0 (by linarith)⟩, he⟩,
    inRange100_of_unit _ hi0 hi1⟩, ?_⟩
  rw [List.all_eq_true]
  intro x hx
  rw [List.mem_map] at hx
  obtain ⟨y, hy, rfl⟩ := hx
  obtain ⟨hy1, hy2, hy3⟩ := hsec y hy
  simp only [Bool.and_eq_true]
  exact ⟨hy1, inRange100_of_unit _ hy2 hy3⟩

/-- An analysis whose confidence is at most 70 yields no directive. -/
theorem no_directive_of_le (a : Analysis) (h : a.confidence_score ≤ 70) :
    autoFlagDirective a = none := by
  unfold autoFlagDirective
  rw [if_neg]
  intro hc
  exact absurd hc.2 (not_lt.2 h)

/-! ## Submissions for which the rule does not fire -/

@[simp] theorem updateUser_flags (s : Store) (id : Nat) (g : User → User) :
    (s.updateUser id g).flags = s.flags := rfl

@[simp] theorem updateUser_messages (s : Store) (id : Nat) (g : User → User) :
    (s.updateUser id g).messages = s.messages := rfl

@[simp] theorem updateUser_nextId (s : Store) (id : Nat) (g : User → User) :
    (s.updateUser id g).nextId = s.nextId := rfl

@[simp] theorem updateMessage_flags (s : Store) (id : Nat) (g : Message → Message) :
    (s.updateMessage id g).flags = s.flags := rfl

@[simp] theorem updateMessage_users (s : Store) (id : Nat) (g : Message → Message) :
    (s.updateMessage id g).users = s.users := rfl

@[simp] theorem updateMessage_nextId (s : Store) (id : Nat) (g : Message → Message) :
    (s.updateMessage id g).nextId = s.nextId := rfl

@[simp] theorem updateFlag_messages (s : Store) (id : Nat) (g : Flag → Flag) :
    (s.updateFlag id g).messages = s.messages := rfl

@[simp] theorem updateFlag_users (s : Store) (id : Nat) (g : Flag → Flag) :
    (s.updateFlag id g).users = s.users := rfl

@[simp] theorem updateFlag_nextId (s : Store) (id : Nat) (g : Flag → Flag) :
    (s.updateFlag id g).nextId = s.nextId := rfl

theorem newMessageEvents_name (caller : User) (messageType : String)
    (recipientId : Option Nat) (message : Message) :
    ∀ e ∈ newMessageEvents caller messageType recipientId message, e.event = "new-message" := by
  intro e he
  unfold newMessageEvents at he
  by_cases hp : messageType = "private"
  · simp only [hp, if_true] at he
    rcases List.mem_cons.1 he with he | he
    · subst he; rfl
    · rw [List.mem_map] at he
      obtain ⟨r, _, rfl⟩ := he
      rfl
  · simp only [hp, if_false, List.mem_singleton] at he
    subst he; rfl

/-- The tail of the route keeps the flags, adds no `message-flagged` emission of its own and,
on success, appends exactly the message it was handed. -/
theorem persistMessage_spec (caller : User) (messageType : String) (recipientId : Option Nat)
    (r : Store × Message × List Emission) :
    (persistMessage caller messageType recipientId r).store.flags = r.1.flags ∧
    (∀ e ∈ (persistMessage caller messageType recipientId r).events,
      e ∈ r.2.2 ∨ e.event = "new-message") ∧
    ((persistMessage caller messageType recipientId r).response.success = true →
      (persistMessage caller messageType recipientId r).store.messages
        = r.1.messages ++ [r.2.1]) ∧
    ((persistMessage caller messageType recipientId r).response.success = false →
      (persistMessage caller messageType recipientId r).store = r.1) := by
  unfold persistMessage
  by_cases hv : r.2.1.valid = true
  · simp only [hv, if_true]
    refine ⟨rfl, ?_, fun _ => rfl, fun h => by simp at h⟩
    intro e he
    rcases List.mem_append.1 he with h | h
    · exact Or.inl h
    · exact Or.inr (newMessageEvents_name _ _ _ _ e h)
  · simp only [hv]
    refine ⟨rfl, fun e he => Or.inl he, fun h => ?_, fun _ => rfl⟩
    simp [serverError] at h

/-- Without a directive the message route never touches the flags, never emits
`message-flagged`, and a successful call appends the message with status "active". -/
theorem submit_no_directive (s : Store) (caller : User) (text chatroom : String)
    (recipientId : Option Nat) (messageType : String) (analysis : Analysis) (now : Nat)
    (h : autoFlagDirective analysis = none) :
    (submitMessage s caller text chatroom recipientId messageType analysis now).store.flags
      = s.flags ∧
    (∀ e ∈ (submitMessage s caller text chatroom recipientId messageType analysis now).events,
      e.event ≠ "message-flagged") ∧
    ((submitMessage s caller text chatroom recipientId messageType analysis now).response.success
        = true →
      ∃ m, (submitMessage s caller text chatroom recipientId messageType analysis now).store.messages
          = s.messages ++ [m] ∧
        m.status = "active" ∧ m.analysis = analysis ∧ m.text = text ∧ m.userId = caller._id) := by
  unfold submitMessage
  by_cases h1 : messageType = "private" ∧ recipientId = none
  · rw [if_pos h1]
    simp
  · rw [if_neg h1]
    dsimp only
    by_cases h2 : messageType = "private" ∧
        (if messageType = "private" then recipientId.bind s.findUser else none) = none
    · rw [if_pos h2]
      simp
    · rw [if_neg h2]
      have hb : ∀ m : Message, m.analysis = analysis →
          analysisBlock { s with nextId := s.nextId + 1 } caller chatroom m now
            = ({ s with nextId := s.nextId + 1 }, m, []) := by
        intro m hm
        simp [analysisBlock, hm, h]
      rw [hb _ rfl]
      obtain ⟨hf, he, hs, _⟩ := persistMessage_spec caller messageType recipientId
        ({ s with nextId := s.nextId + 1 },
          newMessage s.nextId caller text chatroom recipientId messageType
            (if messageType = "private" then recipientId.bind s.findUser else none)
            analysis now, [])
      refine ⟨hf, ?_, ?_⟩
      · intro e hmem
        rcases he e hmem with h' | h'
        · cases h'
        · rw [h']; decide
      · intro hsucc
        exact ⟨_, hs hsucc, rfl, rfl, rfl, rfl⟩

/-- A public submission from a named caller to a named room succeeds when the rule does not
fire and the schema accepts the text and the analysis. -/
theorem submit_public_success (s : Store) (caller : User) (text chatroom : String)
    (recipientId : Option Nat) (analysis : Analysis) (now : Nat)
    (h : autoFlagDirective analysis = none) (ha : analysis.valid = true)
    (hu : caller.username ≠ "") (ht : text ≠ "") (hl : jsLength text ≤ 2000)
    (hc : chatroom ≠ "") :
    (submitMessage s caller text chatroom recipientId "public" analysis now).response
      = { status := 201, success := true, message := "Message created successfully" } := by
  have hpub : ¬ ("public" = "private") := by decide
  unfold submitMessage
  rw [if_neg (fun hh => hpub hh.1)]
  dsimp only
  rw [if_neg (fun hh => hpub hh.1)]
  unfold persistMessage
  rw [if_pos]
  simp [analysisBlock, newMessage, h, Message.valid, ha, hu, ht, hl, hc, messageTypes,
    messageStatuses]

/-! ## Scenario A -/

theorem scenarioA_scan :
    abuseScan (toLowerCase scenarioA) =
      { highestConfidence := 1 / 5, detectedType := some "harassment",
        categories := [("harassment", 1 / 5), ("hate_speech", 0), ("threats", 1 / 5),
          ("bullying", 0), ("spam", 0), ("sexual_content", 0)] } := by
  have h1 : countMatches (toLowerCase scenarioA)
      ["idiot", "stupid", "loser", "worthless", "useless"] = 1 := by decide
  have h2 : countMatches (toLowerCase scenarioA)
      ["hate", "racist", "bigot", "nazi", "supremacist"] = 0 := by decide
  have h3 : countMatches (toLowerCase scenarioA)
      ["kill", "hurt", "destroy", "attack", "violence"] = 1 := by decide
  have h4 : countMatches (toLowerCase scenarioA)
      ["weak", "pathetic", "nobody", "freak", "reject"] = 0 := by decide
  have h5 : countMatches (toLowerCase scenarioA)
      ["buy now", "click here", "free money", "winner", "lottery"] = 0 := by decide
  have h6 : countMatches (toLowerCase scenarioA)
      ["xxx", "adult", "explicit", "sexual", "inappropriate"] = 0 := by decide
  simp only [abuseScan, abuseKeywords, List.foldl, abuseStep, h1, h2, h3, h4, h5, h6]
  norm_num

/-- The abuse verdict of the engine on the text of Scenario A, for every first draw. -/
theorem scenarioA_abuse (rng : Rng) (hr : Rng.unit rng) :
    (MockMLService.detectAbuse (toLowerCase scenarioA) rng 0).1.confidence
        = 1 / 5 + rng 0 * (3 / 10) ∧
    (MockMLService.detectAbuse (toLowerCase scenarioA) rng 0).1.is_abusive
        = decide (rng 0 > 1 / 3) ∧
    (MockMLService.detectAbuse (toLowerCase scenarioA) rng 0).1.abuse_type
        = (if rng 0 > 1 / 3 then some "harassment" else none) := by
  have hr0 := (hr 0).1
  have hr1 := (hr 0).2
  have hmin : min (95 / 100 : ℚ) (1 / 5 + rng 0 * (3 / 10)) = 1 / 5 + rng 0 * (3 / 10) :=
    min_eq_right (by linarith)
  have hgt : ((1 / 5 : ℚ) > 1 / 10) = True := by norm_num
  have hiff : (1 / 5 + rng 0 * (3 / 10) > 3 / 10) = (rng 0 > 1 / 3) := by
    apply propext
    constructor <;> intro h <;> linarith
  simp only [MockMLService.detectAbuse, scenarioA_scan, hgt, if_true, hmin, hiff]
  exact ⟨trivial, trivial, trivial⟩

theorem scenarioA_text : scenarioA ≠ "" ∧ jsLength scenarioA ≤ 2000 := by decide

theorem halves_unit : Rng.unit (fun _ => 1 / 2) := by
  intro n
  constructor <;> norm_num

theorem zeros_unit : Rng.unit (fun _ => 0) := by
  intro n
  constructor <;> norm_num

/-- What the pipeline does with the text of Scenario A, for every outcome of the draws. -/
theorem scenarioA_outcome (rng : Rng) (hr : Rng.unit rng) (s : Store) (caller : User)
    (chatroom : String) (recipientId : Option Nat) (messageType : String) (now : Nat) :
    (MockMLService.analyzeText scenarioA rng now).abuse_detection.confidence
      = 1 / 5 + rng 0 * (3 / 10) ∧
    (MockMLService.analyzeText scenarioA rng now).abuse_detection.confidence < 1 / 2 ∧
    ((scenarioAAnalysis rng now).abuse_detected = true ↔ rng 0 > 1 / 3) ∧
    (scenarioAAnalysis rng now).abuse_type = (if rng 0 > 1 / 3 then "harassment" else "none") ∧
    (scenarioAAnalysis rng now).confidence_score ≤ 70 ∧
    autoFlagDirective (scenarioAAnalysis rng now) = none ∧
    (submitMessage s caller scenarioA chatroom recipientId messageType
      (scenarioAAnalysis rng now) now).store.flags = s.flags ∧
    (∀ e ∈ (submitMessage s caller scenarioA chatroom recipientId messageType
      (scenarioAAnalysis rng now) now).events, e.event ≠ "message-flagged") ∧
    ((submitMessage s caller scenarioA chatroom recipientId messageType
        (scenarioAAnalysis rng now) now).response.success = true →
      ∃ m, (submitMessage s caller scenarioA chatroom recipientId messageType
          (scenarioAAnalysis rng now) now).store.messages = s.messages ++ [m] ∧
        m.status = "active" ∧ m.analysis = scenarioAAnalysis rng now ∧ m.text = scenarioA) ∧
    (messageType = "public" → caller.username ≠ "" → chatroom ≠ "" →
      (submitMessage s caller scenarioA chatroom recipientId messageType
        (scenarioAAnalysis rng now) now).response.success = true) := by
  obtain ⟨hc, hab, hty⟩ := scenarioA_abuse rng hr
  obtain ⟨hvalid, hle⟩ := analyzeText_mock_valid scenarioA rng hr now
  have hr1 := (hr 0).2
  have hconf : (MockMLService.analyzeText scenarioA rng now).abuse_detection.confidence
      = 1 / 5 + rng 0 * (3 / 10) := hc
  have hle70 : (scenarioAAnalysis rng now).confidence_score ≤ 70 := by
    have : (scenarioAAnalysis rng now).confidence_score ≤ 95 / 100 := hle
    linarith
  have hnone := no_directive_of_le _ hle70
  obtain ⟨hf, he, hs⟩ := submit_no_directive s caller scenarioA chatroom recipientId
    messageType _ now hnone
  refine ⟨hconf, by rw [hconf]; linarith, ?_, ?_, hle70, hnone, hf, he, ?_, ?_⟩
  · show (MockMLService.detectAbuse (toLowerCase scenarioA) rng 0).1.is_abusive = true ↔ _
    rw [hab]
    simp
  · show orNone (MockMLService.detectAbuse (toLowerCase scenarioA) rng 0).1.abuse_type = _
    rw [hty]
    split_ifs <;> rfl
  · intro hsucc
    obtain ⟨m, h1, h2, h3, h4, _⟩ := hs hsucc
    exact ⟨m, h1, h2, h3, h4⟩
  · intro hpub hu hch
    subst hpub
    rw [submit_public_success s caller scenarioA chatroom recipientId _ now hnone hvalid hu
      scenarioA_text.1 scenarioA_text.2 hch]

/-- Claim C2, as amended: for the text of Scenario A and every outcome of the draws, the
engine confidence is `0.2 + 0.3 * r` for the first draw `r`, hence below 0.5; abuse is
detected exactly when `r > 1/3`, with category "harassment" (and "none" otherwise); the
`confidence_score` is not above 70, so the rule produces no directive, submitMessage adds no
flag and emits no `message-flagged`, every successful call persists the message with status
"active", and a public submission by a named caller to a named room is successful. -/
theorem C2_scenarioA_not_flagged (rng : Rng) (hr : Rng.unit rng) (s : Store) (caller : User)
    (chatroom : String) (recipientId : Option Nat) (messageType : String) (now : Nat) :
    (MockMLService.analyzeText scenarioA rng now).abuse_detection.confidence
      = 1 / 5 + rng 0 * (3 / 10) ∧
    (MockMLService.analyzeText scenarioA rng now).abuse_detection.confidence < 1 / 2 ∧
    ((scenarioAAnalysis rng now).abuse_detected = true ↔ rng 0 > 1 / 3) ∧
    (scenarioAAnalysis rng now).abuse_type = (if rng 0 > 1 / 3 then "harassment" else "none") ∧
    (scenarioAAnalysis rng now).confidence_score ≤ 70 ∧
    autoFlagDirective (scenarioAAnalysis rng now) = none ∧
    (submitMessage s caller scenarioA chatroom recipientId messageType
      (scenarioAAnalysis rng now) now).store.flags = s.flags ∧
    (∀ e ∈ (submitMessage s caller scenarioA chatroom recipientId messageType
      (scenarioAAnalysis rng now) now).events, e.event ≠ "message-flagged") ∧
    ((submitMessage s caller scenarioA chatroom recipientId messageType
        (scenarioAAnalysis rng now) now).response.success = true →
      ∃ m, (submitMessage s caller scenarioA chatroom recipientId messageType
          (scenarioAAnalysis rng now) now).store.messages = s.messages ++ [m] ∧
        m.status = "active" ∧ m.analysis = scenarioAAnalysis rng now ∧ m.text = scenarioA) ∧
    (messageType = "public" → caller.username ≠ "" → chatroom ≠ "" →
      (submitMessage s caller scenarioA chatroom recipientId messageType
        (scenarioAAnalysis rng now) now).response.success = true) :=
  scenarioA_outcome rng hr s caller chatroom recipientId messageType now

/-- Witness for C2: the amended statement at the constant draw one half, for a public
submission by alice into an empty store; no flag is stored. -/
theorem C2_scenarioA_not_flagged_witness :
    Rng.unit (fun _ => 1 / 2) ∧
    (submitMessage (emptyStore [alice] 10) alice scenarioA "general" none "public"
      (scenarioAAnalysis (fun _ => 1 / 2) 0) 0).store.flags = [] :=
  ⟨halves_unit,
    (C2_scenarioA_not_flagged (fun _ => 1 / 2) halves_unit (emptyStore [alice] 10) alice
      "general" none "public" 0).2.2.2.2.2.2.1⟩

/-- Counterexample to C2 as stated: with every draw equal to one half the analysis of the
Scenario A text does report abuse, but its `confidence_score` is 7/20, not above 70; no
directive is produced, the submission succeeds, no flag is stored and no stored message is
flagged.  With every draw equal to zero not even abuse is reported. -/
theorem C2_scenarioA_counterexample :
    (scenarioAAnalysis (fun _ => 1 / 2) 0).abuse_detected = true ∧
    (scenarioAAnalysis (fun _ => 1 / 2) 0).confidence_score = 7 / 20 ∧
    ¬ ((scenarioAAnalysis (fun _ => 1 / 2) 0).confidence_score > 70) ∧
    autoFlagDirective (scenarioAAnalysis (fun _ => 1 / 2) 0) = none ∧
    (submitMessage (emptyStore [alice] 10) alice scenarioA "general" none "public"
      (scenarioAAnalysis (fun _ => 1 / 2) 0) 0).response.success = true ∧
    (submitMessage (emptyStore [alice] 10) alice scenarioA "general" none "public"
      (scenarioAAnalysis (fun _ => 1 / 2) 0) 0).store.flags = [] ∧
    (∀ m ∈ (submitMessage (emptyStore [alice] 10) alice scenarioA "general" none "public"
      (scenarioAAnalysis (fun _ => 1 / 2) 0) 0).store.messages, m.status ≠ "flagged") ∧
    (scenarioAAnalysis (fun _ => 0) 0).abuse_detected = false := by
  obtain ⟨h1, _, h3, _, h5, h6, h7, _, h9, h10⟩ :=
    scenarioA_outcome (fun _ => 1 / 2) halves_unit (emptyStore [alice] 10) alice "general"
      none "public" 0
  have hsucc := h10 rfl (by decide) (by decide)
  have hz := (scenarioA_outcome (fun _ => 0) zeros_unit (emptyStore [alice] 10) alice
    "general" none "public" 0).2.2.1
  have hconf : (scenarioAAnalysis (fun _ => 1 / 2) 0).confidence_score = 7 / 20 := by
    have : (scenarioAAnalysis (fun _ => 1 / 2) 0).confidence_score
        = 1 / 5 + (1 / 2 : ℚ) * (3 / 10) := h1
    rw [this]; norm_num
  refine ⟨h3.2 (by norm_num), hconf, by rw [hconf]; norm_num, h6, hsucc, h7, ?_, ?_⟩
  · obtain ⟨m, hm, hst, _⟩ := h9 hsucc
    intro x hx
    rw [hm] at hx
    simp only [emptyStore, List.nil_append, List.mem_singleton] at hx
    subst hx
    rw [hst]; decide
  · cases hb : (scenarioAAnalysis (fun _ => 0) 0).abuse_detected with
    | false => rfl
    | true =>
      have := hz.1 hb
      norm_num at this

/-! ## Updating the first matching document -/

theorem updateFirst_length {α : Type} (p : α → Bool) (g : α → α) (l : List α) :
    (updateFirst p g l).length = l.length := by
  induction l with
  | nil => rfl
  | cons x xs ih =>
    unfold updateFirst
    split_ifs
    · rfl
    · simp [ih]

/-- Every document of the updated list is an old document or the image of a selected one. -/
theorem mem_updateFirst {α : Type} (p : α → Bool) (g : α → α) (l : List α) (y : α)
    (hy : y ∈ updateFirst p g l) : y ∈ l ∨ ∃ x ∈ l, p x = true ∧ y = g x := by
  induction l with
  | nil => simp [updateFirst] at hy
  | cons x xs ih =>
    unfold updateFirst at hy
    split_ifs at hy with hp
    · rcases List.mem_cons.1 hy with h | h
      · exact Or.inr ⟨x, List.mem_cons_self _ _, hp, h⟩
      · exact Or.inl (List.mem_cons_of_mem _ h)
    · rcases List.mem_cons.1 hy with h | h
      · exact Or.inl (h ▸ List.mem_cons_self _ _)
      · rcases ih h with h' | ⟨z, hz, hpz, hyz⟩
        · exact Or.inl (List.mem_cons_of_mem _ h')
        · exact Or.inr ⟨z, List.mem_cons_of_mem _ hz, hpz, hyz⟩

/-- Looking up with the selecting predicate itself returns the updated document. -/
theorem find_updateFirst_same {α : Type} (p : α → Bool) (g : α → α)
    (hg : ∀ x, p x = true → p (g x) = true) (l : List α) :
    (updateFirst p g l).find? p = (l.find? p).map g := by
  induction l with
  | nil => rfl
  | cons x xs ih =>
    unfold updateFirst
    by_cases hp : p x = true
    · rw [if_pos hp, List.find?_cons_of_pos _ (hg x hp), List.find?_cons_of_pos _ hp]
      rfl
    · rw [if_neg hp, List.find?_cons_of_neg _ hp, List.find?_cons_of_neg _ hp, ih]

/-- A lookup that never selects an updated document is not affected by the update. -/
theorem find_updateFirst_other {α : Type} (p q : α → Bool) (g : α → α)
    (hq : ∀ x, p x = true → q x = false ∧ q (g x) = false) (l : List α) :
    (updateFirst p g l).find? q = l.find? q := by
  induction l with
  | nil => rfl
  | cons x xs ih =>
    unfold updateFirst
    by_cases hp : p x = true
    · rw [if_pos hp]
      have h1 : ¬ q (g x) = true := by simp [(hq x hp).2]
      have h2 : ¬ q x = true := by simp [(hq x hp).1]
      rw [List.find?_cons_of_neg _ h1, List.find?_cons_of_neg _ h2]
    · rw [if_neg hp]
      by_cases hqx : q x = true
      · rw [List.find?_cons_of_pos _ hqx, List.find?_cons_of_pos _ hqx]
      · rw [List.find?_cons_of_neg _ hqx, List.find?_cons_of_neg _ hqx, ih]

/-- An update under which the selected document does not newly satisfy `q` does not raise
the count of `q`. -/
theorem countP_updateFirst_le {α : Type} (p q : α → Bool) (g : α → α) (l : List α)
    (h : ∀ x, l.find? p = some x → q (g x) = true → q x = true) :
    (updateFirst p g l).countP q ≤ l.countP q := by
  induction l with
  | nil => simp [updateFirst]
  | cons x xs ih =>
    unfold updateFirst
    by_cases hp : p x = true
    · rw [if_pos hp]
      by_cases hqg : q (g x) = true
      · have hqx := h x (List.find?_cons_of_pos _ hp) hqg
        rw [List.countP_cons_of_pos _ _ hqg, List.countP_cons_of_pos _ _ hqx]
      · rw [List.countP_cons_of_neg _ _ hqg]
        by_cases hqx : q x = true
        · rw [List.countP_cons_of_pos _ _ hqx]; omega
        · rw [List.countP_cons_of_neg _ _ hqx]
    · rw [if_neg hp]
      have ih' := ih (fun y hy => h y (by rw [List.find?_cons_of_neg _ hp]; exact hy))
      by_cases hqx : q x = true
      · rw [List.countP_cons_of_pos _ _ hqx, List.countP_cons_of_pos _ _ hqx]; omega
      · rw [List.countP_cons_of_neg _ _ hqx, List.countP_cons_of_neg _ _ hqx]; exact ih'

/-- A lookup that succeeds is not affected by documents appended behind. -/
theorem find_append_of_some {α : Type} (q : α → Bool) (l l2 : List α) (x : α)
    (h : l.find? q = some x) : (l ++ l2).find? q = some x := by
  rw [List.find?_append, h]
  rfl

/-! ## The review route -/

theorem findFlag_some (s : Store) (id : Nat) (f : Flag) (h : s.findFlag id = some f) :
    f._id = id ∧ f ∈ s.flags := by
  unfold Store.findFlag at h
  have h1 := List.find?_some h
  exact ⟨by simpa using h1, List.mem_of_find?_eq_some h⟩

theorem findMessage_some (s : Store) (id : Nat) (m : Message)
    (h : s.findMessage id = some m) : m._id = id ∧ m ∈ s.messages := by
  unfold Store.findMessage at h
  have h1 := List.find?_some h
  exact ⟨by simpa using h1, List.mem_of_find?_eq_some h⟩

@[simp] theorem takeModeratorAction_flags (s : Store) (flag : Flag) (action : String) :
    (takeModeratorAction s flag action).flags = s.flags := by
  unfold takeModeratorAction
  split_ifs <;> rfl

@[simp] theorem takeModeratorAction_nextId (s : Store) (flag : Flag) (action : String) :
    (takeModeratorAction s flag action).nextId = s.nextId := by
  unfold takeModeratorAction
  split_ifs <;> rfl

theorem reviewStatus_is_flagStatus (status : String)
    (h : reviewStatuses.contains status = true) : flagStatuses.contains status = true := by
  have hc : status = "reviewed" ∨ status = "dismissed" ∨ status = "escalated" := by
    simpa [reviewStatuses] using h
  rcases hc with h | h | h <;> subst h <;> decide

/-- The reviewed flag passes the schema when the stored flag did and the request is within
the lists of the route and the length limit of the notes. -/
theorem reviewedFlag_valid (f : Flag) (caller : User) (status : String)
    (action_taken reviewer_notes : Option String) (now : Nat) (hf : f.valid = true)
    (hs : reviewStatuses.contains status = true) (ha : actionOk action_taken = true)
    (hn : maxlength 1000 reviewer_notes = true) :
    (reviewedFlag f caller status action_taken reviewer_notes now).valid = true := by
  have hst := reviewStatus_is_flagStatus status hs
  have hact : actions.contains (if truthy action_taken = true then action_taken.getD "" else "none")
      = true := by
    by_cases ht : truthy action_taken = true
    · rw [if_pos ht]
      simpa [actionOk, ht] using ha
    · rw [if_neg ht]
      decide
  simp only [Flag.valid, Bool.and_eq_true] at hf ⊢
  obtain ⟨⟨⟨⟨⟨⟨⟨h1, h2⟩, h3⟩, h4⟩, _⟩, _⟩, h7⟩, _⟩ := hf
  exact ⟨⟨⟨⟨⟨⟨⟨h1, h2⟩, h3⟩, h4⟩, hst⟩, hact⟩, h7⟩, hn⟩

/-! ## Case analysis of the review route -/

/-- The four ways a review can end: the three rejections and the schema failure leave the
store alone and emit nothing; otherwise the flag is rewritten and the action taken. -/
theorem reviewFlag_cases (s : Store) (caller : User) (flagId : Nat) (status : String)
    (action_taken reviewer_notes : Option String) (now : Nat) :
    (reviewStatuses.contains status = false ∧
      reviewFlag s caller flagId status action_taken reviewer_notes now =
        { store := s, events := [],
          response := { status := 400, success := false, message := "Invalid status" } }) ∨
    (reviewStatuses.contains status = true ∧ actionOk action_taken = false ∧
      reviewFlag s caller flagId status action_taken reviewer_notes now =
        { store := s, events := [],
          response := { status := 400, success := false, message := "Invalid action" } }) ∨
    (reviewStatuses.contains status = true ∧ actionOk action_taken = true ∧
      s.findFlag flagId = none ∧
      reviewFlag s caller flagId status action_taken reviewer_notes now =
        { store := s, events := [],
          response := { status := 404, success := false, message := "Flag not found" } }) ∨
    (∃ f, reviewStatuses.contains status = true ∧ actionOk action_taken = true ∧
      s.findFlag flagId = some f ∧
      (reviewedFlag f caller status action_taken reviewer_notes now).valid = false ∧
      reviewFlag s caller flagId status action_taken reviewer_notes now =
        { store := s, events := [], response := serverError }) ∨
    (∃ f, reviewStatuses.contains status = true ∧ actionOk action_taken = true ∧
      s.findFlag flagId = some f ∧
      (reviewedFlag f caller status action_taken reviewer_notes now).valid = true ∧
      reviewFlag s caller flagId status action_taken reviewer_notes now =
        { store := reviewedStore s f caller status action_taken reviewer_notes now,
          events := [{ target := Target.moderators, event := "flag-reviewed",
                       payload := Payload.flagReviewed f._id status action_taken
                         caller.username }],
          response := { status := 200, success := true,
                        message := "Flag reviewed successfully" } }) := by
  unfold reviewFlag
  by_cases hs : reviewStatuses.contains status = true
  · rw [if_neg (not_not.2 hs)]
    by_cases ha : actionOk action_taken = true
    · have ha' : ¬ (truthy action_taken = true ∧
          ¬ actions.contains (action_taken.getD "") = true) := by
        intro hh
        unfold actionOk at ha
        rw [hh.1, Bool.eq_false_of_not_eq_true hh.2] at ha
        cases ha
      rw [if_neg ha']
      cases hfind : s.findFlag flagId with
      | none =>
        right; right; left
        exact ⟨hs, ha, rfl, rfl⟩
      | some f =>
        dsimp only
        by_cases hv : (reviewedFlag f caller status action_taken reviewer_notes now).valid = true
        · right; right; right; right
          refine ⟨f, hs, ha, rfl, hv, ?_⟩
          rw [if_pos hv]
          rfl
        · right; right; right; left
          refine ⟨f, hs, ha, rfl, Bool.eq_false_of_not_eq_true hv, ?_⟩
          rw [if_neg hv]
    · right; left
      have ha2 : actionOk action_taken = false := Bool.eq_false_of_not_eq_true ha
      have ha' : truthy action_taken = true ∧
          ¬ actions.contains (action_taken.getD "") = true := by
        unfold actionOk at ha2
        cases ht : truthy action_taken <;> cases hc : actions.contains (action_taken.getD "") <;>
          rw [ht, hc] at ha2 <;> first | exact ⟨rfl, by decide⟩ | cases ha2
      refine ⟨hs, ha2, ?_⟩
      rw [if_pos ha']
  · left
    refine ⟨Bool.eq_false_of_not_eq_true hs, ?_⟩
    rw [if_pos hs]

/-- Lookup by key after an update by key, for an update that keeps the key. -/
theorem find_updateFirst_key {α : Type} (key : α → Nat) (g : α → α)
    (hg : ∀ x, key (g x) = key x) (l : List α) (a b : Nat) :
    (updateFirst (fun x => key x == a) g l).find? (fun x => key x == b)
      = if b = a then (l.find? (fun x => key x == b)).map g
        else l.find? (fun x => key x == b) := by
  by_cases hab : b = a
  · subst hab
    rw [if_pos rfl]
    exact find_updateFirst_same _ g (fun x hx => by simpa [hg x] using hx) l
  · rw [if_neg hab]
    apply find_updateFirst_other
    intro x hx
    have hxa : key x = a := by simpa using hx
    have hne : ¬ key x = b := fun h => hab (h ▸ hxa)
    constructor
    · simpa using hne
    · simpa [hg x] using hne

theorem findUser_updateUser (s : Store) (uid : Nat) (g : User → User)
    (hg : ∀ u, (g u)._id = u._id) (id : Nat) :
    (s.updateUser uid g).findUser id
      = if id = uid then (s.findUser id).map g else s.findUser id :=
  find_updateFirst_key User._id g hg s.users uid id

theorem findMessage_updateMessage (s : Store) (mid : Nat) (g : Message → Message)
    (hg : ∀ m, (g m)._id = m._id) (id : Nat) :
    (s.updateMessage mid g).findMessage id
      = if id = mid then (s.findMessage id).map g else s.findMessage id :=
  find_updateFirst_key Message._id g hg s.messages mid id

theorem findFlag_updateFlag (s : Store) (fid : Nat) (g : Flag → Flag)
    (hg : ∀ f, (g f)._id = f._id) (id : Nat) :
    (s.updateFlag fid g).findFlag id
      = if id = fid then (s.findFlag id).map g else s.findFlag id :=
  find_updateFirst_key Flag._id g hg s.flags fid id

/-- The flags after a successful review: the first flag with the reviewed identity is
replaced by the reviewed flag. -/
theorem reviewedStore_flags (s : Store) (f : Flag) (caller : User) (status : String)
    (action_taken reviewer_notes : Option String) (now : Nat) :
    (reviewedStore s f caller status action_taken reviewer_notes now).flags
      = updateFirst (fun x => x._id == f._id)
          (fun _ => reviewedFlag f caller status action_taken reviewer_notes now) s.flags := by
  unfold reviewedStore
  split_ifs
  · rw [takeModeratorAction_flags]; rfl
  · rfl

theorem reviewedStore_findFlag (s : Store) (f : Flag) (caller : User) (status : String)
    (action_taken reviewer_notes : Option String) (now : Nat) (flagId : Nat)
    (hf : s.findFlag flagId = some f) :
    (reviewedStore s f caller status action_taken reviewer_notes now).findFlag flagId
      = some (reviewedFlag f caller status action_taken reviewer_notes now) := by
  have hid := (findFlag_some s flagId f hf).1
  unfold Store.findFlag at hf ⊢
  rw [reviewedStore_flags, hid]
  rw [find_updateFirst_same (fun x => x._id == flagId)
    (fun _ => reviewedFlag f caller status action_taken reviewer_notes now)
    (fun x _ => by simp [reviewedFlag, hid]) s.flags, hf]
  rfl

theorem sampleFlag_found : sampleStore.findFlag 11 = some sampleFlag := rfl

theorem sampleFlag_valid : sampleFlag.valid = true := by
  simp [Flag.valid, sampleFlag, flagTypes, flagReasons, severities, flagStatuses, actions,
    maxlength, inRange100]

/-! ## Lengths in UTF-16 code units -/

set_option maxRecDepth 1000000 in
/-- The lengths of the worked examples, in characters and in UTF-16 code units. -/
theorem emoji_lengths :
    emojiDescription.length = 300 ∧ jsLength emojiDescription = 600 ∧
    emojiNotes.length = 501 ∧ jsLength emojiNotes = 1002 ∧
    emojiText.length = 1001 ∧ jsLength emojiText = 2002 := by
  decide

set_option maxRecDepth 1000000 in
/-- A description of 300 characters outside the Basic Multilingual Plane passes
`validateFlag`, is rejected by the Flag schema, and the manual-flag route answers 500 without
storing a flag. -/
theorem emojiDescription_rejected :
    validateFlag "spam" (some emojiDescription) "low" = true ∧
    maxlength 500 (some emojiDescription) = false ∧
    (createManualFlag raceStore bob 10 "spam" (some emojiDescription) "low" 1).response
      = serverError ∧
    (createManualFlag raceStore bob 10 "spam" (some emojiDescription) "low" 1).store.flags
      = [] := by
  decide

set_option maxRecDepth 1000000 in
/-- Notes of 501 characters outside the Basic Multilingual Plane are rejected by the Flag
schema: the review route answers 500 and leaves the store as it was. -/
theorem emojiNotes_rejected :
    maxlength 1000 (some emojiNotes) = false ∧
    reviewFlag sampleStore bob 11 "reviewed" none (some emojiNotes) 5
      = { store := sampleStore, events := [], response := serverError } ∧
    scenarioD sampleStore bob 11 (some emojiNotes) 5
      = { store := sampleStore, events := [], response := serverError } := by
  decide

set_option maxRecDepth 1000000 in
/-- A text of 1001 characters outside the Basic Multilingual Plane is rejected by the Message
schema: the message route answers 500 and stores no message. -/
theorem emojiText_rejected :
    (submitMessage (emptyStore [alice] 10) alice emojiText "general" none "public"
      (MLService.getDefaultAnalysis 0) 0).response = serverError ∧
    (submitMessage (emptyStore [alice] 10) alice emojiText "general" none "public"
      (MLService.getDefaultAnalysis 0) 0).store.messages = [] := by
  decide

/-- A public submission whose text exceeds 2000 UTF-16 code units is answered 500 and stores
no message, when the rule gives no directive. -/
theorem submit_public_too_long (s : Store) (caller : User) (text chatroom : String)
    (recipientId : Option Nat) (analysis : Analysis) (now : Nat)
    (h : autoFlagDirective analysis = none) (hl : 2000 < jsLength text) :
    (submitMessage s caller text chatroom recipientId "public" analysis now).response
      = serverError ∧
    (submitMessage s caller text chatroom recipientId "public" analysis now).store.messages
      = s.messages := by
  have hpub : ¬ ("public" = "private") := by decide
  have hnot : ¬ jsLength text ≤ 2000 := by omega
  unfold submitMessage
  rw [if_neg (fun hh => hpub hh.1)]
  dsimp only
  rw [if_neg (fun hh => hpub hh.1)]
  unfold persistMessage
  rw [if_neg]
  · simp [analysisBlock, newMessage, h]
  · simp [analysisBlock, newMessage, h, Message.valid, hnot]

/-! ## Review: round trip, error contract, Scenario D -/

/-- The round trip of a review, and the success of a review within the limits of the schema. -/
theorem review_round_trip (s : Store) (caller : User) (flagId : Nat) (f : Flag)
    (status : String) (action_taken reviewer_notes : Option String) (now : Nat)
    (hf : s.findFlag flagId = some f)
    (ha : action_taken = none ∨ ∃ a, a ∈ actions ∧ action_taken = some a) :
    ((reviewFlag s caller flagId status action_taken reviewer_notes now).response.success = true →
      (reviewFlag s caller flagId status action_taken reviewer_notes now).store.findFlag flagId
        = some { f with status := status,
                        action_taken := action_taken.getD "none",
                        reviewer_notes := reviewer_notes,
                        reviewed_by := some caller._id,
                        reviewed_at := some now }) ∧
    (reviewStatuses.contains status = true → f.valid = true →
      maxlength 1000 reviewer_notes = true →
      (reviewFlag s caller flagId status action_taken reviewer_notes now).response
        = { status := 200, success := true, message := "Flag reviewed successfully" }) := by
  have hact : (if truthy action_taken = true then action_taken.getD "" else "none")
      = action_taken.getD "none" := by
    rcases ha with h | ⟨a, hmem, h⟩
    · subst h; rfl
    · subst h
      have hcases : a = "none" ∨ a = "warning" ∨ a = "timeout" ∨ a = "ban" ∨
          a = "message_removal" ∨ a = "account_suspension" := by
        simpa [actions] using hmem
      rcases hcases with h | h | h | h | h | h <;> subst h <;> rfl
  have hok : actionOk action_taken = true := by
    rcases ha with h | ⟨a, hmem, h⟩
    · subst h; rfl
    · subst h
      have hc : actions.contains a = true := by simpa using hmem
      unfold actionOk
      show (!truthy (some a) || actions.contains a) = true
      rw [hc, Bool.or_true]
  rcases reviewFlag_cases s caller flagId status action_taken reviewer_notes now with
    ⟨_, h⟩ | ⟨_, _, h⟩ | ⟨_, _, _, h⟩ | ⟨g, _, _, _, _, h⟩ | ⟨g, h1, _, h3, h4, h⟩
  · rw [h]
    refine ⟨fun hh => by simp at hh, fun hs => ?_⟩
    simp_all
  · simp_all
  · simp_all
  · rw [hf] at *
    rename_i hg3 hg4
    cases hg3
    rw [h]
    refine ⟨fun hh => by simp [serverError] at hh, fun hs hv hn => ?_⟩
    rw [reviewedFlag_valid f caller status action_taken reviewer_notes now hv hs hok hn] at hg4
    cases hg4
  · rw [hf] at h3
    cases h3
    rw [h]
    refine ⟨fun _ => ?_, fun _ _ _ => rfl⟩
    show (reviewedStore s f caller status action_taken reviewer_notes now).findFlag flagId = _
    rw [reviewedStore_findFlag s f caller status action_taken reviewer_notes now flagId hf]
    unfold reviewedFlag
    rw [hact]

/-- Claim C7: review round trip.  For a stored flag `f`, whenever reviewFlag succeeds the
flag read back is `f` with status, action_taken, reviewer_notes, reviewed_by and reviewed_at
replaced by the submitted status, the submitted action ("none" when the action is omitted),
the submitted notes, the caller and the time of the call, every other field being that of
`f`; and the call does succeed for every status among the three, every action among the six
or omitted, and every notes value within the 1000 UTF-16 code units the schema allows, the
stored flag being schema-valid.  The limit is counted
as `flag.save()` counts it: notes of 501 characters outside the Basic Multilingual Plane are
1002 code units, the review of the sample flag with them is answered 500 and the store stays
as it was. -/
theorem C7_review_round_trip (s : Store) (caller : User) (flagId : Nat) (f : Flag)
    (status : String) (action_taken reviewer_notes : Option String) (now : Nat)
    (hf : s.findFlag flagId = some f)
    (ha : action_taken = none ∨ ∃ a, a ∈ actions ∧ action_taken = some a) :
    (((reviewFlag s caller flagId status action_taken reviewer_notes now).response.success = true →
      (reviewFlag s caller flagId status action_taken reviewer_notes now).store.findFlag flagId
        = some { f with status := status,
                        action_taken := action_taken.getD "none",
                        reviewer_notes := reviewer_notes,
                        reviewed_by := some caller._id,
                        reviewed_at := some now }) ∧
    (reviewStatuses.contains status = true → f.valid = true →
      maxlength 1000 reviewer_notes = true →
      (reviewFlag s caller flagId status action_taken reviewer_notes now).response
        = { status := 200, success := true, message := "Flag reviewed successfully" })) ∧
    (maxlength 1000 (some emojiNotes) = false ∧
      reviewFlag sampleStore bob 11 "reviewed" none (some emojiNotes) 5
        = { store := sampleStore, events := [], response := serverError }) :=
  ⟨review_round_trip s caller flagId f status action_taken reviewer_notes now hf ha,
    ⟨emojiNotes_rejected.1, emojiNotes_rejected.2.1⟩⟩

/-- Witness for C7: bob reviews the pending sample flag as "reviewed" with a warning and a
note; the call succeeds and the flag read back carries exactly the submitted values. -/
theorem C7_review_round_trip_witness :
    sampleStore.findFlag 11 = some sampleFlag ∧
    (reviewFlag sampleStore bob 11 "reviewed" (some "warning") (some "first offence") 7).response
      = { status := 200, success := true, message := "Flag reviewed successfully" } ∧
    (reviewFlag sampleStore bob 11 "reviewed" (some "warning") (some "first offence")
        7).store.findFlag 11
      = some { sampleFlag with status := "reviewed", action_taken := "warning",
                               reviewer_notes := some "first offence",
                               reviewed_by := some 2, reviewed_at := some 7 } :=
  have h := (C7_review_round_trip sampleStore bob 11 sampleFlag "reviewed" (some "warning")
    (some "first offence") 7 sampleFlag_found (Or.inr ⟨"warning", by decide, rfl⟩)).1
  have hs := h.2 (by decide) sampleFlag_valid (by decide)
  ⟨sampleFlag_found, hs, h.1 (by rw [hs])⟩

/-- Claim C8: error contract of reviewFlag.  A status outside reviewed, dismissed, escalated
(so "pending" in particular) is answered 400 "Invalid status"; with an accepted status, a
supplied non-empty action outside the six defined ones is answered 400 "Invalid action", and
such an action fails the call whatever the status; with accepted status and action, a
missing flag is answered 404 "Flag not found", and a missing flag fails the call whatever
the rest; and every failing call leaves users, messages and flags exactly as they were and
emits nothing, so no action is executed. -/
theorem C8_review_error_contract (s : Store) (caller : User) (flagId : Nat) (status : String)
    (action_taken reviewer_notes : Option String) (now : Nat) :
    (reviewStatuses.contains status = false →
      (reviewFlag s caller flagId status action_taken reviewer_notes now).response
        = { status := 400, success := false, message := "Invalid status" }) ∧
    reviewStatuses.contains "pending" = false ∧
    (reviewStatuses.contains status = true → truthy action_taken = true →
      actions.contains (action_taken.getD "") = false →
      (reviewFlag s caller flagId status action_taken reviewer_notes now).response
        = { status := 400, success := false, message := "Invalid action" }) ∧
    (truthy action_taken = true → actions.contains (action_taken.getD "") = false →
      (reviewFlag s caller flagId status action_taken reviewer_notes now).response.success
        = false) ∧
    (reviewStatuses.contains status = true → actionOk action_taken = true →
      s.findFlag flagId = none →
      (reviewFlag s caller flagId status action_taken reviewer_notes now).response
        = { status := 404, success := false, message := "Flag not found" }) ∧
    (s.findFlag flagId = none →
      (reviewFlag s caller flagId status action_taken reviewer_notes now).response.success
        = false) ∧
    ((reviewFlag s caller flagId status action_taken reviewer_notes now).response.success
        = false →
      (reviewFlag s caller flagId status action_taken reviewer_notes now).store = s ∧
      (reviewFlag s caller flagId status action_taken reviewer_notes now).events = []) := by
  have hbad : ∀ (h1 : truthy action_taken = true)
      (h2 : actions.contains (action_taken.getD "") = false), actionOk action_taken = false := by
    intro h1 h2
    unfold actionOk
    rw [h1, h2]
    rfl
  rcases reviewFlag_cases s caller flagId status action_taken reviewer_notes now with
    ⟨h0, h⟩ | ⟨h0, h1, h⟩ | ⟨h0, h1, h2, h⟩ | ⟨g, h0, h1, h2, h3, h⟩ | ⟨g, h0, h1, h2, h3, h⟩
  · rw [h]
    refine ⟨fun _ => rfl, by decide, ?_, fun _ _ => rfl, ?_, fun _ => rfl, fun _ => ⟨rfl, rfl⟩⟩
    · intro hs; rw [hs] at h0; cases h0
    · intro hs; rw [hs] at h0; cases h0
  · rw [h]
    refine ⟨?_, by decide, fun _ _ _ => rfl, fun _ _ => rfl, ?_, fun _ => rfl,
      fun _ => ⟨rfl, rfl⟩⟩
    · intro hs; rw [hs] at h0; cases h0
    · intro _ ha; rw [ha] at h1; cases h1
  · rw [h]
    refine ⟨?_, by decide, ?_, ?_, fun _ _ _ => rfl, fun _ => rfl, fun _ => ⟨rfl, rfl⟩⟩
    · intro hs; rw [hs] at h0; cases h0
    · intro _ ht hc; rw [hbad ht hc] at h1; cases h1
    · intro _ _; rfl
  · rw [h]
    refine ⟨?_, by decide, ?_, ?_, ?_, ?_, fun _ => ⟨rfl, rfl⟩⟩
    · intro hs; rw [hs] at h0; cases h0
    · intro _ ht hc; rw [hbad ht hc] at h1; cases h1
    · intro _ _; rfl
    · intro _ _ hn; rw [hn] at h2; cases h2
    · intro _; rfl
  · rw [h]
    refine ⟨?_, by decide, ?_, ?_, ?_, ?_, ?_⟩
    · intro hs; rw [hs] at h0; cases h0
    · intro _ ht hc; rw [hbad ht hc] at h1; cases h1
    · intro ht hc; rw [hbad ht hc] at h1; cases h1
    · intro _ _ hn; rw [hn] at h2; cases h2
    · intro hn; rw [hn] at h2; cases h2
    · intro hh; simp at hh

theorem takeModeratorAction_removal (s : Store) (flag : Flag) :
    takeModeratorAction s flag "message_removal"
      = s.updateMessage flag.messageId (fun m => { m with status := "deleted" }) := by
  unfold takeModeratorAction
  rw [if_neg (by decide), if_pos rfl]

/-- Scenario D on a schema-valid stored flag, with notes within the limit of the schema. -/
theorem scenarioD_removal (s : Store) (caller : User) (flagId : Nat) (f : Flag)
    (reviewer_notes : Option String) (now : Nat) (hf : s.findFlag flagId = some f)
    (hv : f.valid = true) (hn : maxlength 1000 reviewer_notes = true) :
    (scenarioD s caller flagId reviewer_notes now).response
      = { status := 200, success := true, message := "Flag reviewed successfully" } ∧
    (∃ g, (scenarioD s caller flagId reviewer_notes now).store.findFlag flagId = some g ∧
      g.status = "reviewed" ∧ g.action_taken = "message_removal" ∧
      g.messageId = f.messageId) ∧
    (∀ m, s.findMessage f.messageId = some m →
      (scenarioD s caller flagId reviewer_notes now).store.findMessage f.messageId
        = some { m with status := "deleted" }) ∧
    (∀ id, id ≠ f.messageId →
      (scenarioD s caller flagId reviewer_notes now).store.findMessage id = s.findMessage id) ∧
    (scenarioD s caller flagId reviewer_notes now).store.users = s.users := by
  have hs : reviewStatuses.contains "reviewed" = true := by decide
  have ha : actionOk (some "message_removal") = true := by decide
  have hvalid := reviewedFlag_valid f caller "reviewed" (some "message_removal")
    reviewer_notes now hv hs ha hn
  have hstore : reviewedStore s f caller "reviewed" (some "message_removal") reviewer_notes now
      = (s.updateFlag f._id (fun _ => reviewedFlag f caller "reviewed"
          (some "message_removal") reviewer_notes now)).updateMessage f.messageId
          (fun m => { m with status := "deleted" }) := by
    unfold reviewedStore
    rw [if_pos (by decide)]
    exact takeModeratorAction_removal _ _
  unfold scenarioD
  rcases reviewFlag_cases s caller flagId "reviewed" (some "message_removal") reviewer_notes
      now with
    ⟨h0, _⟩ | ⟨_, h1, _⟩ | ⟨_, _, h2, _⟩ | ⟨g, _, _, h2, h3, _⟩ | ⟨g, _, _, h2, _, h⟩
  · rw [hs] at h0; cases h0
  · rw [ha] at h1; cases h1
  · rw [hf] at h2; cases h2
  · rw [hf] at h2; cases h2
    rw [hvalid] at h3; cases h3
  · rw [hf] at h2; cases h2
    rw [h]
    refine ⟨rfl, ⟨_, reviewedStore_findFlag s f caller _ _ _ now flagId hf, rfl, rfl, rfl⟩,
      ?_, ?_, ?_⟩
    · intro m hm
      show (reviewedStore s f caller "reviewed" (some "message_removal") reviewer_notes
        now).findMessage f.messageId = _
      rw [hstore, findMessage_updateMessage _ f.messageId
        (fun m => { m with status := "deleted" }) (fun _ => rfl) f.messageId, if_pos rfl]
      show Option.map _ (s.findMessage f.messageId) = _
      rw [hm]
      rfl
    · intro id hid
      show (reviewedStore s f caller "reviewed" (some "message_removal") reviewer_notes
        now).findMessage id = _
      rw [hstore, findMessage_updateMessage _ f.messageId
        (fun m => { m with status := "deleted" }) (fun _ => rfl) id, if_neg hid]
      rfl
    · show (reviewedStore s f caller "reviewed" (some "message_removal") reviewer_notes
        now).users = _
      rw [hstore]
      rfl

/-- Claim C9: Scenario D.  For every stored (schema-valid) flag, reviewFlag with status
"reviewed" and action "message_removal" succeeds, leaves the flag with status "reviewed" and
action_taken "message_removal", leaves the referenced message with status "deleted" (every
other message and every other field being untouched) and changes no user.  The notes are
within the 1000 UTF-16 code units of the Flag schema; with notes of 501 characters outside the
Basic Multilingual Plane (1002 code units) the request on the sample flag is answered 500 and
the store stays as it was. -/
theorem C9_scenarioD_message_removal (s : Store) (caller : User) (flagId : Nat) (f : Flag)
    (reviewer_notes : Option String) (now : Nat) (hf : s.findFlag flagId = some f)
    (hv : f.valid = true) (hn : maxlength 1000 reviewer_notes = true) :
    ((scenarioD s caller flagId reviewer_notes now).response
      = { status := 200, success := true, message := "Flag reviewed successfully" } ∧
    (∃ g, (scenarioD s caller flagId reviewer_notes now).store.findFlag flagId = some g ∧
      g.status = "reviewed" ∧ g.action_taken = "message_removal" ∧
      g.messageId = f.messageId) ∧
    (∀ m, s.findMessage f.messageId = some m →
      (scenarioD s caller flagId reviewer_notes now).store.findMessage f.messageId
        = some { m with status := "deleted" }) ∧
    (∀ id, id ≠ f.messageId →
      (scenarioD s caller flagId reviewer_notes now).store.findMessage id = s.findMessage id) ∧
    (scenarioD s caller flagId reviewer_notes now).store.users = s.users) ∧
    (maxlength 1000 (some emojiNotes) = false ∧
      scenarioD sampleStore bob 11 (some emojiNotes) 5
        = { store := sampleStore, events := [], response := serverError }) :=
  ⟨scenarioD_removal s caller flagId f reviewer_notes now hf hv hn,
    ⟨emojiNotes_rejected.1, emojiNotes_rejected.2.2⟩⟩

/-- Witness for C9: Scenario D on the sample store; the flagged message of alice ends
deleted. -/
theorem C9_scenarioD_message_removal_witness :
    sampleStore.findFlag 11 = some sampleFlag ∧ sampleFlag.valid = true ∧
    (scenarioD sampleStore bob 11 none 7).store.findMessage 10
      = some { sampleMessage with status := "deleted" } :=
  ⟨sampleFlag_found, sampleFlag_valid,
    (C9_scenarioD_message_removal sampleStore bob 11 sampleFlag none 7 sampleFlag_found
      sampleFlag_valid rfl).1.2.2.1 sampleMessage rfl⟩

/-! ## The action executor -/

/-- Claim C10, as amended: `takeModeratorAction` maps each action to its effect.  No action
changes a flag.  "warning" adds one to `warningsReceived` of the subject and changes no other
user and no message.  "timeout", "ban" and "account_suspension" give one and the same store,
in which the subject has `isActive` false and nothing else differs.  "message_removal" sets
the status of the referenced message to "deleted" and changes no other message and no user.
Every other action value leaves the store as it is. -/
theorem C10_action_effects (s : Store) (flag : Flag) (action : String) :
    (takeModeratorAction s flag action).flags = s.flags ∧
    (action = "warning" →
      (takeModeratorAction s flag action).messages = s.messages ∧
      ∀ id, (takeModeratorAction s flag action).findUser id
        = if id = flag.userId then
            (s.findUser id).map (fun u => { u with warningsReceived := u.warningsReceived + 1 })
          else s.findUser id) ∧
    (action = "timeout" ∨ action = "ban" ∨ action = "account_suspension" →
      takeModeratorAction s flag action = takeModeratorAction s flag "ban" ∧
      (takeModeratorAction s flag action).messages = s.messages ∧
      ∀ id, (takeModeratorAction s flag action).findUser id
        = if id = flag.userId then (s.findUser id).map (fun u => { u with isActive := false })
          else s.findUser id) ∧
    (action = "message_removal" →
      (takeModeratorAction s flag action).users = s.users ∧
      ∀ id, (takeModeratorAction s flag action).findMessage id
        = if id = flag.messageId then
            (s.findMessage id).map (fun m => { m with status := "deleted" })
          else s.findMessage id) ∧
    (action ≠ "warning" → action ≠ "timeout" → action ≠ "ban" →
      action ≠ "account_suspension" → action ≠ "message_removal" →
      takeModeratorAction s flag action = s) := by
  have hban : takeModeratorAction s flag "ban"
      = s.updateUser flag.userId (fun u => { u with isActive := false }) := by
    unfold takeModeratorAction
    rw [if_neg (by decide), if_neg (by decide), if_neg (by decide), if_pos (by decide)]
  refine ⟨takeModeratorAction_flags s flag action, ?_, ?_, ?_, ?_⟩
  · intro h
    subst h
    have hw : takeModeratorAction s flag "warning" = s.updateUser flag.userId
        (fun u => { u with warningsReceived := u.warningsReceived + 1 }) := by
      unfold takeModeratorAction
      rw [if_pos rfl]
    rw [hw]
    exact ⟨rfl, fun id => findUser_updateUser s flag.userId
      (fun u => { u with warningsReceived := u.warningsReceived + 1 }) (fun _ => rfl) id⟩
  · intro h
    have heq : takeModeratorAction s flag action
        = s.updateUser flag.userId (fun u => { u with isActive := false }) := by
      rcases h with h | h | h
      · subst h
        unfold takeModeratorAction
        rw [if_neg (by decide), if_neg (by decide), if_pos rfl]
      · subst h; exact hban
      · subst h
        unfold takeModeratorAction
        rw [if_neg (by decide), if_neg (by decide), if_neg (by decide), if_pos (by decide)]
    rw [heq, hban]
    exact ⟨rfl, rfl, fun id => findUser_updateUser s flag.userId
      (fun u => { u with isActive := false }) (fun _ => rfl) id⟩
  · intro h
    subst h
    rw [takeModeratorAction_removal]
    exact ⟨rfl, fun id => findMessage_updateMessage s flag.messageId
      (fun m => { m with status := "deleted" }) (fun _ => rfl) id⟩
  · intro h1 h2 h3 h4 h5
    unfold takeModeratorAction
    rw [if_neg h1, if_neg h5, if_neg h2, if_neg (by rintro (h | h) <;> contradiction)]

/-- Counterexample to C10 as stated: "message_removal" is none of warning, timeout, ban and
account_suspension, yet on the sample store it changes a message: the flagged message of alice
is read back with status "deleted". -/
theorem C10_action_effects_counterexample :
    (sampleStore.findMessage 10).map (fun m => m.status) = some "flagged" ∧
    ((takeModeratorAction sampleStore sampleFlag "message_removal").findMessage 10).map
      (fun m => m.status) = some "deleted" ∧
    (takeModeratorAction sampleStore sampleFlag "message_removal").messages
      ≠ sampleStore.messages := by
  have h2 : ((takeModeratorAction sampleStore sampleFlag "message_removal").findMessage 10).map
      (fun m => m.status) = some "deleted" := by
    rw [takeModeratorAction_removal]
    rfl
  refine ⟨rfl, h2, ?_⟩
  intro h
  have h3 : ((takeModeratorAction sampleStore sampleFlag "message_removal").findMessage 10).map
      (fun m => m.status) = (sampleStore.findMessage 10).map (fun m => m.status) := by
    unfold Store.findMessage
    rw [h]
  rw [h2] at h3
  have h4 : (sampleStore.findMessage 10).map (fun m => m.status) = some "flagged" := rfl
  rw [h4] at h3
  exact absurd h3 (by decide)

/-! ## The manual-flag route -/

/-- The five ways the manual-flag route can end. -/
theorem createManualFlag_cases (s : Store) (caller : User) (messageId : Nat) (reason : String)
    (description : Option String) (severity : String) (now : Nat) :
    (s.findMessage messageId = none ∧
      createManualFlag s caller messageId reason description severity now =
        { store := s, events := [],
          response := { status := 404, success := false, message := "Message not found" } }) ∨
    (∃ m, s.findMessage messageId = some m ∧ s.flags.any (activeFor messageId) = true ∧
      createManualFlag s caller messageId reason description severity now =
        { store := s, events := [], response := conflict }) ∨
    (∃ m, s.findMessage messageId = some m ∧ s.flags.any (activeFor messageId) = false ∧
      (manualFlag s caller m reason description severity now).valid = false ∧
      createManualFlag s caller messageId reason description severity now =
        { store := { s with nextId := s.nextId + 1 }, events := [], response := serverError }) ∨
    (∃ m, s.findMessage messageId = some m ∧ s.flags.any (activeFor messageId) = false ∧
      (manualFlag s caller m reason description severity now).valid = true ∧
      Message.valid { m with status := "flagged" } = false ∧
      createManualFlag s caller messageId reason description severity now =
        { store := { s with nextId := s.nextId + 1,
                            flags := s.flags ++
                              [manualFlag s caller m reason description severity now] },
          events := [], response := serverError }) ∨
    (∃ m, s.findMessage messageId = some m ∧ s.flags.any (activeFor messageId) = false ∧
      (manualFlag s caller m reason description severity now).valid = true ∧
      Message.valid { m with status := "flagged" } = true ∧
      createManualFlag s caller messageId reason description severity now =
        { store := flaggedStore s caller m reason description severity now,
          events := [{ target := Target.moderators, event := "flag-created",
                       payload := Payload.flagCreated
                         (manualFlag s caller m reason description severity now)
                         { m with status := "flagged" } caller.username }],
          response := { status := 201, success := true,
                        message := "Flag created successfully" } }) := by
  unfold createManualFlag
  cases hfind : s.findMessage messageId with
  | none => left; exact ⟨rfl, rfl⟩
  | some m =>
    right
    dsimp only
    by_cases hany : s.flags.any (activeFor messageId) = true
    · left
      refine ⟨m, rfl, hany, ?_⟩
      rw [if_pos hany]
      rfl
    · right
      rw [if_neg hany]
      have hany' := Bool.eq_false_of_not_eq_true hany
      by_cases hv : (manualFlag s caller m reason description severity now).valid = true
      · right
        rw [if_pos hv]
        by_cases hm : Message.valid { m with status := "flagged" } = true
        · right
          refine ⟨m, rfl, hany', hv, hm, ?_⟩
          rw [if_pos hm]
          rfl
        · left
          refine ⟨m, rfl, hany', hv, Bool.eq_false_of_not_eq_true hm, ?_⟩
          rw [if_neg hm]
      · left
        refine ⟨m, rfl, hany', Bool.eq_false_of_not_eq_true hv, ?_⟩
        rw [if_neg hv]

/-- A request accepted by `validateFlag` whose description is within the 500 code units of
the schema yields a manual flag accepted by the schema. -/
theorem manualFlag_valid (s : Store) (caller : User) (m : Message) (reason : String)
    (description : Option String) (severity : String) (now : Nat)
    (h : validateFlag reason description severity = true)
    (h2 : maxlength 500 description = true) :
    (manualFlag s caller m reason description severity now).valid = true := by
  simp only [validateFlag, Bool.and_eq_true] at h
  obtain ⟨⟨h1, _⟩, h3⟩ := h
  have h4 : flagTypes.contains "manual" = true := by decide
  have h5 : flagStatuses.contains "pending" = true := by decide
  have h6 : actions.contains "none" = true := by decide
  have h7 : inRange100 0 = true := by simp [inRange100]
  simp only [Flag.valid, manualFlag, Bool.and_eq_true]
  exact ⟨⟨⟨⟨⟨⟨⟨h4, h1⟩, h2⟩, h3⟩, h5⟩, h6⟩, h7⟩, rfl⟩

/-- Marking a schema-valid message as flagged keeps it schema-valid. -/
theorem flagged_valid (m : Message) (h : m.valid = true) :
    Message.valid { m with status := "flagged" } = true := by
  have h8 : messageStatuses.contains "flagged" = true := by decide
  simp only [Message.valid, Bool.and_eq_true] at h ⊢
  obtain ⟨⟨⟨⟨⟨⟨⟨h1, h2⟩, h3⟩, h4⟩, h5⟩, h6⟩, h7⟩, _⟩ := h
  exact ⟨⟨⟨⟨⟨⟨⟨h1, h2⟩, h3⟩, h4⟩, h5⟩, h6⟩, h7⟩, h8⟩

theorem any_activeFor_iff (s : Store) (messageId : Nat) :
    s.flags.any (activeFor messageId) = true ↔
      ∃ f ∈ s.flags, f.messageId = messageId ∧ f.status ≠ "dismissed" := by
  rw [List.any_eq_true]
  constructor
  · rintro ⟨f, hf, ha⟩
    refine ⟨f, hf, ?_⟩
    simpa [activeFor] using ha
  · rintro ⟨f, hf, ha⟩
    refine ⟨f, hf, ?_⟩
    simpa [activeFor] using ha

/-- The error contract of the manual-flag route and its success within the schema. -/
theorem manual_flag_contract (s : Store) (caller : User) (messageId : Nat) (reason : String)
    (description : Option String) (severity : String) (now : Nat) :
    (s.findMessage messageId = none →
      createManualFlag s caller messageId reason description severity now =
        { store := s, events := [],
          response := { status := 404, success := false, message := "Message not found" } }) ∧
    (∀ m, s.findMessage messageId = some m →
      ((createManualFlag s caller messageId reason description severity now).response
          = conflict ↔
        ∃ f ∈ s.flags, f.messageId = messageId ∧ f.status ≠ "dismissed") ∧
      ((createManualFlag s caller messageId reason description severity now).response
          = conflict →
        (createManualFlag s caller messageId reason description severity now).store = s ∧
        (createManualFlag s caller messageId reason description severity now).events = []) ∧
      ((∀ f ∈ s.flags, f.messageId = messageId → f.status = "dismissed") →
        validateFlag reason description severity = true →
        maxlength 500 description = true → m.valid = true →
        (createManualFlag s caller messageId reason description severity now).response
          = { status := 201, success := true, message := "Flag created successfully" } ∧
        (createManualFlag s caller messageId reason description severity now).store.flags
          = s.flags ++ [manualFlag s caller m reason description severity now] ∧
        ((createManualFlag s caller messageId reason description severity now).store.flags).length
          = s.flags.length + 1 ∧
        (manualFlag s caller m reason description severity now).messageId = messageId ∧
        (manualFlag s caller m reason description severity now).status = "pending")) := by
  have hiff := any_activeFor_iff s messageId
  rcases createManualFlag_cases s caller messageId reason description severity now with
    ⟨h0, h⟩ | ⟨m0, h0, h1, h⟩ | ⟨m0, h0, h1, h2, h⟩ | ⟨m0, h0, h1, h2, h3, h⟩ |
    ⟨m0, h0, h1, h2, h3, h⟩
  · rw [h]
    refine ⟨fun _ => rfl, ?_⟩
    intro m hm
    rw [h0] at hm
    cases hm
  · rw [h]
    refine ⟨fun hn => (by rw [hn] at h0; cases h0), ?_⟩
    intro m hm
    refine ⟨⟨fun _ => hiff.1 h1, fun _ => rfl⟩, fun _ => ⟨rfl, rfl⟩, ?_⟩
    intro hall
    obtain ⟨f, hf, hfm, hfs⟩ := hiff.1 h1
    exact absurd (hall f hf hfm) hfs
  · rw [h]
    refine ⟨fun hn => (by rw [hn] at h0; cases h0), ?_⟩
    intro m hm
    have hmm : m = m0 := Option.some.inj (hm.symm.trans h0)
    subst hmm
    refine ⟨⟨fun hc => (by simp [serverError, conflict] at hc), fun hex => ?_⟩,
      fun hc => (by simp [serverError, conflict] at hc), ?_⟩
    · rw [hiff.2 hex] at h1
      cases h1
    · intro _ hval hlen _
      rw [manualFlag_valid s caller m reason description severity now hval hlen] at h2
      cases h2
  · rw [h]
    refine ⟨fun hn => (by rw [hn] at h0; cases h0), ?_⟩
    intro m hm
    have hmm : m = m0 := Option.some.inj (hm.symm.trans h0)
    subst hmm
    refine ⟨⟨fun hc => (by simp [serverError, conflict] at hc), fun hex => ?_⟩,
      fun hc => (by simp [serverError, conflict] at hc), ?_⟩
    · rw [hiff.2 hex] at h1
      cases h1
    · intro _ _ _ hmv
      rw [flagged_valid m hmv] at h3
      cases h3
  · rw [h]
    refine ⟨fun hn => (by rw [hn] at h0; cases h0), ?_⟩
    intro m hm
    have hmm : m = m0 := Option.some.inj (hm.symm.trans h0)
    subst hmm
    refine ⟨⟨fun hc => (by simp [conflict] at hc), fun hex => ?_⟩,
      fun hc => (by simp [conflict] at hc), ?_⟩
    · rw [hiff.2 hex] at h1
      cases h1
    · intro _ _ _ _
      have hfl : (flaggedStore s caller m reason description severity now).flags
          = s.flags ++ [manualFlag s caller m reason description severity now] := rfl
      refine ⟨rfl, hfl, ?_, (findMessage_some s messageId m h0).1, rfl⟩
      show ((flaggedStore s caller m reason description severity now).flags).length = _
      rw [hfl, List.length_append]
      rfl

/-- Claim C5: error contract of createManualFlag.  A missing message is answered 404
"Message not found" and nothing changes.  For an existing message the answer is the conflict
"Message is already flagged" exactly when some flag of that message has a status other than
"dismissed"; the conflict leaves the whole store (flags, message status, counters) unchanged
and emits nothing.  When every flag of the message is dismissed (or there is none), a request
that passed `validateFlag` and whose description is within the 500 UTF-16 code units of the
Flag schema, on a schema-valid stored message, is answered 201 and exactly one flag, pending
and referencing the message, is appended.  The two limits are
counted differently: a description of 300 characters outside the Basic Multilingual Plane
passes `validateFlag` (300 characters) but not the schema (600 code units), and the request is
answered 500 without storing a flag. -/
theorem C5_manual_flag_contract (s : Store) (caller : User) (messageId : Nat) (reason : String)
    (description : Option String) (severity : String) (now : Nat) :
    ((s.findMessage messageId = none →
      createManualFlag s caller messageId reason description severity now =
        { store := s, events := [],
          response := { status := 404, success := false, message := "Message not found" } }) ∧
    (∀ m, s.findMessage messageId = some m →
      ((createManualFlag s caller messageId reason description severity now).response
          = conflict ↔
        ∃ f ∈ s.flags, f.messageId = messageId ∧ f.status ≠ "dismissed") ∧
      ((createManualFlag s caller messageId reason description severity now).response
          = conflict →
        (createManualFlag s caller messageId reason description severity now).store = s ∧
        (createManualFlag s caller messageId reason description severity now).events = []) ∧
      ((∀ f ∈ s.flags, f.messageId = messageId → f.status = "dismissed") →
        validateFlag reason description severity = true →
        maxlength 500 description = true → m.valid = true →
        (createManualFlag s caller messageId reason description severity now).response
          = { status := 201, success := true, message := "Flag created successfully" } ∧
        (createManualFlag s caller messageId reason description severity now).store.flags
          = s.flags ++ [manualFlag s caller m reason description severity now] ∧
        ((createManualFlag s caller messageId reason description severity now).store.flags).length
          = s.flags.length + 1 ∧
        (manualFlag s caller m reason description severity now).messageId = messageId ∧
        (manualFlag s caller m reason description severity now).status = "pending"))) ∧
    (validateFlag "spam" (some emojiDescription) "low" = true ∧
      maxlength 500 (some emojiDescription) = false ∧
      (createManualFlag raceStore bob 10 "spam" (some emojiDescription) "low" 1).response
        = serverError ∧
      (createManualFlag raceStore bob 10 "spam" (some emojiDescription) "low" 1).store.flags
        = []) :=
  ⟨manual_flag_contract s caller messageId reason description severity now,
    emojiDescription_rejected⟩

/-- Witness for C5: bob flags the unflagged message of alice as spam; the request passes
`validateFlag`, carries no description, the stored message is schema-valid, and the call is
answered 201. -/
theorem C5_manual_flag_contract_witness :
    raceStore.findMessage 10 = some { sampleMessage with status := "active" } ∧
    validateFlag "spam" none "low" = true ∧
    (createManualFlag raceStore bob 10 "spam" none "low" 1).response
      = { status := 201, success := true, message := "Flag created successfully" } :=
  ⟨by decide, by decide,
    (((C5_manual_flag_contract raceStore bob 10 "spam" none "low" 1).1.2
      { sampleMessage with status := "active" } (by decide)).2.2
      (fun f hf => by cases hf) (by decide) (by decide) (by decide)).1⟩

/-! ## The one-active-flag invariant -/

theorem analysisBlock_shape (s : Store) (caller : User) (chatroom : String) (message : Message)
    (now : Nat) :
    ∃ fl, (analysisBlock s caller chatroom message now).1.flags = s.flags ++ fl ∧
      fl.length ≤ 1 ∧
      (∀ f ∈ fl, f.messageId = message._id ∧ f.status = "pending" ∧ f.flagType = "auto") ∧
      (analysisBlock s caller chatroom message now).1.messages = s.messages ∧
      (analysisBlock s caller chatroom message now).1.users = s.users ∧
      s.nextId ≤ (analysisBlock s caller chatroom message now).1.nextId ∧
      (analysisBlock s caller chatroom message now).2.1._id = message._id := by
  unfold analysisBlock
  cases hd : autoFlagDirective message.analysis with
  | none =>
    exact ⟨[], by simp, by simp, by simp, rfl, rfl, le_refl _, rfl⟩
  | some d =>
    dsimp only
    by_cases hv : (autoFlag s.nextId message._id caller chatroom d now).valid = true
    · rw [if_pos hv]
      refine ⟨[autoFlag s.nextId message._id caller chatroom d now], rfl, by simp, ?_, rfl, rfl,
        Nat.le_succ _, rfl⟩
      intro f hf
      rw [List.mem_singleton] at hf
      subst hf
      exact ⟨rfl, rfl, rfl⟩
    · rw [if_neg hv]
      exact ⟨[], by simp, by simp, by simp, rfl, rfl, Nat.le_succ _, rfl⟩

/-- What the message route can do to the store: append at most one pending flag for the new
message identity, append at most the new message, and advance the counter. -/
theorem submit_shape (s : Store) (caller : User) (text chatroom : String)
    (recipientId : Option Nat) (messageType : String) (analysis : Analysis) (now : Nat) :
    ∃ fl ms,
      (submitMessage s caller text chatroom recipientId messageType analysis now).store.flags
        = s.flags ++ fl ∧
      fl.length ≤ 1 ∧ (∀ f ∈ fl, f.messageId = s.nextId ∧ f.status = "pending") ∧
      (submitMessage s caller text chatroom recipientId messageType analysis now).store.messages
        = s.messages ++ ms ∧
      (∀ m ∈ ms, m._id = s.nextId) ∧
      s.nextId ≤
        (submitMessage s caller text chatroom recipientId messageType analysis now).store.nextId ∧
      ((fl ≠ [] ∨ ms ≠ []) → s.nextId <
        (submitMessage s caller text chatroom recipientId messageType analysis now).store.nextId)
      := by
  unfold submitMessage
  by_cases h1 : messageType = "private" ∧ recipientId = none
  · rw [if_pos h1]
    exact ⟨[], [], by simp, by simp, by simp, by simp, by simp, le_refl _, by simp⟩
  · rw [if_neg h1]
    dsimp only
    by_cases h2 : messageType = "private" ∧
        (if messageType = "private" then recipientId.bind s.findUser else none) = none
    · rw [if_pos h2]
      exact ⟨[], [], by simp, by simp, by simp, by simp, by simp, le_refl _, by simp⟩
    · rw [if_neg h2]
      obtain ⟨fl, hfl, hlen, hprop, hmsgs, _, hnext, hid⟩ :=
        analysisBlock_shape { s with nextId := s.nextId + 1 } caller chatroom
          (newMessage s.nextId caller text chatroom recipientId messageType
            (if messageType = "private" then recipientId.bind s.findUser else none)
            analysis now) now
      unfold persistMessage
      by_cases hv : Message.valid (analysisBlock { s with nextId := s.nextId + 1 } caller chatroom
          (newMessage s.nextId caller text chatroom recipientId messageType
            (if messageType = "private" then recipientId.bind s.findUser else none)
            analysis now) now).2.1 = true
      · rw [if_pos hv]
        refine ⟨fl, [(analysisBlock { s with nextId := s.nextId + 1 } caller chatroom
          (newMessage s.nextId caller text chatroom recipientId messageType
            (if messageType = "private" then recipientId.bind s.findUser else none)
            analysis now) now).2.1], hfl, hlen, ?_, ?_, ?_, ?_, ?_⟩
        · intro f hf
          exact ⟨(hprop f hf).1, (hprop f hf).2.1⟩
        · show _ ++ _ = _
          rw [hmsgs]
        · intro m hm
          rw [List.mem_singleton] at hm
          subst hm
          exact hid
        · exact Nat.le_of_succ_le hnext
        · intro _
          exact hnext
      · rw [if_neg hv]
        refine ⟨fl, [], hfl, hlen, ?_, ?_, by simp, Nat.le_of_succ_le hnext, fun _ => hnext⟩
        · intro f hf
          exact ⟨(hprop f hf).1, (hprop f hf).2.1⟩
        · rw [List.append_nil]
          exact hmsgs

/-- Appending at most one flag whose message has no non-dismissed flag yet, and replacing the
messages by messages below the counter, keeps the invariant. -/
theorem inv_of_append (s t : Store) (hinv : s.Inv) (fl : List Flag) (hflags : t.flags = s.flags ++ fl)
    (hlen : fl.length ≤ 1)
    (hnew : ∀ f ∈ fl, f.messageId < t.nextId ∧ s.flags.any (activeFor f.messageId) = false)
    (hn : s.nextId ≤ t.nextId) (hm : ∀ m ∈ t.messages, m._id < t.nextId) : t.Inv := by
  obtain ⟨h1, _, h3⟩ := hinv
  refine ⟨?_, hm, ?_⟩
  · intro f hf
    rw [hflags] at hf
    rcases List.mem_append.1 hf with h | h
    · exact lt_of_lt_of_le (h1 f h) hn
    · exact (hnew f h).1
  · intro mid
    unfold activeCount
    rw [hflags, List.countP_append]
    have hold := h3 mid
    unfold activeCount at hold
    match fl, hlen, hnew with
    | [], _, _ => simpa using hold
    | [f], _, hnew =>
      by_cases ha : activeFor mid f = true
      · have hfm : f.messageId = mid := by
          simp only [activeFor, Bool.and_eq_true, beq_iff_eq] at ha
          exact ha.1
        have hz := (hnew f (List.mem_singleton.2 rfl)).2
        rw [hfm] at hz
        have hzero : s.flags.countP (activeFor mid) = 0 := by
          rw [List.countP_eq_zero]
          intro a ha' hact
          have : s.flags.any (activeFor mid) = true := List.any_eq_true.2 ⟨a, ha', hact⟩
          rw [hz] at this
          cases this
        rw [hzero, List.countP_cons_of_pos _ _ ha]
        simp
      · rw [List.countP_cons_of_neg _ _ ha]
        simpa using hold
    | _ :: _ :: _, hlen, _ => simp at hlen

theorem inv_submit (s : Store) (hinv : s.Inv) (caller : User) (text chatroom : String)
    (recipientId : Option Nat) (messageType : String) (analysis : Analysis) (now : Nat) :
    (submitMessage s caller text chatroom recipientId messageType analysis now).store.Inv := by
  obtain ⟨fl, ms, hfl, hlen, hprop, hms, hmprop, hle, hlt⟩ :=
    submit_shape s caller text chatroom recipientId messageType analysis now
  apply inv_of_append s _ hinv fl hfl hlen ?_ hle ?_
  · intro f hf
    have hne : fl ≠ [] := List.ne_nil_of_mem hf
    refine ⟨by rw [(hprop f hf).1]; exact hlt (Or.inl hne), ?_⟩
    rw [(hprop f hf).1, Bool.eq_false_iff]
    intro hany
    obtain ⟨g, hg, hact⟩ := List.any_eq_true.1 hany
    have hlt' := hinv.1 g hg
    simp only [activeFor, Bool.and_eq_true, beq_iff_eq] at hact
    omega
  · intro m hm
    rw [hms] at hm
    rcases List.mem_append.1 hm with h | h
    · exact lt_of_lt_of_le (hinv.2.1 m h) hle
    · rw [(hmprop m h)]
      exact hlt (Or.inr (List.ne_nil_of_mem h))

theorem inv_manual (s : Store) (hinv : s.Inv) (caller : User) (messageId : Nat)
    (reason : String) (description : Option String) (severity : String) (now : Nat) :
    (createManualFlag s caller messageId reason description severity now).store.Inv := by
  rcases createManualFlag_cases s caller messageId reason description severity now with
    ⟨_, h⟩ | ⟨m, _, _, h⟩ | ⟨m, _, _, _, h⟩ | ⟨m, h0, h1, _, _, h⟩ | ⟨m, h0, h1, _, _, h⟩
  · rw [h]; exact hinv
  · rw [h]; exact hinv
  · rw [h]
    apply inv_of_append s _ hinv [] (by simp) (by simp) (by simp) (Nat.le_succ _)
    intro x hx
    exact Nat.lt_succ_of_lt (hinv.2.1 x hx)
  · rw [h]
    obtain ⟨hid, hmem⟩ := findMessage_some s messageId m h0
    apply inv_of_append s _ hinv [manualFlag s caller m reason description severity now] rfl
      (by simp) ?_ (Nat.le_succ _)
    · intro x hx
      exact Nat.lt_succ_of_lt (hinv.2.1 x hx)
    · intro f hf
      rw [List.mem_singleton] at hf
      subst hf
      refine ⟨Nat.lt_succ_of_lt (hinv.2.1 m hmem), ?_⟩
      show s.flags.any (activeFor m._id) = false
      rw [hid]
      exact h1
  · rw [h]
    obtain ⟨hid, hmem⟩ := findMessage_some s messageId m h0
    apply inv_of_append s _ hinv [manualFlag s caller m reason description severity now] rfl
      (by simp) ?_ (Nat.le_succ _)
    · intro x hx
      have hx' : x ∈ updateFirst (fun y => y._id == m._id)
          (fun y => { y with status := "flagged" }) s.messages := hx
      rcases mem_updateFirst _ _ _ _ hx' with h' | ⟨y, hy, _, hxy⟩
      · exact Nat.lt_succ_of_lt (hinv.2.1 x h')
      · rw [hxy]
        exact Nat.lt_succ_of_lt (hinv.2.1 y hy)
    · intro f hf
      rw [List.mem_singleton] at hf
      subst hf
      refine ⟨Nat.lt_succ_of_lt (hinv.2.1 m hmem), ?_⟩
      show s.flags.any (activeFor m._id) = false
      rw [hid]
      exact h1

/-- The messages after the action executor carry the identities they carried before. -/
theorem takeModeratorAction_message_ids (s : Store) (flag : Flag) (action : String) :
    ∀ m ∈ (takeModeratorAction s flag action).messages, ∃ x ∈ s.messages, m._id = x._id := by
  intro m hm
  unfold takeModeratorAction at hm
  split_ifs at hm
  · exact ⟨m, hm, rfl⟩
  · have hm' : m ∈ updateFirst (fun y => y._id == flag.messageId)
        (fun y => { y with status := "deleted" }) s.messages := hm
    rcases mem_updateFirst _ _ _ _ hm' with h' | ⟨y, hy, _, hxy⟩
    · exact ⟨m, h', rfl⟩
    · exact ⟨y, hy, by rw [hxy]⟩
  · exact ⟨m, hm, rfl⟩
  · exact ⟨m, hm, rfl⟩
  · exact ⟨m, hm, rfl⟩

theorem reviewedStore_message_ids (s : Store) (f : Flag) (caller : User) (status : String)
    (action_taken reviewer_notes : Option String) (now : Nat) :
    ∀ m ∈ (reviewedStore s f caller status action_taken reviewer_notes now).messages,
      ∃ x ∈ s.messages, m._id = x._id := by
  intro m hm
  unfold reviewedStore at hm
  split_ifs at hm
  · obtain ⟨x, hx, hmx⟩ := takeModeratorAction_message_ids
      (s.updateFlag f._id (fun _ => reviewedFlag f caller status action_taken reviewer_notes now))
      _ _ m hm
    exact ⟨x, hx, hmx⟩
  · exact ⟨m, hm, rfl⟩

theorem reviewedStore_nextId (s : Store) (f : Flag) (caller : User) (status : String)
    (action_taken reviewer_notes : Option String) (now : Nat) :
    (reviewedStore s f caller status action_taken reviewer_notes now).nextId = s.nextId := by
  unfold reviewedStore
  split_ifs
  · rw [takeModeratorAction_nextId]; rfl
  · rfl

theorem inv_review (s : Store) (hinv : s.Inv) (caller : User) (flagId : Nat) (status : String)
    (action_taken reviewer_notes : Option String) (now : Nat)
    (hk : (Op.review caller flagId status action_taken reviewer_notes now).keepsDismissed s
      = true) :
    (reviewFlag s caller flagId status action_taken reviewer_notes now).store.Inv := by
  rcases reviewFlag_cases s caller flagId status action_taken reviewer_notes now with
    ⟨_, h⟩ | ⟨_, _, h⟩ | ⟨_, _, _, h⟩ | ⟨f, _, _, _, _, h⟩ | ⟨f, _, _, hf, _, h⟩
  · rw [h]; exact hinv
  · rw [h]; exact hinv
  · rw [h]; exact hinv
  · rw [h]; exact hinv
  · rw [h]
    obtain ⟨hid, hmem⟩ := findFlag_some s flagId f hf
    have hk' : (f.status != "dismissed" || status == "dismissed") = true := by
      simpa [Op.keepsDismissed, hf] using hk
    have hflags := reviewedStore_flags s f caller status action_taken reviewer_notes now
    have hnext := reviewedStore_nextId s f caller status action_taken reviewer_notes now
    refine ⟨?_, ?_, ?_⟩
    · intro g hg
      show g.messageId < (reviewedStore s f caller status action_taken reviewer_notes now).nextId
      rw [hnext]
      have hg' : g ∈ (reviewedStore s f caller status action_taken reviewer_notes now).flags := hg
      rw [hflags] at hg'
      rcases mem_updateFirst _ _ _ _ hg' with h' | ⟨y, _, _, hgy⟩
      · exact hinv.1 g h'
      · rw [hgy]
        exact hinv.1 f hmem
    · intro m hm
      show m._id < (reviewedStore s f caller status action_taken reviewer_notes now).nextId
      rw [hnext]
      obtain ⟨x, hx, hmx⟩ := reviewedStore_message_ids s f caller status action_taken
        reviewer_notes now m hm
      rw [hmx]
      exact hinv.2.1 x hx
    · intro mid
      refine le_trans ?_ (hinv.2.2 mid)
      unfold activeCount
      show ((reviewedStore s f caller status action_taken reviewer_notes now).flags).countP _ ≤ _
      rw [hflags]
      apply countP_updateFirst_le
      intro x hx hq
      have hxf : x = f := by
        have hf' : s.flags.find? (fun y => y._id == flagId) = some f := hf
        rw [hid] at hx
        rw [hf'] at hx
        exact (Option.some.inj hx).symm
      subst hxf
      simp only [activeFor, reviewedFlag, Bool.and_eq_true, beq_iff_eq, bne_iff_ne, ne_eq] at hq ⊢
      refine ⟨hq.1, ?_⟩
      intro hdis
      simp only [hdis, bne_self_eq_false, Bool.false_or, beq_iff_eq] at hk'
      exact hq.2 hk'

theorem inv_run (s : Store) (hinv : s.Inv) (op : Op) (hk : op.keepsDismissed s = true) :
    (op.run s).store.Inv := by
  cases op with
  | submit caller text chatroom recipientId messageType analysis now =>
    exact inv_submit s hinv caller text chatroom recipientId messageType analysis now
  | manual caller messageId reason description severity now =>
    exact inv_manual s hinv caller messageId reason description severity now
  | review caller flagId status action_taken reviewer_notes now =>
    exact inv_review s hinv caller flagId status action_taken reviewer_notes now hk

theorem inv_runAll : ∀ (ops : List Op) (s : Store), s.Inv → admissible s ops = true →
    (runAll s ops).Inv := by
  intro ops
  induction ops with
  | nil => intro s hinv _; exact hinv
  | cons op rest ih =>
    intro s hinv hadm
    simp only [admissible, Bool.and_eq_true] at hadm
    exact ih _ (inv_run s hinv op hadm.1) hadm.2

theorem inv_empty (users : List User) (nextId : Nat) : (emptyStore users nextId).Inv := by
  refine ⟨?_, ?_, ?_⟩
  · intro f hf; cases hf
  · intro m hm; cases hm
  · intro mid; simp [activeCount, emptyStore]

/-- Claim C4, as amended: in every store reached from a store without messages and flags by a
sequence of submitMessage, createManualFlag and reviewFlag calls in which no reviewFlag call
moves a flag whose status is "dismissed" to another status, every message is referenced by at
most one flag whose status is not "dismissed". -/
theorem C4_one_active_flag (users : List User) (nextId : Nat) (ops : List Op)
    (h : admissible (emptyStore users nextId) ops = true) (messageId : Nat) :
    activeCount (runAll (emptyStore users nextId) ops) messageId ≤ 1 :=
  (inv_runAll ops (emptyStore users nextId) (inv_empty users nextId) h).2.2 messageId

/-- Witness for C4: alice posts, bob flags the post, dismisses the flag, flags the post again
and reviews the second flag; the run is admissible and the post keeps one active flag. -/
theorem C4_one_active_flag_witness :
    admissible (emptyStore [alice, bob] 10)
      [ Op.submit alice "hello" "general" none "public" (MLService.getDefaultAnalysis 0) 0,
        Op.manual bob 10 "spam" none "low" 1,
        Op.review bob 11 "dismissed" none none 2,
        Op.manual bob 10 "spam" none "low" 3,
        Op.review bob 12 "reviewed" (some "warning") none 4 ] = true ∧
    activeCount (runAll (emptyStore [alice, bob] 10)
      [ Op.submit alice "hello" "general" none "public" (MLService.getDefaultAnalysis 0) 0,
        Op.manual bob 10 "spam" none "low" 1,
        Op.review bob 11 "dismissed" none none 2,
        Op.manual bob 10 "spam" none "low" 3,
        Op.review bob 12 "reviewed" (some "warning") none 4 ]) 10 ≤ 1 :=
  ⟨by decide, C4_one_active_flag [alice, bob] 10 _ (by decide) 10⟩

/-- Counterexample to C4 as stated: after alice posts, bob flags the post, dismisses that
flag, flags the post again and then reviews the dismissed flag as "reviewed", the post is
referenced by two flags whose status is not "dismissed". -/
theorem C4_one_active_flag_counterexample :
    activeCount (runAll (emptyStore [alice, bob] 10) revivalRun) 10 = 2 ∧
    ¬ activeCount (runAll (emptyStore [alice, bob] 10) revivalRun) 10 ≤ 1 := by
  decide

/-! ## Statuses of a reviewed flag -/

theorem reviewedStore_findFlag_other (s : Store) (f : Flag) (caller : User) (status : String)
    (action_taken reviewer_notes : Option String) (now : Nat) (id : Nat) (hne : id ≠ f._id) :
    (reviewedStore s f caller status action_taken reviewer_notes now).findFlag id
      = s.findFlag id := by
  unfold Store.findFlag
  rw [reviewedStore_flags]
  apply find_updateFirst_other
  intro x hx
  have hxid : x._id = f._id := by simpa using hx
  constructor
  · have : ¬ x._id = id := fun h => hne (h ▸ hxid)
    simpa using this
  · have : ¬ (reviewedFlag f caller status action_taken reviewer_notes now)._id = id :=
      fun h => hne h.symm
    simpa using this

/-- One request leaves a stored flag in place; the flag read back is the same flag unless the
request is a successful review of that very flag, which writes the submitted status, one of
the three review statuses. -/
theorem run_findFlag (s : Store) (id : Nat) (f : Flag) (hf : s.findFlag id = some f)
    (op : Op) :
    ∃ g, (op.run s).store.findFlag id = some g ∧
      (g = f ∨ ∃ caller status action_taken reviewer_notes now,
        op = Op.review caller id status action_taken reviewer_notes now ∧
        (op.run s).response.success = true ∧ g.status = status ∧
        reviewStatuses.contains status = true) := by
  cases op with
  | submit caller text chatroom recipientId messageType analysis now =>
    obtain ⟨fl, _, hfl, _⟩ :=
      submit_shape s caller text chatroom recipientId messageType analysis now
    refine ⟨f, ?_, Or.inl rfl⟩
    show List.find? _ (submitMessage s caller text chatroom recipientId messageType analysis
      now).store.flags = _
    rw [hfl]
    exact find_append_of_some _ _ _ _ hf
  | manual caller messageId reason description severity now =>
    refine ⟨f, ?_, Or.inl rfl⟩
    show (createManualFlag s caller messageId reason description severity now).store.findFlag id
      = _
    rcases createManualFlag_cases s caller messageId reason description severity now with
      ⟨_, h⟩ | ⟨m, _, _, h⟩ | ⟨m, _, _, _, h⟩ | ⟨m, _, _, _, _, h⟩ | ⟨m, _, _, _, _, h⟩
    · rw [h]; exact hf
    · rw [h]; exact hf
    · rw [h]; exact hf
    · rw [h]; exact find_append_of_some _ _ _ _ hf
    · rw [h]; exact find_append_of_some _ _ _ _ hf
  | review caller flagId status action_taken reviewer_notes now =>
    show ∃ g, (reviewFlag s caller flagId status action_taken reviewer_notes now).store.findFlag
      id = some g ∧ (g = f ∨ ∃ caller' status' action_taken' reviewer_notes' now',
        Op.review caller flagId status action_taken reviewer_notes now
          = Op.review caller' id status' action_taken' reviewer_notes' now' ∧
        (reviewFlag s caller flagId status action_taken reviewer_notes now).response.success
          = true ∧ g.status = status' ∧ reviewStatuses.contains status' = true)
    rcases reviewFlag_cases s caller flagId status action_taken reviewer_notes now with
      ⟨_, h⟩ | ⟨_, _, h⟩ | ⟨_, _, _, h⟩ | ⟨f0, _, _, _, _, h⟩ | ⟨f0, hs, _, hf0, _, h⟩
    · rw [h]; exact ⟨f, hf, Or.inl rfl⟩
    · rw [h]; exact ⟨f, hf, Or.inl rfl⟩
    · rw [h]; exact ⟨f, hf, Or.inl rfl⟩
    · rw [h]; exact ⟨f, hf, Or.inl rfl⟩
    · rw [h]
      have hid0 := (findFlag_some s flagId f0 hf0).1
      by_cases hsame : id = flagId
      · subst hsame
        rw [hf] at hf0
        cases hf0
        exact ⟨_, reviewedStore_findFlag s f caller status action_taken reviewer_notes now id
          hf, Or.inr ⟨caller, status, action_taken, reviewer_notes, now, rfl, rfl, rfl, hs⟩⟩
      · refine ⟨f, ?_, Or.inl rfl⟩
        show (reviewedStore s f0 caller status action_taken reviewer_notes now).findFlag id = _
        rw [reviewedStore_findFlag_other s f0 caller status action_taken reviewer_notes now id
          (by rw [hid0]; exact hsame)]
        exact hf

theorem runAll_findFlag : ∀ (ops : List Op) (s : Store) (id : Nat) (f : Flag),
    s.findFlag id = some f →
    ∃ g, (runAll s ops).findFlag id = some g ∧
      (reviewStatuses.contains f.status = true → reviewStatuses.contains g.status = true) := by
  intro ops
  induction ops with
  | nil => intro s id f hf; exact ⟨f, hf, fun h => h⟩
  | cons op rest ih =>
    intro s id f hf
    obtain ⟨g, hg, hcase⟩ := run_findFlag s id f hf op
    obtain ⟨k, hk, hterm⟩ := ih (op.run s).store id g hg
    refine ⟨k, hk, ?_⟩
    intro hfs
    apply hterm
    rcases hcase with h | ⟨_, status, _, _, _, _, _, hst, hin⟩
    · rw [h]; exact hfs
    · rw [hst]; exact hin

/-- Claim C6, as amended: a stored flag is never removed, and its status changes only through
a successful reviewFlag on that flag.  Any single request (submitMessage, createManualFlag,
reviewFlag) reads the flag back unchanged unless it is a successful review of that flag, in
which case the status read back is the submitted one, which is one of reviewed, dismissed,
escalated; setMessageStatus and reanalyzeMessage do not touch the flags at all.  Hence a flag
whose status is one of reviewed, dismissed, escalated keeps a status among these three after
every sequence of requests and never returns to "pending"; a later review is not rejected and
may replace one of the three by another. -/
theorem C6_review_statuses_closed (s : Store) (id : Nat) (f : Flag)
    (hf : s.findFlag id = some f) :
    (∀ op : Op, ∃ g, (op.run s).store.findFlag id = some g ∧
      (g = f ∨ ∃ caller status action_taken reviewer_notes now,
        op = Op.review caller id status action_taken reviewer_notes now ∧
        (op.run s).response.success = true ∧ g.status = status ∧
        reviewStatuses.contains status = true)) ∧
    (∀ ops : List Op, ∃ g, (runAll s ops).findFlag id = some g ∧
      (reviewStatuses.contains f.status = true → reviewStatuses.contains g.status = true ∧
        g.status ≠ "pending")) ∧
    (∀ caller messageId status, (setMessageStatus s caller messageId status).store.flags
      = s.flags) ∧
    (∀ messageId analysis now, (reanalyzeMessage s messageId analysis now).store.flags
      = s.flags) := by
  refine ⟨run_findFlag s id f hf, ?_, ?_, ?_⟩
  · intro ops
    obtain ⟨g, hg, hterm⟩ := runAll_findFlag ops s id f hf
    refine ⟨g, hg, fun h => ⟨hterm h, ?_⟩⟩
    intro hp
    have := hterm h
    rw [hp] at this
    exact absurd this (by decide)
  · intro caller messageId status
    unfold setMessageStatus
    by_cases hst : ¬ messageStatuses.contains status = true
    · rw [if_pos hst]
    · rw [if_neg hst]
      cases s.findMessage messageId <;> rfl
  · intro messageId analysis now
    unfold reanalyzeMessage
    cases s.findMessage messageId with
    | none => rfl
    | some m =>
      dsimp only
      split_ifs <;> rfl

/-- Witness for C6: on the sample store the pending sample flag is found, and after bob
reviews it as "escalated" it is read back with status "escalated". -/
theorem C6_review_statuses_closed_witness :
    sampleStore.findFlag 11 = some sampleFlag ∧
    ∃ g, ((Op.review bob 11 "escalated" none none 5).run sampleStore).store.findFlag 11
        = some g ∧
      (g = sampleFlag ∨ ∃ caller status action_taken reviewer_notes now,
        Op.review bob 11 "escalated" none none 5
          = Op.review caller 11 status action_taken reviewer_notes now ∧
        ((Op.review bob 11 "escalated" none none 5).run sampleStore).response.success = true ∧
        g.status = status ∧ reviewStatuses.contains status = true) :=
  ⟨sampleFlag_found,
    (C6_review_statuses_closed sampleStore 11 sampleFlag sampleFlag_found).1
      (Op.review bob 11 "escalated" none none 5)⟩

/-- Counterexample to C6 as stated: after alice posts, bob flags the post and reviews his
flag as "reviewed", the flag has the terminal status "reviewed"; a further reviewFlag call
with status "dismissed" succeeds and the flag is read back with status "dismissed". -/
theorem C6_review_statuses_closed_counterexample :
    ((runAll (emptyStore [alice, bob] 10) secondReviewRun).findFlag 11).map (fun f => f.status)
      = some "reviewed" ∧
    (reviewFlag (runAll (emptyStore [alice, bob] 10) secondReviewRun) bob 11 "dismissed" none
      none 3).response.success = true ∧
    ((reviewFlag (runAll (emptyStore [alice, bob] 10) secondReviewRun) bob 11 "dismissed" none
      none 3).store.findFlag 11).map (fun f => f.status) = some "dismissed" := by
  decide

/-! ## Status of a removed message -/

/-- The action executor reads a stored message back unchanged or with status "deleted". -/
theorem takeModeratorAction_findMessage (s : Store) (flag : Flag) (action : String) (id : Nat)
    (m : Message) (hm : s.findMessage id = some m) :
    (takeModeratorAction s flag action).findMessage id = some m ∨
    (takeModeratorAction s flag action).findMessage id = some { m with status := "deleted" } := by
  unfold takeModeratorAction
  split_ifs
  · exact Or.inl hm
  · rw [findMessage_updateMessage s flag.messageId (fun m => { m with status := "deleted" })
      (fun _ => rfl) id]
    split_ifs
    · right; rw [hm]; rfl
    · exact Or.inl hm
  · exact Or.inl hm
  · exact Or.inl hm
  · exact Or.inl hm

theorem reviewedStore_findMessage (s : Store) (f : Flag) (caller : User) (status : String)
    (action_taken reviewer_notes : Option String) (now : Nat) (id : Nat) (m : Message)
    (hm : s.findMessage id = some m) :
    (reviewedStore s f caller status action_taken reviewer_notes now).findMessage id = some m ∨
    (reviewedStore s f caller status action_taken reviewer_notes now).findMessage id
      = some { m with status := "deleted" } := by
  unfold reviewedStore
  split_ifs
  · exact takeModeratorAction_findMessage
      (s.updateFlag f._id (fun _ => reviewedFlag f caller status action_taken reviewer_notes now))
      _ _ id m hm
  · exact Or.inl hm

/-- A review reads a stored message back unchanged or with status "deleted". -/
theorem review_findMessage (s : Store) (caller : User) (flagId : Nat) (status : String)
    (action_taken reviewer_notes : Option String) (now : Nat) (id : Nat) (m : Message)
    (hm : s.findMessage id = some m) :
    (reviewFlag s caller flagId status action_taken reviewer_notes now).store.findMessage id
      = some m ∨
    (reviewFlag s caller flagId status action_taken reviewer_notes now).store.findMessage id
      = some { m with status := "deleted" } := by
  rcases reviewFlag_cases s caller flagId status action_taken reviewer_notes now with
    ⟨_, h⟩ | ⟨_, _, h⟩ | ⟨_, _, _, h⟩ | ⟨f, _, _, _, _, h⟩ | ⟨f, _, _, _, _, h⟩
  · rw [h]; exact Or.inl hm
  · rw [h]; exact Or.inl hm
  · rw [h]; exact Or.inl hm
  · rw [h]; exact Or.inl hm
  · rw [h]
    exact reviewedStore_findMessage s f caller status action_taken reviewer_notes now id m hm

/-- A re-analysis reads a stored message back with the status it had. -/
theorem reanalyze_findMessage (s : Store) (messageId : Nat) (analysis : Analysis) (now : Nat)
    (id : Nat) (m : Message) (hm : s.findMessage id = some m) :
    ∃ k, (reanalyzeMessage s messageId analysis now).store.findMessage id = some k ∧
      k.status = m.status := by
  unfold reanalyzeMessage
  cases hfind : s.findMessage messageId with
  | none => exact ⟨m, hm, rfl⟩
  | some x =>
    dsimp only
    split_ifs
    · show ∃ k, (s.updateMessage x._id
        (fun m => { m with analysis := { analysis with processed_at := now } })).findMessage id
          = some k ∧ k.status = m.status
      rw [findMessage_updateMessage s x._id
        (fun m => { m with analysis := { analysis with processed_at := now } })
        (fun _ => rfl) id]
      split_ifs
      · rw [hm]; exact ⟨_, rfl, rfl⟩
      · exact ⟨m, hm, rfl⟩
    · exact ⟨m, hm, rfl⟩

/-- A submission reads every stored message back unchanged. -/
theorem submit_findMessage (s : Store) (caller : User) (text chatroom : String)
    (recipientId : Option Nat) (messageType : String) (analysis : Analysis) (now : Nat)
    (id : Nat) (m : Message) (hm : s.findMessage id = some m) :
    (submitMessage s caller text chatroom recipientId messageType analysis now).store.findMessage
      id = some m := by
  obtain ⟨_, ms, _, _, _, hms, _⟩ :=
    submit_shape s caller text chatroom recipientId messageType analysis now
  unfold Store.findMessage
  rw [hms]
  exact find_append_of_some _ _ _ _ hm

/-- A successful manual flag reads the flagged message back with status "flagged". -/
theorem manual_findMessage (s : Store) (caller : User) (messageId : Nat) (reason : String)
    (description : Option String) (severity : String) (now : Nat) (m : Message)
    (hm : s.findMessage messageId = some m)
    (hs : (createManualFlag s caller messageId reason description severity now).response.success
      = true) :
    (createManualFlag s caller messageId reason description severity now).store.findMessage
      messageId = some { m with status := "flagged" } := by
  rcases createManualFlag_cases s caller messageId reason description severity now with
    ⟨_, h⟩ | ⟨m0, _, _, h⟩ | ⟨m0, _, _, _, h⟩ | ⟨m0, _, _, _, _, h⟩ | ⟨m0, h0, _, _, _, h⟩
  · rw [h] at hs; simp at hs
  · rw [h] at hs; simp [conflict] at hs
  · rw [h] at hs; simp [serverError] at hs
  · rw [h] at hs; simp [serverError] at hs
  · rw [h]
    have hmm : m = m0 := Option.some.inj (hm.symm.trans h0)
    subst hmm
    have hid := (findMessage_some s messageId m hm).1
    show (Store.updateMessage
      { s with nextId := s.nextId + 1,
               flags := s.flags ++ [manualFlag s caller m reason description severity now] }
      m._id (fun m => { m with status := "flagged" })).findMessage messageId = _
    rw [findMessage_updateMessage _ m._id (fun m => { m with status := "flagged" })
      (fun _ => rfl) messageId, if_pos hid.symm]
    show Option.map _ (s.findMessage messageId) = _
    rw [hm]
    rfl

/-- The status route writes the submitted status on an existing message. -/
theorem setStatus_findMessage (s : Store) (caller : User) (id : Nat) (status : String)
    (m : Message) (hm : s.findMessage id = some m)
    (hs : messageStatuses.contains status = true) :
    (setMessageStatus s caller id status).response
      = { status := 200, success := true, message := "Message status updated" } ∧
    (setMessageStatus s caller id status).store.findMessage id
      = some { m with status := status } := by
  unfold setMessageStatus
  rw [if_neg (not_not.2 hs), hm]
  dsimp only
  refine ⟨rfl, ?_⟩
  rw [findMessage_updateMessage s id (fun m => { m with status := status }) (fun _ => rfl) id,
    if_pos rfl, hm]
  rfl

/-- Claim C11, as amended: the status "deleted" is kept by reviewFlag with any action, by
reanalyzeMessage and by submitMessage, but it is not terminal: setMessageStatus with any of
the four statuses replaces it by the submitted status, and a successful createManualFlag
replaces it by "flagged". -/
theorem C11_deleted_status (s : Store) (id : Nat) (m : Message)
    (hm : s.findMessage id = some m) (hd : m.status = "deleted") :
    (∀ caller flagId status action_taken reviewer_notes now, ∃ k,
      (reviewFlag s caller flagId status action_taken reviewer_notes now).store.findMessage id
        = some k ∧ k.status = "deleted") ∧
    (∀ messageId analysis now, ∃ k,
      (reanalyzeMessage s messageId analysis now).store.findMessage id = some k ∧
      k.status = "deleted") ∧
    (∀ caller text chatroom recipientId messageType analysis now,
      (submitMessage s caller text chatroom recipientId messageType analysis now).store.findMessage
        id = some m) ∧
    (∀ caller status, messageStatuses.contains status = true →
      (setMessageStatus s caller id status).store.findMessage id
        = some { m with status := status }) ∧
    (∀ caller reason description severity now,
      (createManualFlag s caller id reason description severity now).response.success = true →
      (createManualFlag s caller id reason description severity now).store.findMessage id
        = some { m with status := "flagged" }) := by
  refine ⟨?_, ?_, ?_, ?_, ?_⟩
  · intro caller flagId status action_taken reviewer_notes now
    rcases review_findMessage s caller flagId status action_taken reviewer_notes now id m hm with
      h | h
    · exact ⟨m, h, hd⟩
    · exact ⟨_, h, rfl⟩
  · intro messageId analysis now
    obtain ⟨k, hk, hst⟩ := reanalyze_findMessage s messageId analysis now id m hm
    exact ⟨k, hk, hst.trans hd⟩
  · intro caller text chatroom recipientId messageType analysis now
    exact submit_findMessage s caller text chatroom recipientId messageType analysis now id m hm
  · intro caller status hs
    exact (setStatus_findMessage s caller id status m hm hs).2
  · intro caller reason description severity now hs
    exact manual_findMessage s caller id reason description severity now m hm hs

/-- Witness for C11: on the store with the removed message, the status route with "hidden"
reads the message back hidden. -/
theorem C11_deleted_status_witness :
    deletedStore.findMessage 10 = some deletedMessage ∧ deletedMessage.status = "deleted" ∧
    (setMessageStatus deletedStore bob 10 "hidden").store.findMessage 10
      = some { deletedMessage with status := "hidden" } :=
  ⟨rfl, rfl, (C11_deleted_status deletedStore 10 deletedMessage rfl rfl).2.2.2.1 bob "hidden"
    (by decide)⟩

/-- Counterexample to C11 as stated: the removed message of the sample store has status
"deleted"; setMessageStatus with "active" succeeds and the message is read back "active";
createManualFlag on it succeeds and the message is read back "flagged". -/
theorem C11_deleted_status_counterexample :
    (deletedStore.findMessage 10).map (fun m => m.status) = some "deleted" ∧
    (setMessageStatus deletedStore bob 10 "active").response.success = true ∧
    ((setMessageStatus deletedStore bob 10 "active").store.findMessage 10).map
      (fun m => m.status) = some "active" ∧
    (createManualFlag deletedStore bob 10 "spam" none "low" 5).response.success = true ∧
    ((createManualFlag deletedStore bob 10 "spam" none "low" 5).store.findMessage 10).map
      (fun m => m.status) = some "flagged" := by
  decide

/-! ## Case analysis of the message route -/

/-- The three ways the analysis block can end: no directive; a directive whose flag the
schema rejects; a directive whose flag is saved, with the message marked and the moderators
notified. -/
theorem analysisBlock_cases (s : Store) (caller : User) (chatroom : String) (message : Message)
    (now : Nat) :
    (autoFlagDirective message.analysis = none ∧
      analysisBlock s caller chatroom message now = (s, message, [])) ∨
    (∃ d, autoFlagDirective message.analysis = some d ∧
      (autoFlag s.nextId message._id caller chatroom d now).valid = false ∧
      analysisBlock s caller chatroom message now
        = ({ s with nextId := s.nextId + 1 }, message, [])) ∨
    (∃ d, autoFlagDirective message.analysis = some d ∧
      (autoFlag s.nextId message._id caller chatroom d now).valid = true ∧
      analysisBlock s caller chatroom message now
        = ({ s with nextId := s.nextId + 1,
                    flags := s.flags ++ [autoFlag s.nextId message._id caller chatroom d now] },
           { message with status := "flagged" },
           [flaggedEvent caller { message with status := "flagged" }
             (autoFlag s.nextId message._id caller chatroom d now)])) := by
  unfold analysisBlock
  cases hd : autoFlagDirective message.analysis with
  | none => exact Or.inl ⟨rfl, rfl⟩
  | some d =>
    right
    dsimp only
    by_cases hv : (autoFlag s.nextId message._id caller chatroom d now).valid = true
    · right
      refine ⟨d, rfl, hv, ?_⟩
      rw [if_pos hv]
      rfl
    · left
      refine ⟨d, rfl, Bool.eq_false_of_not_eq_true hv, ?_⟩
      rw [if_neg hv]

/-- The three ways the message route can end before or after the analysis. -/
theorem submitMessage_cases (s : Store) (caller : User) (text chatroom : String)
    (recipientId : Option Nat) (messageType : String) (analysis : Analysis) (now : Nat) :
    (messageType = "private" ∧ recipientId = none ∧
      submitMessage s caller text chatroom recipientId messageType analysis now =
        { store := s, events := [],
          response := { status := 400, success := false,
                        message := "Recipient ID is required for private messages" } }) ∨
    (messageType = "private" ∧ recipientOf s messageType recipientId = none ∧
      submitMessage s caller text chatroom recipientId messageType analysis now =
        { store := s, events := [],
          response := { status := 404, success := false, message := "Recipient not found" } }) ∨
    (¬ (messageType = "private" ∧ recipientId = none) ∧
      ¬ (messageType = "private" ∧ recipientOf s messageType recipientId = none) ∧
      submitMessage s caller text chatroom recipientId messageType analysis now =
        persistMessage caller messageType recipientId
          (analysisBlock { s with nextId := s.nextId + 1 } caller chatroom
            (newMessage s.nextId caller text chatroom recipientId messageType
              (recipientOf s messageType recipientId) analysis now) now)) := by
  unfold submitMessage
  by_cases h1 : messageType = "private" ∧ recipientId = none
  · left
    rw [if_pos h1]
    exact ⟨h1.1, h1.2, rfl⟩
  · right
    rw [if_neg h1]
    dsimp only
    by_cases h2 : messageType = "private" ∧ recipientOf s messageType recipientId = none
    · left
      refine ⟨h2.1, h2.2, ?_⟩
      unfold recipientOf at h2
      rw [if_pos h2]
    · right
      refine ⟨h1, h2, ?_⟩
      unfold recipientOf at h2 ⊢
      rw [if_neg h2]

/-- The two ways the tail of the message route can end. -/
theorem persistMessage_cases (caller : User) (messageType : String) (recipientId : Option Nat)
    (r : Store × Message × List Emission) :
    (r.2.1.valid = true ∧
      persistMessage caller messageType recipientId r =
        { store := Store.updateUser { r.1 with messages := r.1.messages ++ [r.2.1] } caller._id
            (fun u => { u with totalMessages := u.totalMessages + 1 }),
          events := r.2.2 ++ newMessageEvents caller messageType recipientId r.2.1,
          response := { status := 201, success := true,
                        message := "Message created successfully" } }) ∨
    (r.2.1.valid = false ∧
      persistMessage caller messageType recipientId r =
        { store := r.1, events := r.2.2, response := serverError }) := by
  unfold persistMessage
  by_cases hv : r.2.1.valid = true
  · left
    rw [if_pos hv]
    exact ⟨hv, rfl⟩
  · right
    rw [if_neg hv]
    exact ⟨Bool.eq_false_of_not_eq_true hv, rfl⟩

/-- Everything the message route does, in one statement: the flags grow by `fl`, the messages
by `ms`, the emissions are `fe` (about the flag) followed by `ne` (about the message).
Either no flag is stored and nothing is emitted about one, or the directive's flag passed the
schema, is the one stored flag and is announced to the moderators.  Either the call succeeds
and the one new message is stored and announced, or it fails and no message is stored. -/
theorem submit_summary (s : Store) (caller : User) (text chatroom : String)
    (recipientId : Option Nat) (messageType : String) (analysis : Analysis) (now : Nat) :
    ∃ (fl : List Flag) (ms : List Message) (fe ne : List Emission),
      (submitMessage s caller text chatroom recipientId messageType analysis now).store.flags
        = s.flags ++ fl ∧
      (submitMessage s caller text chatroom recipientId messageType analysis now).store.messages
        = s.messages ++ ms ∧
      (submitMessage s caller text chatroom recipientId messageType analysis now).events
        = fe ++ ne ∧
      ((fl = [] ∧ fe = [] ∧ (∀ m ∈ ms, m.status = "active") ∧
          (autoFlagDirective analysis = none ∨
            (∃ d, autoFlagDirective analysis = some d ∧
              (autoFlag (s.nextId + 1) s.nextId caller chatroom d now).valid = false) ∨
            (submitMessage s caller text chatroom recipientId messageType analysis
              now).response.success = false)) ∨
        (∃ d, autoFlagDirective analysis = some d ∧
          (autoFlag (s.nextId + 1) s.nextId caller chatroom d now).valid = true ∧
          fl = [autoFlag (s.nextId + 1) s.nextId caller chatroom d now] ∧
          fe = [flaggedEvent caller
            { newMessage s.nextId caller text chatroom recipientId messageType
                (recipientOf s messageType recipientId) analysis now with status := "flagged" }
            (autoFlag (s.nextId + 1) s.nextId caller chatroom d now)] ∧
          (∀ m ∈ ms, m.status = "flagged"))) ∧
      (((submitMessage s caller text chatroom recipientId messageType analysis
            now).response = { status := 201, success := true,
                              message := "Message created successfully" } ∧
          ∃ m, ms = [m] ∧ ne = newMessageEvents caller messageType recipientId m ∧
            m.analysis = analysis ∧ m._id = s.nextId ∧ m.userId = caller._id ∧
            m.text = text ∧ m.valid = true) ∨
        ((submitMessage s caller text chatroom recipientId messageType analysis
            now).response.success = false ∧ ms = [] ∧ ne = [])) := by
  rcases submitMessage_cases s caller text chatroom recipientId messageType analysis now with
    ⟨_, _, h⟩ | ⟨_, _, h⟩ | ⟨_, _, h⟩
  · rw [h]
    exact ⟨[], [], [], [], by simp, by simp, rfl,
      Or.inl ⟨rfl, rfl, by simp, Or.inr (Or.inr rfl)⟩, Or.inr ⟨rfl, rfl, rfl⟩⟩
  · rw [h]
    exact ⟨[], [], [], [], by simp, by simp, rfl,
      Or.inl ⟨rfl, rfl, by simp, Or.inr (Or.inr rfl)⟩, Or.inr ⟨rfl, rfl, rfl⟩⟩
  · rw [h]
    rcases persistMessage_cases caller messageType recipientId
        (analysisBlock { s with nextId := s.nextId + 1 } caller chatroom
          (newMessage s.nextId caller text chatroom recipientId messageType
            (recipientOf s messageType recipientId) analysis now) now) with ⟨hm, hp⟩ | ⟨hm, hp⟩ <;>
      rcases analysisBlock_cases { s with nextId := s.nextId + 1 } caller chatroom
          (newMessage s.nextId caller text chatroom recipientId messageType
            (recipientOf s messageType recipientId) analysis now) now with
        ⟨hd, hb⟩ | ⟨d, hd, hv, hb⟩ | ⟨d, hd, hv, hb⟩ <;>
      rw [hp] <;> rw [hb] at hm ⊢
    · refine ⟨[], [_], [], _, by simp, rfl, rfl, Or.inl ⟨rfl, rfl, ?_, Or.inl hd⟩,
        Or.inl ⟨rfl, _, rfl, rfl, rfl, rfl, rfl, rfl, hm⟩⟩
      intro m hmem
      rw [List.mem_singleton] at hmem
      rw [hmem]
      rfl
    · refine ⟨[], [_], [], _, by simp, rfl, rfl,
        Or.inl ⟨rfl, rfl, ?_, Or.inr (Or.inl ⟨d, hd, hv⟩)⟩,
        Or.inl ⟨rfl, _, rfl, rfl, rfl, rfl, rfl, rfl, hm⟩⟩
      intro m hmem
      rw [List.mem_singleton] at hmem
      rw [hmem]
      rfl
    · refine ⟨[_], [_], [_], _, rfl, rfl, rfl, Or.inr ⟨d, hd, hv, rfl, rfl, ?_⟩,
        Or.inl ⟨rfl, _, rfl, rfl, rfl, rfl, rfl, rfl, hm⟩⟩
      intro m hmem
      rw [List.mem_singleton] at hmem
      rw [hmem]
    · exact ⟨[], [], [], [], by simp, by simp, rfl,
        Or.inl ⟨rfl, rfl, by simp, Or.inl hd⟩, Or.inr ⟨rfl, rfl, rfl⟩⟩
    · exact ⟨[], [], [], [], by simp, by simp, rfl,
        Or.inl ⟨rfl, rfl, by simp, Or.inr (Or.inl ⟨d, hd, hv⟩)⟩, Or.inr ⟨rfl, rfl, rfl⟩⟩
    · exact ⟨[_], [], [_], [], rfl, (List.append_nil _).symm, rfl,
        Or.inr ⟨d, hd, hv, rfl, rfl, by simp⟩, Or.inr ⟨rfl, rfl, rfl⟩⟩

/-! ## Flag creation and the status of the message -/

/-- Claim C12, as amended: every stored flag goes with a flagged message.  After a successful
createManualFlag the message is read back with status "flagged", whatever its status was.
After a successful submitMessage whose analysis satisfies the auto-flag rule and whose auto
flag the Flag schema accepts, that flag is stored and the persisted message has status
"flagged".  After a successful submitMessage whose analysis does not satisfy the rule the
persisted message has status "active" and no flag is stored. -/
theorem C12_flag_creation_marks_message (s : Store) (caller : User) :
    (∀ messageId reason description severity now m, s.findMessage messageId = some m →
      (createManualFlag s caller messageId reason description severity now).response.success
        = true →
      (createManualFlag s caller messageId reason description severity now).store.findMessage
        messageId = some { m with status := "flagged" }) ∧
    (∀ text chatroom recipientId messageType analysis now d,
      autoFlagDirective analysis = some d →
      (autoFlag (s.nextId + 1) s.nextId caller chatroom d now).valid = true →
      (submitMessage s caller text chatroom recipientId messageType analysis now).response.success
        = true →
      (submitMessage s caller text chatroom recipientId messageType analysis now).store.flags
        = s.flags ++ [autoFlag (s.nextId + 1) s.nextId caller chatroom d now] ∧
      ∃ m, (submitMessage s caller text chatroom recipientId messageType analysis
          now).store.messages = s.messages ++ [m] ∧
        m.status = "flagged" ∧ m.analysis = analysis ∧ m._id = s.nextId) ∧
    (∀ text chatroom recipientId messageType analysis now,
      autoFlagDirective analysis = none →
      (submitMessage s caller text chatroom recipientId messageType analysis now).response.success
        = true →
      (submitMessage s caller text chatroom recipientId messageType analysis now).store.flags
        = s.flags ∧
      ∃ m, (submitMessage s caller text chatroom recipientId messageType analysis
          now).store.messages = s.messages ++ [m] ∧
        m.status = "active" ∧ m.analysis = analysis ∧ m._id = s.nextId) := by
  refine ⟨?_, ?_, ?_⟩
  · intro messageId reason description severity now m hm hs
    exact manual_findMessage s caller messageId reason description severity now m hm hs
  · intro text chatroom recipientId messageType analysis now d hd hv hs
    obtain ⟨fl, ms, fe, ne, hfl, hms, _, hflag, hmsg⟩ :=
      submit_summary s caller text chatroom recipientId messageType analysis now
    rcases hmsg with ⟨_, m, hm1, _, hm3, hm4, _⟩ | ⟨hfail, _, _⟩
    · rcases hflag with ⟨_, _, _, hwhy⟩ | ⟨d', hd', _, hfl', _, hst⟩
      · rcases hwhy with h | ⟨d', hd', hv'⟩ | h
        · rw [h] at hd; cases hd
        · rw [hd'] at hd
          cases hd
          rw [hv'] at hv
          cases hv
        · rw [h] at hs; cases hs
      · rw [hd'] at hd
        cases hd
        rw [hfl'] at hfl
        refine ⟨hfl, m, by rw [hms, hm1], hst m (by rw [hm1]; exact List.mem_singleton.2 rfl),
          hm3, hm4⟩
    · rw [hfail] at hs; cases hs
  · intro text chatroom recipientId messageType analysis now hd hs
    obtain ⟨hf, _, hm⟩ :=
      submit_no_directive s caller text chatroom recipientId messageType analysis now hd
    obtain ⟨fl, ms, fe, ne, _, hms, _, _, hmsg⟩ :=
      submit_summary s caller text chatroom recipientId messageType analysis now
    obtain ⟨m, h1, h2, h3, _, _⟩ := hm hs
    refine ⟨hf, m, h1, h2, h3, ?_⟩
    rcases hmsg with ⟨_, m', hm1, _, _, hm4, _⟩ | ⟨hfail, _, _⟩
    · rw [hms, hm1] at h1
      have := List.append_cancel_left h1
      cases this
      exact hm4
    · rw [hfail] at hs; cases hs

/-- Counterexample to C12 as stated: the analysis `uncategorised` reports abuse with confidence
80, so it satisfies the auto-flag rule; its category "none" is not a Flag reason, the schema
rejects the auto flag, and the successful submission of alice persists the message with
status "active" and stores no flag. -/
theorem C12_flag_creation_marks_message_counterexample :
    uncategorised.abuse_detected = true ∧ uncategorised.confidence_score > 70 ∧
    (autoFlagDirective uncategorised).isSome = true ∧
    (submitMessage (emptyStore [alice] 10) alice "hello" "general" none "public" uncategorised
      0).response.success = true ∧
    (submitMessage (emptyStore [alice] 10) alice "hello" "general" none "public" uncategorised
      0).store.flags = [] ∧
    ((submitMessage (emptyStore [alice] 10) alice "hello" "general" none "public" uncategorised
      0).store.messages).map (fun m => m.status) = ["active"] := by
  decide

/-- The fields of a directive, read off the analysis that produced it. -/
theorem directive_fields (a : Analysis) (d : FlagDirective) (h : autoFlagDirective a = some d) :
    a.abuse_detected = true ∧ a.confidence_score > 70 ∧ d.reason = a.abuse_type ∧
    d.ai_confidence = a.confidence_score ∧ d.emotion_trigger = a.emotion := by
  unfold autoFlagDirective at h
  by_cases hc : a.abuse_detected = true ∧ a.confidence_score > 70
  · rw [if_pos hc] at h
    cases h
    exact ⟨hc.1, hc.2, rfl, rfl, rfl⟩
  · rw [if_neg hc] at h
    cases h

/-- Claim C13: every flag stored by submitMessage is an auto flag in its initial state.  The
flags after the call are the flags before it followed by at most one new flag, and that flag
has flagType "auto", no moderator, status "pending", action_taken "none", no reviewer, no
review timestamp and no notes; its subject is the caller, who is the author of the message
the call persists; it references the identity of that message; its reason is the
`abuse_type` of the analysis and its `ai_confidence` is the `confidence_score` of the
analysis.  For the analysis `harassing` such a flag is stored. -/
theorem C13_auto_flag_initial_state (s : Store) (caller : User) (text chatroom : String)
    (recipientId : Option Nat) (messageType : String) (analysis : Analysis) (now : Nat) :
    (∃ fl : List Flag,
      (submitMessage s caller text chatroom recipientId messageType analysis now).store.flags
        = s.flags ++ fl ∧ fl.length ≤ 1 ∧
      ∀ f ∈ fl, f.flagType = "auto" ∧ f.moderatorId = none ∧ f.status = "pending" ∧
        f.action_taken = "none" ∧ f.reviewed_by = none ∧ f.reviewed_at = none ∧
        f.reviewer_notes = none ∧ f.userId = caller._id ∧ f.messageId = s.nextId ∧
        f.reason = analysis.abuse_type ∧ f.ai_confidence = analysis.confidence_score) ∧
    (∀ m, (submitMessage s caller text chatroom recipientId messageType analysis
        now).store.messages = s.messages ++ [m] → m.userId = caller._id ∧ m._id = s.nextId) ∧
    (submitMessage (emptyStore [alice] 10) alice "you fool" "general" none "public" harassing
      0).store.flags
      = [autoFlag 11 10 alice "general"
          { reason := "harassment", severity := "medium", ai_confidence := 85,
            emotion_trigger := "anger", intensity_threshold_exceeded := true } 0] := by
  obtain ⟨fl, ms, fe, ne, hfl, hms, _, hflag, hmsg⟩ :=
    submit_summary s caller text chatroom recipientId messageType analysis now
  refine ⟨⟨fl, hfl, ?_, ?_⟩, ?_, by decide⟩
  · rcases hflag with ⟨h, _⟩ | ⟨d, _, _, h, _⟩ <;> rw [h] <;> simp
  · intro f hf
    rcases hflag with ⟨h, _⟩ | ⟨d, hd, _, h, _⟩
    · rw [h] at hf; cases hf
    · rw [h, List.mem_singleton] at hf
      subst hf
      obtain ⟨_, _, hr, hc, _⟩ := directive_fields analysis d hd
      exact ⟨rfl, rfl, rfl, rfl, rfl, rfl, rfl, rfl, rfl, hr, hc⟩
  · intro m hm
    rw [hms] at hm
    have hm' := List.append_cancel_left hm
    rcases hmsg with ⟨_, m', hm1, _, _, hm4, hm5, _⟩ | ⟨_, hnil, _⟩
    · rw [hm1] at hm'
      cases hm'
      exact ⟨hm5, hm4⟩
    · rw [hnil] at hm'
      cases hm'

/-! ## Absorbed analysis failures -/

theorem defaultAnalysis_valid (now : Nat) : (MLService.getDefaultAnalysis now).valid = true := by
  simp [Analysis.valid, MLService.getDefaultAnalysis, abuseTypes, emotions, inRange100]

theorem defaultAnalysis_no_directive (now : Nat) :
    autoFlagDirective (MLService.getDefaultAnalysis now) = none := by
  apply no_directive_of_le
  show (0 : ℚ) ≤ 70
  norm_num

/-- The new document passes the schema when its analysis does and the request carries a named
author, a non-empty text of at most 2000 UTF-16 code units, a named room and, for a private
message, a recipient found with a name. -/
theorem newMessage_valid (id : Nat) (caller : User) (text chatroom : String)
    (recipientId : Option Nat) (messageType : String) (recipientUser : Option User)
    (analysis : Analysis) (now : Nat) (ha : analysis.valid = true)
    (hu : caller.username ≠ "") (ht : text ≠ "") (hl : jsLength text ≤ 2000)
    (hc : chatroom ≠ "")
    (hrec : messageType = "public" ∨
      (messageType = "private" ∧ recipientId.isSome = true ∧
        ∃ u, recipientUser = some u ∧ u.username ≠ "")) :
    (newMessage id caller text chatroom recipientId messageType recipientUser analysis now).valid
      = true := by
  rcases hrec with h | ⟨h, hr, u, hu', hun⟩
  · subst h
    simp [Message.valid, newMessage, ha, hu, ht, hl, hc, messageTypes, messageStatuses]
  · subst h
    subst hu'
    simp [Message.valid, newMessage, ha, hu, ht, hl, hc, messageTypes, messageStatuses, hr, hun]

/-- The default analysis on a failed call, and the submission that follows. -/
theorem analysis_failure_absorbed (s : Store) (caller : User) (text chatroom : String)
    (recipientId : Option Nat) (messageType : String) (now : Nat)
    (hu : caller.username ≠ "") (ht : text ≠ "") (hl : jsLength text ≤ 2000)
    (hc : chatroom ≠ "")
    (hrec : messageType = "public" ∨
      (messageType = "private" ∧
        ∃ r u, recipientId = some r ∧ s.findUser r = some u ∧ u.username ≠ "")) :
    (∀ external, MLService.analyzeTextWith true none external now
      = MLService.getDefaultAnalysis now) ∧
    (∀ engine, MLService.analyzeTextWith false engine none now
      = MLService.getDefaultAnalysis now) ∧
    (∀ rng, MLService.analyzeText false text rng none now = MLService.getDefaultAnalysis now) ∧
    (∀ useMock rng external, MLService.analyzeText useMock text rng external now
      = MLService.analyzeTextWith useMock (some (MockMLService.analyzeText text rng now))
          external now) ∧
    MLService.getDefaultAnalysis now
      = { abuse_detected := false, abuse_type := "none", confidence_score := 0,
          emotion := "neutral", emotion_intensity := 0, secondary_emotions := [],
          processed_at := now } ∧
    (submitMessage s caller text chatroom recipientId messageType
      (MLService.getDefaultAnalysis now) now).response
      = { status := 201, success := true, message := "Message created successfully" } ∧
    (submitMessage s caller text chatroom recipientId messageType
      (MLService.getDefaultAnalysis now) now).store.flags = s.flags ∧
    (∃ m, (submitMessage s caller text chatroom recipientId messageType
        (MLService.getDefaultAnalysis now) now).store.messages = s.messages ++ [m] ∧
      m.status = "active" ∧ m.analysis = MLService.getDefaultAnalysis now ∧ m.text = text) ∧
    (∀ e ∈ (submitMessage s caller text chatroom recipientId messageType
      (MLService.getDefaultAnalysis now) now).events, e.event ≠ "message-flagged") := by
  have hnone := defaultAnalysis_no_directive now
  obtain ⟨hf, he, hm⟩ := submit_no_directive s caller text chatroom recipientId messageType
    (MLService.getDefaultAnalysis now) now hnone
  have hresp : (submitMessage s caller text chatroom recipientId messageType
      (MLService.getDefaultAnalysis now) now).response
      = { status := 201, success := true, message := "Message created successfully" } := by
    rcases submitMessage_cases s caller text chatroom recipientId messageType
        (MLService.getDefaultAnalysis now) now with ⟨h1, h2, _⟩ | ⟨h1, h2, _⟩ | ⟨_, _, h⟩
    · exfalso
      rcases hrec with h | ⟨_, r, u, hr, _, _⟩
      · rw [h] at h1; exact absurd h1 (by decide)
      · rw [hr] at h2; cases h2
    · exfalso
      rcases hrec with h | ⟨hp, r, u, hr, hfu, _⟩
      · rw [h] at h1; exact absurd h1 (by decide)
      · unfold recipientOf at h2
        rw [if_pos hp, hr] at h2
        change s.findUser r = none at h2
        rw [hfu] at h2
        cases h2
    · rw [h]
      have hv : (newMessage s.nextId caller text chatroom recipientId messageType
          (recipientOf s messageType recipientId) (MLService.getDefaultAnalysis now) now).valid
          = true := by
        apply newMessage_valid _ _ _ _ _ _ _ _ _ (defaultAnalysis_valid now) hu ht hl hc
        rcases hrec with h | ⟨hp, r, u, hr, hfu, hun⟩
        · exact Or.inl h
        · refine Or.inr ⟨hp, by rw [hr]; rfl, u, ?_, hun⟩
          unfold recipientOf
          rw [if_pos hp, hr]
          exact hfu
      rcases analysisBlock_cases { s with nextId := s.nextId + 1 } caller chatroom
          (newMessage s.nextId caller text chatroom recipientId messageType
            (recipientOf s messageType recipientId) (MLService.getDefaultAnalysis now) now)
          now with ⟨_, hb⟩ | ⟨d, hd, _⟩ | ⟨d, hd, _⟩
      · rw [hb]
        unfold persistMessage
        rw [if_pos hv]
      · have : autoFlagDirective (MLService.getDefaultAnalysis now) = some d := hd
        rw [hnone] at this
        cases this
      · have : autoFlagDirective (MLService.getDefaultAnalysis now) = some d := hd
        rw [hnone] at this
        cases this
  refine ⟨fun _ => rfl, fun _ => rfl, fun _ => rfl, ?_, rfl, hresp, hf, ?_, he⟩
  · intro useMock rng external
    cases useMock <;> rfl
  · obtain ⟨m, h1, h2, h3, h4, _⟩ := hm (by rw [hresp])
    exact ⟨m, h1, h2, h3, h4⟩

/-- Claim C14: analysis failure is absorbed.  In either mode a failed engine or service call
makes `MLService.analyzeText` answer the default analysis (no abuse, type "none", confidence
0, emotion "neutral", intensity 0, no secondary emotions).  A submission analysed that way,
from a named author with a non-empty text of at most 2000 UTF-16 code units (the `maxlength`
of the Message schema) to a named room (public, or private to an existing named recipient),
is answered 201, appends the message with status "active" and the default analysis, stores no
flag and emits no `message-flagged`.  The limit is counted as
`message.save()` counts it: a text of 1001 characters outside the Basic Multilingual Plane
(2002 code units) is answered 500 and no message is stored. -/
theorem C14_analysis_failure_absorbed (s : Store) (caller : User) (text chatroom : String)
    (recipientId : Option Nat) (messageType : String) (now : Nat)
    (hu : caller.username ≠ "") (ht : text ≠ "") (hl : jsLength text ≤ 2000)
    (hc : chatroom ≠ "")
    (hrec : messageType = "public" ∨
      (messageType = "private" ∧
        ∃ r u, recipientId = some r ∧ s.findUser r = some u ∧ u.username ≠ "")) :
    ((∀ external, MLService.analyzeTextWith true none external now
      = MLService.getDefaultAnalysis now) ∧
    (∀ engine, MLService.analyzeTextWith false engine none now
      = MLService.getDefaultAnalysis now) ∧
    (∀ rng, MLService.analyzeText false text rng none now = MLService.getDefaultAnalysis now) ∧
    (∀ useMock rng external, MLService.analyzeText useMock text rng external now
      = MLService.analyzeTextWith useMock (some (MockMLService.analyzeText text rng now))
          external now) ∧
    MLService.getDefaultAnalysis now
      = { abuse_detected := false, abuse_type := "none", confidence_score := 0,
          emotion := "neutral", emotion_intensity := 0, secondary_emotions := [],
          processed_at := now } ∧
    (submitMessage s caller text chatroom recipientId messageType
      (MLService.getDefaultAnalysis now) now).response
      = { status := 201, success := true, message := "Message created successfully" } ∧
    (submitMessage s caller text chatroom recipientId messageType
      (MLService.getDefaultAnalysis now) now).store.flags = s.flags ∧
    (∃ m, (submitMessage s caller text chatroom recipientId messageType
        (MLService.getDefaultAnalysis now) now).store.messages = s.messages ++ [m] ∧
      m.status = "active" ∧ m.analysis = MLService.getDefaultAnalysis now ∧ m.text = text) ∧
    (∀ e ∈ (submitMessage s caller text chatroom recipientId messageType
      (MLService.getDefaultAnalysis now) now).events, e.event ≠ "message-flagged")) ∧
    ((submitMessage (emptyStore [alice] 10) alice emojiText "general" none "public"
        (MLService.getDefaultAnalysis 0) 0).response = serverError ∧
      (submitMessage (emptyStore [alice] 10) alice emojiText "general" none "public"
        (MLService.getDefaultAnalysis 0) 0).store.messages = []) :=
  ⟨analysis_failure_absorbed s caller text chatroom recipientId messageType now hu ht hl hc hrec,
    emojiText_rejected⟩

/-- Witness for C14: alice posts "hello" in the room "general" while the analysis call fails;
the message is stored, active, with the default analysis, and no flag is stored. -/
theorem C14_analysis_failure_absorbed_witness :
    alice.username ≠ "" ∧ "hello" ≠ "" ∧ jsLength "hello" ≤ 2000 ∧ "general" ≠ "" ∧
    (submitMessage (emptyStore [alice] 10) alice "hello" "general" none "public"
      (MLService.getDefaultAnalysis 3) 3).response
      = { status := 201, success := true, message := "Message created successfully" } ∧
    (submitMessage (emptyStore [alice] 10) alice "hello" "general" none "public"
      (MLService.getDefaultAnalysis 3) 3).store.flags = [] :=
  have h := (C14_analysis_failure_absorbed (emptyStore [alice] 10) alice "hello" "general" none
    "public" 3 (by decide) (by decide) (by decide) (by decide) (Or.inl rfl)).1
  ⟨by decide, by decide, by decide, by decide, h.2.2.2.2.2.1, h.2.2.2.2.2.2.1⟩

/-! ## The stamp of a manual flag -/

/-- Claim C15: a successfully created manual flag is stamped with the prior-flag count of its
subject.  After a successful createManualFlag the flags are the flags before the call followed
by one new flag whose `metadata.user_previous_flags` is the number of flags before the call
whose subject is the author of the message (whatever their status, kind or message; the new
flag is not among them); its subject is that author, its moderator is the caller, its kind
is "manual", its `ai_confidence` is 0, and it references the message. -/
theorem C15_manual_flag_stamp (s : Store) (caller : User) (messageId : Nat) (reason : String)
    (description : Option String) (severity : String) (now : Nat)
    (hs : (createManualFlag s caller messageId reason description severity now).response.success
      = true) :
    ∃ m f, s.findMessage messageId = some m ∧
      (createManualFlag s caller messageId reason description severity now).store.flags
        = s.flags ++ [f] ∧
      f.metadata.user_previous_flags
        = some ((s.flags.filter (fun g => g.userId == m.userId)).length) ∧
      f.userId = m.userId ∧ f.moderatorId = some caller._id ∧ f.flagType = "manual" ∧
      f.ai_confidence = 0 ∧ f.messageId = messageId ∧ f.reason = reason ∧
      f.severity = severity ∧ f.status = "pending" := by
  rcases createManualFlag_cases s caller messageId reason description severity now with
    ⟨_, h⟩ | ⟨m, _, _, h⟩ | ⟨m, _, _, _, h⟩ | ⟨m, _, _, _, _, h⟩ | ⟨m, h0, _, _, _, h⟩
  · rw [h] at hs; simp at hs
  · rw [h] at hs; simp [conflict] at hs
  · rw [h] at hs; simp [serverError] at hs
  · rw [h] at hs; simp [serverError] at hs
  · rw [h]
    refine ⟨m, manualFlag s caller m reason description severity now, h0, rfl, ?_, rfl, rfl,
      rfl, rfl, (findMessage_some s messageId m h0).1, rfl, rfl, rfl⟩
    show some (List.countP _ s.flags) = _
    rw [List.countP_eq_length_filter]

/-- Witness for C15: in the store where alice already has a dismissed and a pending flag, bob
flags her first message; the call succeeds and the new flag is stamped with the count 2. -/
theorem C15_manual_flag_stamp_witness :
    (createManualFlag busyStore bob 10 "spam" none "low" 5).response.success = true ∧
    ((createManualFlag busyStore bob 10 "spam" none "low" 5).store.flags).map
      (fun f => f.metadata.user_previous_flags) = [some 0, some 0, some 2] ∧
    ∃ m f, busyStore.findMessage 10 = some m ∧
      (createManualFlag busyStore bob 10 "spam" none "low" 5).store.flags
        = busyStore.flags ++ [f] ∧
      f.metadata.user_previous_flags
        = some ((busyStore.flags.filter (fun g => g.userId == m.userId)).length) ∧
      f.userId = m.userId ∧ f.moderatorId = some bob._id ∧ f.flagType = "manual" ∧
      f.ai_confidence = 0 ∧ f.messageId = 10 ∧ f.reason = "spam" ∧
      f.severity = "low" ∧ f.status = "pending" :=
  ⟨by decide, by decide,
    C15_manual_flag_stamp busyStore bob 10 "spam" none "low" 5 (by decide)⟩

/-! ## Scope of the emissions of the message route -/

/-- The targets of the `new-message` emissions: the rooms of sender and recipient for a private
message, everyone otherwise. -/
theorem newMessageEvents_targets (caller : User) (messageType : String)
    (recipientId : Option Nat) (message : Message) :
    (newMessageEvents caller messageType recipientId message).map (fun e => e.target)
      = if messageType = "private" then
          Target.user caller._id :: recipientId.toList.map Target.user
        else [Target.all] := by
  unfold newMessageEvents
  by_cases hp : messageType = "private"
  · simp only [hp, if_true, List.map_cons, List.map_map]
    congr 1
  · simp only [hp, if_false, List.map_cons, List.map_nil]

theorem filter_newMessageEvents (caller : User) (messageType : String)
    (recipientId : Option Nat) (message : Message) :
    (newMessageEvents caller messageType recipientId message).filter
        (fun e => e.event == "new-message")
      = newMessageEvents caller messageType recipientId message := by
  rw [List.filter_eq_self]
  intro e he
  rw [newMessageEvents_name caller messageType recipientId message e he]
  rfl

/-- Claim C20: event scope of submitMessage.  The call emits only `new-message` and
`message-flagged`.  Every `new-message` emission of a private message targets the personal
room of the sender or of the recipient and never everyone; every `new-message` emission of a
message that is not private targets everyone.  A successful call emits `new-message` exactly
to sender and recipient (private) or exactly once to everyone (otherwise), and a failing call
emits none.  Every `message-flagged` emission targets the moderators room, and one is emitted
exactly when an auto flag was stored for the message. -/
theorem C20_event_scope (s : Store) (caller : User) (text chatroom : String)
    (recipientId : Option Nat) (messageType : String) (analysis : Analysis) (now : Nat) :
    (∀ e ∈ (submitMessage s caller text chatroom recipientId messageType analysis now).events,
      (e.event = "new-message" ∧
        (messageType = "private" →
          e.target = Target.user caller._id ∨
            ∃ r, recipientId = some r ∧ e.target = Target.user r) ∧
        (messageType ≠ "private" → e.target = Target.all)) ∨
      (e.event = "message-flagged" ∧ e.target = Target.moderators)) ∧
    (((submitMessage s caller text chatroom recipientId messageType analysis now).events.filter
        (fun e => e.event == "new-message")).map (fun e => e.target)
      = if (submitMessage s caller text chatroom recipientId messageType analysis
            now).response.success = true then
          (if messageType = "private" then
            Target.user caller._id :: recipientId.toList.map Target.user
          else [Target.all])
        else []) ∧
    ((∃ e ∈ (submitMessage s caller text chatroom recipientId messageType analysis now).events,
        e.event = "message-flagged") ↔
      ∃ f, (submitMessage s caller text chatroom recipientId messageType analysis
          now).store.flags = s.flags ++ [f] ∧ f.flagType = "auto" ∧ f.messageId = s.nextId) := by
  obtain ⟨fl, ms, fe, ne, hfl, hms, hev, hflag, hmsg⟩ :=
    submit_summary s caller text chatroom recipientId messageType analysis now
  have hne : ∀ e ∈ ne, e.event = "new-message" ∧
      (messageType = "private" →
        e.target = Target.user caller._id ∨
          ∃ r, recipientId = some r ∧ e.target = Target.user r) ∧
      (messageType ≠ "private" → e.target = Target.all) := by
    intro e he
    rcases hmsg with ⟨_, m, _, hn, _⟩ | ⟨_, _, hn⟩
    · rw [hn] at he
      refine ⟨newMessageEvents_name _ _ _ _ e he, ?_, ?_⟩
      · intro hp
        have ht := newMessageEvents_targets caller messageType recipientId m
        rw [if_pos hp] at ht
        have hmem : e.target ∈ (newMessageEvents caller messageType recipientId m).map
            (fun e => e.target) := List.mem_map_of_mem _ he
        rw [ht] at hmem
        rcases List.mem_cons.1 hmem with h | h
        · exact Or.inl h
        · rw [List.mem_map] at h
          obtain ⟨r, hr, hre⟩ := h
          exact Or.inr ⟨r, by simpa using hr, hre.symm⟩
      · intro hp
        have ht := newMessageEvents_targets caller messageType recipientId m
        rw [if_neg hp] at ht
        have hmem : e.target ∈ (newMessageEvents caller messageType recipientId m).map
            (fun e => e.target) := List.mem_map_of_mem _ he
        rw [ht, List.mem_singleton] at hmem
        exact hmem
    · rw [hn] at he; cases he
  have hfe : ∀ e ∈ fe, e.event = "message-flagged" ∧ e.target = Target.moderators := by
    intro e he
    rcases hflag with ⟨_, h, _⟩ | ⟨d, _, _, _, h, _⟩
    · rw [h] at he; cases he
    · rw [h, List.mem_singleton] at he
      rw [he]
      exact ⟨rfl, rfl⟩
  refine ⟨?_, ?_, ?_⟩
  · intro e he
    rw [hev] at he
    rcases List.mem_append.1 he with h | h
    · exact Or.inr (hfe e h)
    · exact Or.inl (hne e h)
  · rw [hev, List.filter_append]
    have hfe0 : fe.filter (fun e => e.event == "new-message") = [] := by
      rw [List.filter_eq_nil_iff]
      intro e he
      rw [(hfe e he).1]
      decide
    rw [hfe0, List.nil_append]
    rcases hmsg with ⟨hok, m, _, hn, _⟩ | ⟨hfail, _, hn⟩
    · rw [hok, if_pos rfl, hn, filter_newMessageEvents, newMessageEvents_targets]
    · rw [hfail, hn]
      rfl
  · constructor
    · rintro ⟨e, he, hname⟩
      rw [hev] at he
      rcases List.mem_append.1 he with h | h
      · rcases hflag with ⟨_, hnil, _⟩ | ⟨d, _, _, hfl', _, _⟩
        · rw [hnil] at h; cases h
        · rw [hfl'] at hfl
          exact ⟨_, hfl, rfl, rfl⟩
      · rw [(hne e h).1] at hname
        exact absurd hname (by decide)
    · rintro ⟨f, hf, _⟩
      rw [hfl] at hf
      have hfl' := List.append_cancel_left hf
      rcases hflag with ⟨hnil, _⟩ | ⟨d, _, _, _, hfe', _⟩
      · rw [hnil] at hfl'; cases hfl'
      · have hmem : flaggedEvent caller
            { newMessage s.nextId caller text chatroom recipientId messageType
                (recipientOf s messageType recipientId) analysis now with status := "flagged" }
            (autoFlag (s.nextId + 1) s.nextId caller chatroom d now) ∈
            (submitMessage s caller text chatroom recipientId messageType analysis
              now).events := by
          rw [hev, hfe']
          exact List.mem_append_left _ (List.mem_singleton.2 rfl)
        exact ⟨_, hmem, rfl⟩

/-! ## The emotion loop as scores followed by a maximum -/

/-- The category loop of `detectEmotion` computes the score table in table order and keeps
its running maximum. -/
theorem emotionFold_eq (content : String) (rng : Rng) :
    ∀ (l : List (String × List String)) (st : EmotionScan),
      l.foldl (emotionStep content rng) st =
        { highestIntensity := (bestScore (st.highestIntensity, st.primaryEmotion)
            (emotionScoresFrom content rng st.next l)).1,
          primaryEmotion := (bestScore (st.highestIntensity, st.primaryEmotion)
            (emotionScoresFrom content rng st.next l)).2,
          emotionScores := st.emotionScores ++ emotionScoresFrom content rng st.next l,
          next := st.next + l.length } := by
  intro l
  induction l with
  | nil =>
    intro st
    simp [emotionScoresFrom, bestScore]
  | cons e rest ih =>
    intro st
    rw [List.foldl_cons, ih]
    unfold emotionStep
    by_cases hgt : min 1 ((countMatches content e.2 : ℚ) / (e.2.length : ℚ)
        + rng st.next * (2 / 10)) > st.highestIntensity
    · simp only [hgt, if_true, emotionScoresFrom, emotionIntensity, bestScore, List.foldl_cons,
        List.append_assoc, List.singleton_append, List.length_cons]
      congr 1
      omega
    · simp only [hgt, if_false, emotionScoresFrom, emotionIntensity, bestScore, List.foldl_cons,
        List.append_assoc, List.singleton_append, List.length_cons]
      congr 1
      omega

theorem emotionScan_eq (content : String) (rng : Rng) (n : Nat) :
    emotionScan content rng n =
      { highestIntensity := (bestScore (0, "neutral")
          (emotionScoresFrom content rng n emotionKeywords)).1,
        primaryEmotion := (bestScore (0, "neutral")
          (emotionScoresFrom content rng n emotionKeywords)).2,
        emotionScores := emotionScoresFrom content rng n emotionKeywords,
        next := n + 6 } := by
  unfold emotionScan
  rw [emotionFold_eq]
  rfl

/-- The second loop pushes nothing when no category other than the primary one scores above
0.2, and then reads no draw. -/
theorem secondaryLoop_nil (rng : Rng) (primaryEmotion : String) :
    ∀ (scores : List (String × ℚ)) (n : Nat),
      (∀ e ∈ scores, e.1 ≠ primaryEmotion → e.2 ≤ 2 / 10) →
      secondaryLoop rng primaryEmotion scores n = ([], n) := by
  intro scores
  induction scores with
  | nil => intro n _; rfl
  | cons e rest ih =>
    intro n h
    obtain ⟨emotion, intensity⟩ := e
    unfold secondaryLoop
    have hc : ¬ (emotion ≠ primaryEmotion ∧ intensity > 2 / 10) := by
      rintro ⟨h1, h2⟩
      have := h (emotion, intensity) (List.mem_cons_self _ _) h1
      exact absurd h2 (not_lt.2 this)
    rw [if_neg hc]
    exact ih n (fun x hx => h x (List.mem_cons_of_mem _ hx))

/-! ## Scenario B -/

theorem scenarioB_lower : toLowerCase scenarioB = scenarioB := by decide

/-- The score table of the Scenario B text: one third plus jitter for joy, jitter alone for
the other five categories. -/
theorem scenarioB_scores (rng : Rng) (hr : Rng.unit rng) (n : Nat) :
    emotionScoresFrom scenarioB rng n emotionKeywords =
      [("anger", rng n * (2 / 10)), ("joy", 1 / 3 + rng (n + 1) * (2 / 10)),
       ("sadness", rng (n + 2) * (2 / 10)), ("fear", rng (n + 3) * (2 / 10)),
       ("surprise", rng (n + 4) * (2 / 10)), ("neutral", rng (n + 5) * (2 / 10))] := by
  have h1 : countMatches scenarioB
      ["angry", "mad", "furious", "rage", "irritated", "pissed"] = 0 := by decide
  have h2 : countMatches scenarioB
      ["happy", "excited", "love", "great", "awesome", "amazing"] = 2 := by decide
  have h3 : countMatches scenarioB
      ["sad", "depressed", "upset", "crying", "miserable", "lonely"] = 0 := by decide
  have h4 : countMatches scenarioB
      ["scared", "afraid", "terrified", "worried", "anxious", "panic"] = 0 := by decide
  have h5 : countMatches scenarioB
      ["wow", "amazing", "incredible", "shocking", "unexpected"] = 0 := by decide
  have h6 : countMatches scenarioB
      ["okay", "fine", "normal", "regular", "standard"] = 0 := by decide
  have hz : ∀ pos, min (1 : ℚ) (rng pos * (2 / 10)) = rng pos * (2 / 10) := by
    intro pos
    have := (hr pos).2
    exact min_eq_right (by linarith)
  have hj : ∀ pos, min (1 : ℚ) (1 / 3 + rng pos * (2 / 10)) = 1 / 3 + rng pos * (2 / 10) := by
    intro pos
    have := (hr pos).2
    exact min_eq_right (by linarith)
  simp only [emotionScoresFrom, emotionKeywords, emotionIntensity, h1, h2, h3, h4, h5, h6,
    List.length_cons, List.length_nil]
  norm_num [add_assoc]
  have b0 := (hr n).2
  have b1 := (hr (n + 1)).2
  have b2 := (hr (n + 2)).2
  have b3 := (hr (n + 3)).2
  have b4 := (hr (n + 4)).2
  have b5 := (hr (n + 5)).2
  refine ⟨?_, ?_, ?_, ?_, ?_, ?_⟩ <;> linarith

/-- The maximum of the Scenario B table is the joy score. -/
theorem scenarioB_best (rng : Rng) (hr : Rng.unit rng) (n : Nat) :
    bestScore (0, "neutral") (emotionScoresFrom scenarioB rng n emotionKeywords)
      = (1 / 3 + rng (n + 1) * (2 / 10), "joy") := by
  rw [scenarioB_scores rng hr n]
  have a0 := (hr n).1
  have a1 := (hr n).2
  have j0 := (hr (n + 1)).1
  have s1 := (hr (n + 2)).2
  have f1 := (hr (n + 3)).2
  have p1 := (hr (n + 4)).2
  have u1 := (hr (n + 5)).2
  have hjoy0 : (1 / 3 + rng (n + 1) * (2 / 10) > (0 : ℚ)) := by linarith
  have hjoya : (1 / 3 + rng (n + 1) * (2 / 10) > rng n * (2 / 10)) := by linarith
  have hs : ¬ (rng (n + 2) * (2 / 10) > 1 / 3 + rng (n + 1) * (2 / 10)) := by
    intro h; linarith
  have hf : ¬ (rng (n + 3) * (2 / 10) > 1 / 3 + rng (n + 1) * (2 / 10)) := by
    intro h; linarith
  have hp : ¬ (rng (n + 4) * (2 / 10) > 1 / 3 + rng (n + 1) * (2 / 10)) := by
    intro h; linarith
  have hu : ¬ (rng (n + 5) * (2 / 10) > 1 / 3 + rng (n + 1) * (2 / 10)) := by
    intro h; linarith
  unfold bestScore
  simp only [List.foldl_cons, List.foldl_nil]
  by_cases h0 : rng n * (2 / 10) > 0
  · simp only [h0, if_true, hjoya, hs, hf, hp, hu, if_false]
  · simp only [h0, if_false, hjoy0, if_true, hs, hf, hp, hu]

/-- The emotion verdict on the Scenario B text, from any position of the draws. -/
theorem scenarioB_emotion (rng : Rng) (hr : Rng.unit rng) (n : Nat) :
    (MockMLService.detectEmotion scenarioB rng n).1.primary_emotion.emotion = "joy" ∧
    (MockMLService.detectEmotion scenarioB rng n).1.primary_emotion.intensity
      = 1 / 3 + rng (n + 1) * (2 / 10) ∧
    (MockMLService.detectEmotion scenarioB rng n).1.secondary_emotions = [] ∧
    (MockMLService.detectEmotion scenarioB rng n).1.all_emotions
      = [("anger", rng n * (2 / 10)), ("joy", 1 / 3 + rng (n + 1) * (2 / 10)),
         ("sadness", rng (n + 2) * (2 / 10)), ("fear", rng (n + 3) * (2 / 10)),
         ("surprise", rng (n + 4) * (2 / 10)), ("neutral", rng (n + 5) * (2 / 10))] := by
  have j0 := (hr (n + 1)).1
  have hscan : emotionDefault rng (emotionScan scenarioB rng n) =
      { highestIntensity := 1 / 3 + rng (n + 1) * (2 / 10), primaryEmotion := "joy",
        emotionScores := [("anger", rng n * (2 / 10)), ("joy", 1 / 3 + rng (n + 1) * (2 / 10)),
          ("sadness", rng (n + 2) * (2 / 10)), ("fear", rng (n + 3) * (2 / 10)),
          ("surprise", rng (n + 4) * (2 / 10)), ("neutral", rng (n + 5) * (2 / 10))],
        next := n + 6 } := by
    rw [emotionScan_eq, scenarioB_best rng hr n, scenarioB_scores rng hr n]
    unfold emotionDefault
    rw [if_neg]
    intro h
    dsimp only at h
    linarith
  have hsec : secondaryLoop rng "joy"
      [("anger", rng n * (2 / 10)), ("joy", 1 / 3 + rng (n + 1) * (2 / 10)),
        ("sadness", rng (n + 2) * (2 / 10)), ("fear", rng (n + 3) * (2 / 10)),
        ("surprise", rng (n + 4) * (2 / 10)), ("neutral", rng (n + 5) * (2 / 10))] (n + 6)
      = ([], n + 6) := by
    apply secondaryLoop_nil
    intro e he hne
    have a1 := (hr n).2
    have s1 := (hr (n + 2)).2
    have f1 := (hr (n + 3)).2
    have p1 := (hr (n + 4)).2
    have u1 := (hr (n + 5)).2
    simp only [List.mem_cons, List.mem_singleton, List.not_mem_nil, or_false] at he
    rcases he with h | h | h | h | h | h <;> subst h
    · show rng n * (2 / 10) ≤ 2 / 10
      linarith
    · exact absurd rfl hne
    · show rng (n + 2) * (2 / 10) ≤ 2 / 10
      linarith
    · show rng (n + 3) * (2 / 10) ≤ 2 / 10
      linarith
    · show rng (n + 4) * (2 / 10) ≤ 2 / 10
      linarith
    · show rng (n + 5) * (2 / 10) ≤ 2 / 10
      linarith
  unfold MockMLService.detectEmotion
  simp only [hscan, hsec]
  exact ⟨trivial, trivial, rfl, trivial⟩

/-- Claim C16: Scenario B, emotion.  For the text "have a great day, feeling happy" and every
outcome of the draws, `detectEmotion` returns the primary emotion "joy", whose score is 2/6
plus jitter, while every other category scores jitter alone, below 0.2 and below the joy
score; the list of secondary emotions is empty.  The same holds for the verdict inside
`MockMLService.analyzeText`, which lower-cases the text first. -/
theorem C16_scenarioB_emotion (rng : Rng) (hr : Rng.unit rng) (n : Nat) :
    (MockMLService.detectEmotion scenarioB rng n).1.primary_emotion.emotion = "joy" ∧
    (MockMLService.detectEmotion scenarioB rng n).1.primary_emotion.intensity
      = 2 / 6 + rng (n + 1) * (2 / 10) ∧
    (∀ e ∈ (MockMLService.detectEmotion scenarioB rng n).1.all_emotions, e.1 ≠ "joy" →
      e.2 < 2 / 10 ∧
      e.2 < (MockMLService.detectEmotion scenarioB rng n).1.primary_emotion.intensity) ∧
    (MockMLService.detectEmotion scenarioB rng n).1.secondary_emotions = [] ∧
    (∀ now, (MockMLService.analyzeText scenarioB rng now).emotion_analysis.primary_emotion.emotion
        = "joy" ∧
      (MockMLService.analyzeText scenarioB rng now).emotion_analysis.secondary_emotions = []) := by
  obtain ⟨h1, h2, h3, h4⟩ := scenarioB_emotion rng hr n
  refine ⟨h1, by rw [h2]; norm_num, ?_, h3, ?_⟩
  · intro e he hne
    rw [h4] at he
    rw [h2]
    have a1 := (hr n).2
    have j0 := (hr (n + 1)).1
    have s1 := (hr (n + 2)).2
    have f1 := (hr (n + 3)).2
    have p1 := (hr (n + 4)).2
    have u1 := (hr (n + 5)).2
    simp only [List.mem_cons, List.mem_singleton, List.not_mem_nil, or_false] at he
    rcases he with h | h | h | h | h | h <;> subst h
    · constructor <;> dsimp only <;> linarith
    · exact absurd rfl hne
    · constructor <;> dsimp only <;> linarith
    · constructor <;> dsimp only <;> linarith
    · constructor <;> dsimp only <;> linarith
    · constructor <;> dsimp only <;> linarith
  · intro now
    unfold MockMLService.analyzeText
    dsimp only
    rw [scenarioB_lower]
    obtain ⟨k1, _, k3, _⟩ := scenarioB_emotion rng hr
      (MockMLService.detectAbuse scenarioB rng 0).2
    exact ⟨k1, k3⟩

/-- Witness for C16: with every draw equal to one half the primary emotion of the Scenario B
text is "joy" and there is no secondary emotion. -/
theorem C16_scenarioB_emotion_witness :
    Rng.unit (fun _ => 1 / 2) ∧
    (MockMLService.detectEmotion scenarioB (fun _ => 1 / 2) 0).1.primary_emotion.emotion = "joy" ∧
    (MockMLService.detectEmotion scenarioB (fun _ => 1 / 2) 0).1.secondary_emotions = [] :=
  ⟨halves_unit, (C16_scenarioB_emotion (fun _ => 1 / 2) halves_unit 0).1,
    (C16_scenarioB_emotion (fun _ => 1 / 2) halves_unit 0).2.2.2.1⟩

theorem scenarioB_scan :
    abuseScan scenarioB =
      { highestConfidence := 0, detectedType := none,
        categories := [("harassment", 0), ("hate_speech", 0), ("threats", 0), ("bullying", 0),
          ("spam", 0), ("sexual_content", 0)] } := by
  have h1 : countMatches scenarioB
      ["idiot", "stupid", "loser", "worthless", "useless"] = 0 := by decide
  have h2 : countMatches scenarioB
      ["hate", "racist", "bigot", "nazi", "supremacist"] = 0 := by decide
  have h3 : countMatches scenarioB
      ["kill", "hurt", "destroy", "attack", "violence"] = 0 := by decide
  have h4 : countMatches scenarioB
      ["weak", "pathetic", "nobody", "freak", "reject"] = 0 := by decide
  have h5 : countMatches scenarioB
      ["buy now", "click here", "free money", "winner", "lottery"] = 0 := by decide
  have h6 : countMatches scenarioB
      ["xxx", "adult", "explicit", "sexual", "inappropriate"] = 0 := by decide
  simp only [abuseScan, abuseKeywords, List.foldl, abuseStep, h1, h2, h3, h4, h5, h6]
  norm_num

/-- The abuse verdict of the engine on the Scenario B text: no keyword matches, so the
verdict is the injected false positive when the first draw is below 0.05, and nothing
otherwise. -/
theorem scenarioB_abuse (rng : Rng) :
    (rng 0 < 5 / 100 →
      (MockMLService.detectAbuse scenarioB rng 0).1.confidence = 2 / 10 + rng 2 * (3 / 10) ∧
      (MockMLService.detectAbuse scenarioB rng 0).1.is_abusive = decide (rng 2 > 1 / 3)) ∧
    (¬ rng 0 < 5 / 100 →
      (MockMLService.detectAbuse scenarioB rng 0).1.confidence = 0 ∧
      (MockMLService.detectAbuse scenarioB rng 0).1.is_abusive = false ∧
      (MockMLService.detectAbuse scenarioB rng 0).1.abuse_type = none) := by
  have hgt : ¬ ((0 : ℚ) > 1 / 10) := by norm_num
  have hiff : (2 / 10 + rng 2 * (3 / 10) > 3 / 10) = (rng 2 > 1 / 3) := by
    apply propext
    constructor <;> intro h <;> linarith
  have h0 : ¬ ((0 : ℚ) > 3 / 10) := by norm_num
  constructor
  · intro hfp
    simp only [MockMLService.detectAbuse, scenarioB_scan, hgt, if_false, hfp, if_true, hiff]
    exact ⟨trivial, trivial⟩
  · intro hfp
    simp only [MockMLService.detectAbuse, scenarioB_scan, hgt, if_false, hfp, h0]
    exact ⟨trivial, by simp, trivial⟩

/-- What the adapter reports about abuse in the Scenario B text, for every outcome of the
draws. -/
theorem scenarioB_outcome (rng : Rng) (hr : Rng.unit rng) (now : Nat) :
    ((scenarioBAnalysis rng now).abuse_detected = true ↔ (rng 0 < 5 / 100 ∧ rng 2 > 1 / 3)) ∧
    ((scenarioBAnalysis rng now).abuse_detected = false →
      (scenarioBAnalysis rng now).abuse_type = "none") ∧
    ((scenarioBAnalysis rng now).abuse_detected = true →
      (scenarioBAnalysis rng now).abuse_type ∈ abuseNames) ∧
    (¬ rng 0 < 5 / 100 → (scenarioBAnalysis rng now).confidence_score = 0) ∧
    (scenarioBAnalysis rng now).confidence_score < 1 / 2 := by
  obtain ⟨hfp, hno⟩ := scenarioB_abuse rng
  have hty : ∀ t, (MockMLService.detectAbuse scenarioB rng 0).1.abuse_type = some t →
      t ∈ abuseNames := (detectAbuse_range scenarioB rng hr 0).2.2
  have hdet : (scenarioBAnalysis rng now).abuse_detected
      = (MockMLService.detectAbuse scenarioB rng 0).1.is_abusive := by
    show (MockMLService.detectAbuse (toLowerCase scenarioB) rng 0).1.is_abusive = _
    rw [scenarioB_lower]
  have htype : (scenarioBAnalysis rng now).abuse_type
      = orNone (MockMLService.detectAbuse scenarioB rng 0).1.abuse_type := by
    show orNone (MockMLService.detectAbuse (toLowerCase scenarioB) rng 0).1.abuse_type = _
    rw [scenarioB_lower]
  have hconf : (scenarioBAnalysis rng now).confidence_score
      = (MockMLService.detectAbuse scenarioB rng 0).1.confidence := by
    show (MockMLService.detectAbuse (toLowerCase scenarioB) rng 0).1.confidence = _
    rw [scenarioB_lower]
  have habs : (MockMLService.detectAbuse scenarioB rng 0).1.abuse_type
      = if (MockMLService.detectAbuse scenarioB rng 0).1.confidence > 3 / 10 then
          (MockMLService.detectAbuse scenarioB rng 0).1.abuse_type else none := by
    unfold MockMLService.detectAbuse
    dsimp only
    split_ifs <;> rfl
  have hisab : (MockMLService.detectAbuse scenarioB rng 0).1.is_abusive
      = decide ((MockMLService.detectAbuse scenarioB rng 0).1.confidence > 3 / 10) := rfl
  refine ⟨?_, ?_, ?_, ?_, ?_⟩
  · rw [hdet]
    by_cases h : rng 0 < 5 / 100
    · rw [(hfp h).2]
      simp [h]
    · rw [(hno h).2.1]
      simp [h]
  · intro hfalse
    rw [hdet, hisab] at hfalse
    rw [htype, habs, if_neg (by simpa using hfalse)]
    rfl
  · intro htrue
    rw [hdet, hisab] at htrue
    rw [htype]
    cases hopt : (MockMLService.detectAbuse scenarioB rng 0).1.abuse_type with
    | none =>
      exfalso
      by_cases h : rng 0 < 5 / 100
      · have hidx : floorIndex (rng 1 * ((abuseKeywords.map Prod.fst).length : ℚ)) < 6 := by
          have r0 := (hr 1).1
          have r1 := (hr 1).2
          unfold floorIndex
          have hlen : ((abuseKeywords.map Prod.fst).length : ℚ) = 6 := by
            simp [abuseKeywords]
          rw [hlen]
          have hfl : Rat.floor (rng 1 * 6) < 6 := by
            by_contra hcon
            have h6 : (6 : ℤ) ≤ Rat.floor (rng 1 * 6) := not_lt.1 hcon
            have h7 := Rat.le_floor.1 h6
            push_cast at h7
            linarith
          omega
        have hsome : (MockMLService.detectAbuse scenarioB rng 0).1.abuse_type
            = (abuseKeywords.map Prod.fst)[floorIndex
                (rng 1 * ((abuseKeywords.map Prod.fst).length : ℚ))]? := by
          have hc : (2 / 10 + rng 2 * (3 / 10) > (3 : ℚ) / 10) := by
            have := (hfp h).1
            rw [this] at htrue
            simpa using htrue
          have hgt : ¬ ((0 : ℚ) > 1 / 10) := by norm_num
          simp only [MockMLService.detectAbuse, scenarioB_scan, hgt, if_false, h, if_true, hc]
        rw [hsome] at hopt
        have hlt : floorIndex (rng 1 * ((abuseKeywords.map Prod.fst).length : ℚ))
            < (abuseKeywords.map Prod.fst).length := by
          simpa [abuseKeywords] using hidx
        rw [List.getElem?_eq_getElem hlt] at hopt
        cases hopt
      · rw [(hno h).1] at htrue
        norm_num at htrue
    | some t =>
      have hmem := hty t hopt
      have hne : t ≠ "" := by
        intro h
        rw [h] at hmem
        exact absurd hmem (by decide)
      show (if t = "" then "none" else t) ∈ abuseNames
      rw [if_neg hne]
      exact hmem
  · intro h
    rw [hconf]
    exact (hno h).1
  · rw [hconf]
    by_cases h : rng 0 < 5 / 100
    · rw [(hfp h).1]
      have := (hr 2).2
      linarith
    · rw [(hno h).1]
      norm_num

theorem falsePositiveDraws_unit : Rng.unit falsePositiveDraws := by
  intro n
  unfold falsePositiveDraws
  split_ifs <;> constructor <;> norm_num

/-- Claim C17, as amended: Scenario B, abuse.  No abuse keyword occurs in the text
"have a great day, feeling happy", so for every outcome of the draws the analysis of the
built-in engine has `abuse_detected` false and `abuse_type` "none", except when the engine
injects its false positive: `abuse_detected` is true exactly when the first draw is below 0.05
and the third draw is above 1/3, and then `abuse_type` is one of the six categories.  When the
first draw is at least 0.05 the confidence is 0, and in every case it is below 0.5. -/
theorem C17_scenarioB_abuse (rng : Rng) (hr : Rng.unit rng) (now : Nat) :
    ((scenarioBAnalysis rng now).abuse_detected = true ↔ (rng 0 < 5 / 100 ∧ rng 2 > 1 / 3)) ∧
    ((scenarioBAnalysis rng now).abuse_detected = false →
      (scenarioBAnalysis rng now).abuse_type = "none") ∧
    ((scenarioBAnalysis rng now).abuse_detected = true →
      (scenarioBAnalysis rng now).abuse_type ∈ abuseNames) ∧
    (¬ rng 0 < 5 / 100 → (scenarioBAnalysis rng now).confidence_score = 0) ∧
    (scenarioBAnalysis rng now).confidence_score < 1 / 2 :=
  scenarioB_outcome rng hr now

/-- Witness for C17: with every draw equal to one half no false positive is injected and the
Scenario B text is analysed with confidence 0. -/
theorem C17_scenarioB_abuse_witness :
    Rng.unit (fun _ => 1 / 2) ∧ (scenarioBAnalysis (fun _ => 1 / 2) 0).confidence_score = 0 :=
  ⟨halves_unit, (C17_scenarioB_abuse (fun _ => 1 / 2) halves_unit 0).2.2.2.1 (by norm_num)⟩

/-- Counterexample to C17 as stated: with the first draw 0 and the third draw one half (draws
in the unit interval) the engine injects a false positive, and the analysis of the Scenario B
text has `abuse_detected` true and an `abuse_type` other than "none". -/
theorem C17_scenarioB_abuse_counterexample :
    Rng.unit falsePositiveDraws ∧
    (scenarioBAnalysis falsePositiveDraws 0).abuse_detected = true ∧
    (scenarioBAnalysis falsePositiveDraws 0).abuse_type ≠ "none" ∧
    (scenarioBAnalysis falsePositiveDraws 0).confidence_score = 7 / 20 := by
  obtain ⟨h1, _, h3, _, _⟩ := scenarioB_outcome falsePositiveDraws falsePositiveDraws_unit 0
  have hd : (scenarioBAnalysis falsePositiveDraws 0).abuse_detected = true := by
    apply h1.2
    constructor <;> norm_num [falsePositiveDraws]
  refine ⟨falsePositiveDraws_unit, hd, ?_, ?_⟩
  · intro hnone
    have := h3 hd
    rw [hnone] at this
    exact absurd this (by decide)
  · have hc : (scenarioBAnalysis falsePositiveDraws 0).confidence_score
        = (MockMLService.detectAbuse scenarioB falsePositiveDraws 0).1.confidence := by
      show (MockMLService.detectAbuse (toLowerCase scenarioB) falsePositiveDraws 0).1.confidence
        = _
      rw [scenarioB_lower]
    rw [hc, ((scenarioB_abuse falsePositiveDraws).1 (by norm_num [falsePositiveDraws])).1]
    norm_num [falsePositiveDraws]

/-! ## The presence tracker -/

/-- The new value is in the map after `set`. -/
theorem mapSet_mem (m : List PresenceEntry) (e : PresenceEntry) : e ∈ mapSet m e := by
  unfold mapSet
  by_cases h : m.any (fun x => x.id == e.id) = true
  · rw [if_pos h]
    obtain ⟨x, hx, hxe⟩ := List.any_eq_true.1 h
    exact List.mem_map.2 ⟨x, hx, by rw [if_pos hxe]⟩
  · rw [if_neg h]
    simp

/-- After `set` every entry under the key is the new value. -/
theorem mapSet_same (m : List PresenceEntry) (e x : PresenceEntry) (hx : x ∈ mapSet m e)
    (hid : x.id = e.id) : x = e := by
  unfold mapSet at hx
  by_cases h : m.any (fun x => x.id == e.id) = true
  · rw [if_pos h] at hx
    obtain ⟨y, _, hyx⟩ := List.mem_map.1 hx
    by_cases hy : (y.id == e.id) = true
    · rw [if_pos hy] at hyx
      exact hyx.symm
    · rw [if_neg hy] at hyx
      subst hyx
      exact absurd (by simpa using hid) hy
  · rw [if_neg h] at hx
    rcases List.mem_append.1 hx with hm | he
    · exact absurd (List.any_eq_true.2 ⟨x, hm, by simpa using hid⟩) h
    · simpa using he

/-- The call `set` leaves the entries under every other key as they were, in their order. -/
theorem mapSet_others (m : List PresenceEntry) (e : PresenceEntry) :
    (mapSet m e).filter (fun x => x.id != e.id) = m.filter (fun x => x.id != e.id) := by
  unfold mapSet
  by_cases h : m.any (fun x => x.id == e.id) = true
  · rw [if_pos h]
    clear h
    induction m with
    | nil => rfl
    | cons y ys ih =>
      rw [List.map_cons, List.filter_cons, List.filter_cons, ih]
      by_cases hy : y.id = e.id
      · simp [hy]
      · simp [hy]
  · rw [if_neg h]
    simp [List.filter_append, List.filter_cons]

/-- The call `set` keeps the keys of the map distinct. -/
theorem mapSet_keys (m : List PresenceEntry) (e : PresenceEntry)
    (h : (m.map PresenceEntry.id).Nodup) : ((mapSet m e).map PresenceEntry.id).Nodup := by
  unfold mapSet
  by_cases ha : m.any (fun x => x.id == e.id) = true
  · rw [if_pos ha]
    have : (m.map (fun x => if x.id == e.id then e else x)).map PresenceEntry.id
        = m.map PresenceEntry.id := by
      rw [List.map_map]
      apply List.map_congr_left
      intro x _
      by_cases hx : x.id = e.id
      · simp [hx]
      · simp [hx]
    rw [this]
    exact h
  · rw [if_neg ha]
    rw [List.map_append, List.nodup_append]
    refine ⟨h, by simp, ?_⟩
    intro k hk hk2
    have hke : k = e.id := by simpa using hk2
    subst hke
    obtain ⟨x, hx, hxe⟩ := List.mem_map.1 hk
    exact ha (List.any_eq_true.2 ⟨x, hx, by simpa using hxe⟩)

/-- After `set` on a map, the key has exactly one entry. -/
theorem mapSet_count (m : List PresenceEntry) (e : PresenceEntry)
    (h : (m.map PresenceEntry.id).Nodup) :
    (mapSet m e).countP (fun x => x.id == e.id) = 1 := by
  have hn := mapSet_keys m e h
  have hm : e.id ∈ (mapSet m e).map PresenceEntry.id := List.mem_map.2 ⟨e, mapSet_mem m e, rfl⟩
  have hc := List.count_eq_one_of_mem hn hm
  rw [List.count, List.countP_map] at hc
  rw [← hc]
  rfl

/-- After `delete` the key has no entry. -/
theorem mapDelete_absent (m : List PresenceEntry) (key : String) :
    ∀ x ∈ mapDelete m key, x.id ≠ key := by
  intro x hx
  have := (List.mem_filter.1 hx).2
  simpa using this

/-- The call `delete` leaves the entries under every other key as they were. -/
theorem mapDelete_others (m : List PresenceEntry) (key : String) :
    (mapDelete m key).filter (fun x => x.id != key) = m.filter (fun x => x.id != key) := by
  unfold mapDelete
  rw [List.filter_filter]
  simp

/-- The call `delete` on a key without an entry changes nothing. -/
theorem mapDelete_of_absent (m : List PresenceEntry) (key : String)
    (h : ∀ x ∈ m, x.id ≠ key) : mapDelete m key = m := by
  unfold mapDelete
  apply List.filter_eq_self.2
  intro x hx
  simpa using h x hx

/-- The call `delete` keeps the keys of the map distinct. -/
theorem mapDelete_keys (m : List PresenceEntry) (key : String)
    (h : (m.map PresenceEntry.id).Nodup) : ((mapDelete m key).map PresenceEntry.id).Nodup :=
  List.Nodup.sublist (List.Sublist.map _ (List.filter_sublist _)) h

/-- Every handler keeps the keys of `onlineUsers` distinct. -/
theorem handle_keys (st : Realtime) (ev : SocketEvent)
    (h : (st.onlineUsers.map PresenceEntry.id).Nodup) :
    ((st.handle ev).1.onlineUsers.map PresenceEntry.id).Nodup := by
  cases ev with
  | connection => exact h
  | authenticate sid u now =>
    simp only [Realtime.handle, onAuthenticate]
    cases st.findSocket sid with
    | none => exact h
    | some k =>
      by_cases hu : u ≠ ""
      · simp only [if_pos hu]
        exact mapSet_keys _ _ h
      · simp only [if_neg hu]
        exact h
  | joinModerator sid =>
    simp only [Realtime.handle, onJoinModerator]
    cases st.findSocket sid <;> exact h
  | analyzeMessage sid data =>
    simp only [Realtime.handle, onAnalyzeMessage]
    cases st.findSocket sid with
    | none => exact h
    | some k =>
      cases data with
      | none => exact h
      | some d => exact h
  | typingStart sid c u t r =>
    simp only [Realtime.handle, onTyping]
    cases st.findSocket sid with
    | none => exact h
    | some k =>
      by_cases hc : t = "private" ∧ r ≠ ""
      · simp only [if_pos hc]
        exact h
      · simp only [if_neg hc]
        exact h
  | typingStop sid c u t r =>
    simp only [Realtime.handle, onTyping]
    cases st.findSocket sid with
    | none => exact h
    | some k =>
      by_cases hc : t = "private" ∧ r ≠ ""
      · simp only [if_pos hc]
        exact h
      · simp only [if_neg hc]
        exact h
  | disconnect sid =>
    simp only [Realtime.handle, onDisconnect]
    cases st.findSocket sid with
    | none => exact h
    | some k =>
      by_cases hc : truthy k.userId = true
      · simp only [if_pos hc]
        exact mapDelete_keys _ _ h
      · simp only [if_neg hc]
        exact h

/-- Every run keeps the keys of `onlineUsers` distinct. -/
theorem run_keys (events : List SocketEvent) :
    ∀ st : Realtime, (st.onlineUsers.map PresenceEntry.id).Nodup →
      ((Realtime.run st events).onlineUsers.map PresenceEntry.id).Nodup := by
  induction events with
  | nil => intro st h; exact h
  | cons ev evs ih =>
    intro st h
    exact ih _ (handle_keys st ev h)

/-- In every state reached from service start, `onlineUsers` has one entry per key at most. -/
theorem reached_keys (events : List SocketEvent) :
    ((reached events).onlineUsers.map PresenceEntry.id).Nodup :=
  run_keys events Realtime.initial (by simp [Realtime.initial])

/-- The handler of `authenticate` on a connected socket with a non-empty identity. -/
theorem authenticate_connected (st : Realtime) (socket : Nat) (k : Socket) (X : String)
    (now : Nat) (hs : st.findSocket socket = some k) (hX : X ≠ "") :
    onAuthenticate st socket X now =
      ({ st with
          sockets := updateFirst (fun k => k.id == socket)
            (fun k => { k with userId := some X, rooms := joinRoom k.rooms X }) st.sockets,
          onlineUsers := mapSet st.onlineUsers { id := X, socketId := socket, joinedAt := now } },
        [{ scope := Scope.everyone, event := "users-online",
           payload := SocketPayload.usersOnline
             (mapSet st.onlineUsers { id := X, socketId := socket, joinedAt := now }) },
         { scope := Scope.others socket, event := "user-joined",
           payload := SocketPayload.userJoined X }]) := by
  simp only [onAuthenticate, hs, if_pos hX]

/-- After `authenticate` with a non-empty identity the socket carries that identity. -/
theorem authenticate_findSocket (st : Realtime) (socket : Nat) (k : Socket) (X : String)
    (now : Nat) (hs : st.findSocket socket = some k) (hX : X ≠ "") :
    (onAuthenticate st socket X now).1.findSocket socket
      = some { k with userId := some X, rooms := joinRoom k.rooms X } := by
  rw [authenticate_connected st socket k X now hs hX]
  have h := find_updateFirst_key Socket.id
    (fun k => { k with userId := some X, rooms := joinRoom k.rooms X }) (fun _ => rfl)
    st.sockets socket socket
  rw [if_pos rfl] at h
  simp only [Realtime.findSocket] at hs ⊢
  rw [h, hs]
  rfl

/-- The handler of `disconnect` on a connected socket that carries a non-empty identity. -/
theorem disconnect_identified (st : Realtime) (socket : Nat) (k : Socket) (X : String)
    (hs : st.findSocket socket = some k) (hk : k.userId = some X) (hX : X ≠ "") :
    onDisconnect st socket =
      ({ st with onlineUsers := mapDelete st.onlineUsers X,
                 sockets := st.sockets.filter (fun x => x.id != socket) },
        [{ scope := Scope.everyone, event := "users-online",
           payload := SocketPayload.usersOnline (mapDelete st.onlineUsers X) },
         { scope := Scope.others socket, event := "user-left",
           payload := SocketPayload.userLeft X }]) := by
  have ht : truthy (some X) = true := by simpa [truthy] using hX
  simp only [onDisconnect, hs, hk, if_pos ht, Option.getD_some]

/-- Join and leave on a state whose map has distinct keys. -/
theorem presence_join_leave (st : Realtime) (socket : Nat) (k : Socket) (X : String)
    (now : Nat) (hkeys : (st.onlineUsers.map PresenceEntry.id).Nodup)
    (hs : st.findSocket socket = some k) (hX : X ≠ "") :
    ((onAuthenticate st socket X now).1.onlineUsers.countP (fun e => e.id == X) = 1 ∧
      (∀ e ∈ (onAuthenticate st socket X now).1.onlineUsers, e.id = X →
        e = { id := X, socketId := socket, joinedAt := now }) ∧
      (onAuthenticate st socket X now).1.onlineUsers.filter (fun e => e.id != X)
        = st.onlineUsers.filter (fun e => e.id != X) ∧
      (onAuthenticate st socket X now).2 =
        [{ scope := Scope.everyone, event := "users-online",
           payload := SocketPayload.usersOnline (onAuthenticate st socket X now).1.onlineUsers },
         { scope := Scope.others socket, event := "user-joined",
           payload := SocketPayload.userJoined X }]) ∧
    ((∀ e ∈ (onDisconnect (onAuthenticate st socket X now).1 socket).1.onlineUsers, e.id ≠ X) ∧
      (onDisconnect (onAuthenticate st socket X now).1 socket).1.onlineUsers.filter
          (fun e => e.id != X)
        = st.onlineUsers.filter (fun e => e.id != X) ∧
      (onDisconnect (onAuthenticate st socket X now).1 socket).2 =
        [{ scope := Scope.everyone, event := "users-online",
           payload := SocketPayload.usersOnline
             (onDisconnect (onAuthenticate st socket X now).1 socket).1.onlineUsers },
         { scope := Scope.others socket, event := "user-left",
           payload := SocketPayload.userLeft X }]) ∧
    (k.userId = some X →
      (∀ e ∈ (onDisconnect st socket).1.onlineUsers, e.id ≠ X) ∧
      (onDisconnect st socket).2 =
        [{ scope := Scope.everyone, event := "users-online",
           payload := SocketPayload.usersOnline (onDisconnect st socket).1.onlineUsers },
         { scope := Scope.others socket, event := "user-left",
           payload := SocketPayload.userLeft X }] ∧
      ((∀ e ∈ st.onlineUsers, e.id ≠ X) →
        (onDisconnect st socket).1.onlineUsers = st.onlineUsers)) ∧
    onAuthenticate st socket "" now = (st, []) := by
  have hfind := authenticate_findSocket st socket k X now hs hX
  have hd := disconnect_identified (onAuthenticate st socket X now).1 socket _ X hfind rfl hX
  have ha := authenticate_connected st socket k X now hs hX
  refine ⟨⟨?_, ?_, ?_, ?_⟩, ⟨?_, ?_, ?_⟩, ?_, ?_⟩
  · rw [ha]
    exact mapSet_count st.onlineUsers { id := X, socketId := socket, joinedAt := now } hkeys
  · rw [ha]
    intro e he hid
    exact mapSet_same st.onlineUsers { id := X, socketId := socket, joinedAt := now } e he hid
  · rw [ha]
    exact mapSet_others st.onlineUsers { id := X, socketId := socket, joinedAt := now }
  · rw [ha]
  · rw [hd]
    exact mapDelete_absent _ X
  · rw [hd]
    show (mapDelete _ X).filter _ = _
    rw [mapDelete_others, ha]
    exact mapSet_others st.onlineUsers { id := X, socketId := socket, joinedAt := now }
  · rw [hd]
  · intro hk
    have hd0 := disconnect_identified st socket k X hs hk hX
    rw [hd0]
    exact ⟨mapDelete_absent _ X, rfl, fun h => mapDelete_of_absent _ X h⟩
  · simp only [onAuthenticate, hs]
    rfl

/-- Claim C18: in a state reached from service start by any sequence of events, let socket
`socket` be connected and `X` a non-empty identity.  After `authenticate` with `X` on that
socket the snapshot of `onlineUsers` holds exactly one entry for `X`, that entry has
`socketId = socket`, the entries of all other identities are as before, and the handler emits
`users-online` with the new snapshot to everyone and `user-joined` to the other sockets.
After the disconnect of that socket (it then carries the identity `X`) the snapshot holds no
entry for `X`, the other entries are still as before, and the handler emits `users-online`
with the new snapshot and `user-left`.  The disconnect of any connected socket that carries
`X` leaves no entry for `X` and emits the same two events, and when `X` had no entry the
snapshot is unchanged.  An `authenticate` with the empty identity changes nothing and emits
nothing. -/
theorem C18_presence_join_leave (events : List SocketEvent) (socket : Nat) (k : Socket)
    (X : String) (now : Nat)
    (hs : (reached events).findSocket socket = some k) (hX : X ≠ "") :
    ((onAuthenticate (reached events) socket X now).1.onlineUsers.countP
          (fun e => e.id == X) = 1 ∧
      (∀ e ∈ (onAuthenticate (reached events) socket X now).1.onlineUsers, e.id = X →
        e = { id := X, socketId := socket, joinedAt := now }) ∧
      (onAuthenticate (reached events) socket X now).1.onlineUsers.filter (fun e => e.id != X)
        = (reached events).onlineUsers.filter (fun e => e.id != X) ∧
      (onAuthenticate (reached events) socket X now).2 =
        [{ scope := Scope.everyone, event := "users-online",
           payload := SocketPayload.usersOnline
             (onAuthenticate (reached events) socket X now).1.onlineUsers },
         { scope := Scope.others socket, event := "user-joined",
           payload := SocketPayload.userJoined X }]) ∧
    ((∀ e ∈ (onDisconnect (onAuthenticate (reached events) socket X now).1 socket).1.onlineUsers,
        e.id ≠ X) ∧
      (onDisconnect (onAuthenticate (reached events) socket X now).1 socket).1.onlineUsers.filter
          (fun e => e.id != X)
        = (reached events).onlineUsers.filter (fun e => e.id != X) ∧
      (onDisconnect (onAuthenticate (reached events) socket X now).1 socket).2 =
        [{ scope := Scope.everyone, event := "users-online",
           payload := SocketPayload.usersOnline
             (onDisconnect (onAuthenticate (reached events) socket X now).1 socket).1.onlineUsers },
         { scope := Scope.others socket, event := "user-left",
           payload := SocketPayload.userLeft X }]) ∧
    (k.userId = some X →
      (∀ e ∈ (onDisconnect (reached events) socket).1.onlineUsers, e.id ≠ X) ∧
      (onDisconnect (reached events) socket).2 =
        [{ scope := Scope.everyone, event := "users-online",
           payload := SocketPayload.usersOnline
             (onDisconnect (reached events) socket).1.onlineUsers },
         { scope := Scope.others socket, event := "user-left",
           payload := SocketPayload.userLeft X }] ∧
      ((∀ e ∈ (reached events).onlineUsers, e.id ≠ X) →
        (onDisconnect (reached events) socket).1.onlineUsers = (reached events).onlineUsers)) ∧
    onAuthenticate (reached events) socket "" now = (reached events, []) :=
  presence_join_leave (reached events) socket k X now (reached_keys events) hs hX

/-- Witness for C18: sockets 0 and 1 are online as "X" and "Z"; the fresh socket 2
authenticates as "X" at time 3: the entry of "X" now names socket 2, the entry of "Z" is as
before, and after the disconnect of socket 2 only "Z" is online. -/
theorem C18_presence_join_leave_witness :
    (reached presenceRun).findSocket 2 = some { id := 2, userId := none, rooms := [] } ∧
    (reached presenceRun).onlineUsers
      = [{ id := "X", socketId := 0, joinedAt := 1 }, { id := "Z", socketId := 1, joinedAt := 2 }] ∧
    (onAuthenticate (reached presenceRun) 2 "X" 3).1.onlineUsers
      = [{ id := "X", socketId := 2, joinedAt := 3 }, { id := "Z", socketId := 1, joinedAt := 2 }] ∧
    (onDisconnect (onAuthenticate (reached presenceRun) 2 "X" 3).1 2).1.onlineUsers
      = [{ id := "Z", socketId := 1, joinedAt := 2 }] ∧
    (onAuthenticate (reached presenceRun) 2 "X" 3).1.onlineUsers.countP
      (fun e => e.id == "X") = 1 ∧
    onAuthenticate (reached presenceRun) 2 "" 3 = (reached presenceRun, []) :=
  ⟨by decide, by decide, by decide, by decide,
    (C18_presence_join_leave presenceRun 2 { id := 2, userId := none, rooms := [] }
      "X" 3 (by decide) (by decide)).1.1,
    (C18_presence_join_leave presenceRun 2 { id := 2, userId := none, rooms := [] }
      "X" 3 (by decide) (by decide)).2.2.2⟩

/-- Claim C19 (failing run): one socket connects, authenticates as "X", authenticates again as
"Y" and disconnects.  The handler of `disconnect` deletes the key `socket.userId`, which is
"Y" by then, so the entry that the socket created for "X" is still in `onlineUsers` although
no socket is connected any more. -/
theorem C19_entry_outlives_socket :
    (reached staleRun).sockets = [] ∧
    (reached staleRun).onlineUsers = [{ id := "X", socketId := 0, joinedAt := 1 }] ∧
    ¬ (∀ e ∈ (reached staleRun).onlineUsers,
        ∃ k ∈ (reached staleRun).sockets, k.id = e.socketId) := by
  decide

/-! ## Delivery of `new-message` -/

/-- The `new-message` emissions of the route name a personal room twice exactly when the
message is private and addressed to its sender. -/
theorem newMessageEvents_nodup (caller : User) (messageType : String)
    (recipientId : Option Nat) (message : Message) :
    ((newMessageEvents caller messageType recipientId message).map (fun e => e.target)).Nodup
      ↔ ¬ (messageType = "private" ∧ recipientId = some caller._id) := by
  rw [newMessageEvents_targets]
  by_cases hp : messageType = "private"
  · rw [if_pos hp]
    cases recipientId with
    | none => simp
    | some r =>
      simp only [Option.toList, List.map_cons, List.map_nil, List.nodup_cons,
        List.mem_singleton, List.not_mem_nil, not_false_eq_true, List.nodup_nil, and_true,
        Target.user.injEq, Option.some.injEq, hp, true_and]
      constructor
      · intro h hr
        exact h hr.symm
      · intro h hr
        exact h hr.symm
  · rw [if_neg hp]
    simp [hp]

/-- Claim C21 (failing input): alice sends a private message to herself.  The call succeeds
and the route emits `new-message` to the room of the sender and then to the room of the
recipient, which is the same room: the list of emissions targets the personal room of alice
twice. -/
theorem C21_self_message_delivered_twice :
    selfNote.response.success = true ∧
    newMessageTargets selfNote = [Target.user 1, Target.user 1] ∧
    ¬ (newMessageTargets selfNote).Nodup := by
  decide

/-! ## Routing of the typing indicators -/

/-- Claim C22, as amended: let the socket be connected.  A `typing-start` or `typing-stop`
event whose `messageType` is "private" and whose `recipientId` is not empty yields exactly one
emission of `user-typing` (or `user-stopped-typing`), to the room of the recipient and not to
the sender; every other event (another `messageType`, or "private" with an empty
`recipientId`) yields exactly one emission to all other connections; and the state of the
real-time layer, the presence map included, is left as it was. -/
theorem C22_typing_routing (st : Realtime) (socket : Nat) (k : Socket)
    (chatroom username messageType recipientId : String)
    (hs : st.findSocket socket = some k) :
    (st.handle (SocketEvent.typingStart socket chatroom username messageType recipientId)).1
      = st ∧
    (st.handle (SocketEvent.typingStop socket chatroom username messageType recipientId)).1
      = st ∧
    (messageType = "private" → recipientId ≠ "" →
      (st.handle (SocketEvent.typingStart socket chatroom username messageType recipientId)).2
        = [{ scope := Scope.roomOthers recipientId socket, event := "user-typing",
             payload := SocketPayload.typing username chatroom }] ∧
      (st.handle (SocketEvent.typingStop socket chatroom username messageType recipientId)).2
        = [{ scope := Scope.roomOthers recipientId socket, event := "user-stopped-typing",
             payload := SocketPayload.typing username chatroom }]) ∧
    (messageType ≠ "private" ∨ recipientId = "" →
      (st.handle (SocketEvent.typingStart socket chatroom username messageType recipientId)).2
        = [{ scope := Scope.others socket, event := "user-typing",
             payload := SocketPayload.typing username chatroom }] ∧
      (st.handle (SocketEvent.typingStop socket chatroom username messageType recipientId)).2
        = [{ scope := Scope.others socket, event := "user-stopped-typing",
             payload := SocketPayload.typing username chatroom }]) := by
  simp only [Realtime.handle, onTyping, hs]
  refine ⟨?_, ?_, ?_, ?_⟩
  · split_ifs <;> rfl
  · split_ifs <;> rfl
  · intro hp hr
    rw [if_pos ⟨hp, hr⟩, if_pos ⟨hp, hr⟩]
    exact ⟨rfl, rfl⟩
  · intro h
    have hn : ¬ (messageType = "private" ∧ recipientId ≠ "") := by
      rintro ⟨hp, hr⟩
      rcases h with h | h
      · exact h hp
      · exact hr h
    rw [if_neg hn, if_neg hn]
    exact ⟨rfl, rfl⟩

/-- Witness for C22: with "X" and "Z" online, socket 0 types in a private room with
recipient "Z"; the indicator goes to the room "Z" alone and nothing changes. -/
theorem C22_typing_routing_witness :
    (reached presenceRun).findSocket 0 = some { id := 0, userId := some "X", rooms := ["X"] } ∧
    ((reached presenceRun).handle (SocketEvent.typingStart 0 "dm" "X" "private" "Z")).1
      = reached presenceRun ∧
    ((reached presenceRun).handle (SocketEvent.typingStart 0 "dm" "X" "private" "Z")).2
      = [{ scope := Scope.roomOthers "Z" 0, event := "user-typing",
           payload := SocketPayload.typing "X" "dm" }] :=
  ⟨by decide,
    (C22_typing_routing (reached presenceRun) 0 { id := 0, userId := some "X", rooms := ["X"] }
      "dm" "X" "private" "Z" (by decide)).1,
    ((C22_typing_routing (reached presenceRun) 0 { id := 0, userId := some "X", rooms := ["X"] }
      "dm" "X" "private" "Z" (by decide)).2.2.1 rfl (by decide)).1⟩

/-- Counterexample to C22 as stated: socket 0 is connected and sends `typing-start` with
`messageType` "private" and no `recipientId`; the indicator is broadcast to all other
connections. -/
theorem C22_typing_routing_counterexample :
    (reached presenceRun).findSocket 0 = some { id := 0, userId := some "X", rooms := ["X"] } ∧
    ((reached presenceRun).handle (SocketEvent.typingStart 0 "dm" "X" "private" "")).2
      = [{ scope := Scope.others 0, event := "user-typing",
           payload := SocketPayload.typing "X" "dm" }] := by
  decide

/-! ## Candidate selection of the abuse loop -/

/-- The test `content.includes(keyword)` on character lists is the infix relation. -/
theorem includesChars_iff (keyword : List Char) :
    ∀ content : List Char, includesChars content keyword = true ↔ keyword <:+: content := by
  intro content
  induction content with
  | nil =>
    cases keyword with
    | nil => simp [includesChars]
    | cons k ks => simp [includesChars]
  | cons c cs ih =>
    rw [includesChars, Bool.or_eq_true, ih, List.infix_cons_iff, List.isPrefixOf_iff_prefix]

/-- The counter `matches` is the number of keywords of the list that occur in the content. -/
theorem countMatches_fold (content : String) :
    ∀ (keywords : List String) (k : Nat),
      keywords.foldl (fun hits keyword => if includes content keyword then hits + 1 else hits) k
        = k + (keywords.filter (fun keyword => includes content keyword)).length := by
  intro keywords
  induction keywords with
  | nil => intro k; simp
  | cons w rest ih =>
    intro k
    rw [List.foldl_cons, ih]
    by_cases hw : includes content w = true
    · simp [hw, List.filter_cons]
      omega
    · simp [hw, List.filter_cons]

theorem countMatches_eq (content : String) (keywords : List String) :
    countMatches content keywords
      = (keywords.filter (fun keyword => includes content keyword)).length := by
  unfold countMatches
  rw [countMatches_fold]
  omega

/-- The loop of `detectAbuse` from any state: the table gains the ratios in order, and the
running maximum either stays (no ratio exceeds it) or ends at the first category whose ratio
is the greatest. -/
theorem abuseFold_spec (content : String) :
    ∀ (l : List (String × List String)) (st : AbuseScan),
      (l.foldl (abuseStep content) st).categories
        = st.categories ++ l.map (fun e => (e.1, keywordRatio content e.2)) ∧
      (((l.foldl (abuseStep content) st).highestConfidence = st.highestConfidence ∧
          (l.foldl (abuseStep content) st).detectedType = st.detectedType ∧
          ∀ x ∈ l, keywordRatio content x.2 ≤ st.highestConfidence) ∨
        ∃ pre e post, l = pre ++ e :: post ∧
          (l.foldl (abuseStep content) st).highestConfidence = keywordRatio content e.2 ∧
          (l.foldl (abuseStep content) st).detectedType = some e.1 ∧
          st.highestConfidence < keywordRatio content e.2 ∧
          (∀ x ∈ pre, keywordRatio content x.2 < keywordRatio content e.2) ∧
          ∀ x ∈ post, keywordRatio content x.2 ≤ keywordRatio content e.2) := by
  intro l
  induction l with
  | nil =>
    intro st
    exact ⟨by simp, Or.inl ⟨rfl, rfl, fun x hx => by cases hx⟩⟩
  | cons e rest ih =>
    intro st
    rw [List.foldl_cons]
    obtain ⟨hcat, hmax⟩ := ih (abuseStep content st e)
    have hstep_cat : (abuseStep content st e).categories
        = st.categories ++ [(e.1, keywordRatio content e.2)] := by
      unfold abuseStep keywordRatio
      dsimp only
      split_ifs <;> rfl
    refine ⟨by rw [hcat, hstep_cat]; simp, ?_⟩
    by_cases hgt : keywordRatio content e.2 > st.highestConfidence
    · have hs1 : (abuseStep content st e).highestConfidence = keywordRatio content e.2 := by
        unfold abuseStep keywordRatio at *
        dsimp only
        rw [if_pos hgt]
      have hs2 : (abuseStep content st e).detectedType = some e.1 := by
        unfold abuseStep keywordRatio at *
        dsimp only
        rw [if_pos hgt]
      right
      rcases hmax with ⟨h1, h2, h3⟩ | ⟨pre, e2, post, hl, h1, h2, h3, h4, h5⟩
      · refine ⟨[], e, rest, rfl, by rw [h1, hs1], by rw [h2, hs2], hgt, ?_, ?_⟩
        · intro x hx; cases hx
        · intro x hx
          have := h3 x hx
          rwa [hs1] at this
      · rw [hs1] at h3
        refine ⟨e :: pre, e2, post, by rw [hl]; rfl, h1, h2, lt_trans hgt h3, ?_, h5⟩
        intro x hx
        rcases List.mem_cons.1 hx with hx | hx
        · subst hx; exact h3
        · exact h4 x hx
    · have hs1 : (abuseStep content st e).highestConfidence = st.highestConfidence := by
        unfold abuseStep keywordRatio at *
        dsimp only
        rw [if_neg hgt]
      have hs2 : (abuseStep content st e).detectedType = st.detectedType := by
        unfold abuseStep keywordRatio at *
        dsimp only
        rw [if_neg hgt]
      have hle : keywordRatio content e.2 ≤ st.highestConfidence := not_lt.1 hgt
      rcases hmax with ⟨h1, h2, h3⟩ | ⟨pre, e2, post, hl, h1, h2, h3, h4, h5⟩
      · left
        refine ⟨by rw [h1, hs1], by rw [h2, hs2], ?_⟩
        intro x hx
        rcases List.mem_cons.1 hx with hx | hx
        · subst hx; exact hle
        · have := h3 x hx
          rwa [hs1] at this
      · right
        rw [hs1] at h3
        refine ⟨e :: pre, e2, post, by rw [hl]; rfl, h1, h2, h3, ?_, h5⟩
        intro x hx
        rcases List.mem_cons.1 hx with hx | hx
        · subst hx; exact lt_of_le_of_lt hle h3
        · exact h4 x hx

/-- The loop of `detectAbuse`: the table holds the six ratios, and either every ratio is 0
and there is no candidate, or the candidate is the first category with the greatest ratio,
which is positive. -/
theorem abuseScan_spec (content : String) :
    (abuseScan content).categories = abuseRatios content ∧
    (((abuseScan content).highestConfidence = 0 ∧ (abuseScan content).detectedType = none ∧
        ∀ x ∈ abuseRatios content, x.2 = 0) ∨
      ∃ pre t post, abuseRatios content = pre ++ (t, (abuseScan content).highestConfidence) :: post ∧
        (abuseScan content).detectedType = some t ∧
        0 < (abuseScan content).highestConfidence ∧
        (∀ x ∈ pre, x.2 < (abuseScan content).highestConfidence) ∧
        ∀ x ∈ post, x.2 ≤ (abuseScan content).highestConfidence) := by
  obtain ⟨hcat, hmax⟩ := abuseFold_spec content abuseKeywords
    { highestConfidence := 0, detectedType := none, categories := [] }
  refine ⟨by simpa [abuseScan, abuseRatios] using hcat, ?_⟩
  rcases hmax with ⟨h1, h2, h3⟩ | ⟨pre, e, post, hl, h1, h2, h3, h4, h5⟩
  · left
    refine ⟨h1, h2, ?_⟩
    intro x hx
    obtain ⟨e, he, rfl⟩ := List.mem_map.1 hx
    have hle := h3 e he
    have hge : 0 ≤ keywordRatio content e.2 := ratio_nonneg content e.2
    exact le_antisymm hle hge
  · right
    refine ⟨pre.map (fun e => (e.1, keywordRatio content e.2)), e.1,
      post.map (fun e => (e.1, keywordRatio content e.2)), ?_, h2, ?_, ?_, ?_⟩
    · show abuseRatios content = _ ++ (e.1, (abuseScan content).highestConfidence) :: _
      have : (abuseScan content).highestConfidence = keywordRatio content e.2 := h1
      rw [this, abuseRatios, hl]
      simp
    · have : (abuseScan content).highestConfidence = keywordRatio content e.2 := h1
      rw [this]; exact h3
    · intro x hx
      obtain ⟨y, hy, rfl⟩ := List.mem_map.1 hx
      have : (abuseScan content).highestConfidence = keywordRatio content e.2 := h1
      rw [this]; exact h4 y hy
    · intro x hx
      obtain ⟨y, hy, rfl⟩ := List.mem_map.1 hx
      have : (abuseScan content).highestConfidence = keywordRatio content e.2 := h1
      rw [this]; exact h5 y hy

theorem ofNat_toNat_small (m : Nat) (h : m < 55296) : (Char.ofNat m).toNat = m := by
  unfold Char.ofNat
  have hv : m.isValidChar := Or.inl h
  rw [dif_pos hv]
  simp only [Char.ofNatAux, Char.toNat]
  show (BitVec.ofNatLt m _).toNat = m
  rfl

theorem toLower_idem (c : Char) : c.toLower.toLower = c.toLower := by
  unfold Char.toLower
  by_cases h : c.toNat ≥ 65 ∧ c.toNat ≤ 90
  · simp only [h, and_self, if_true]
    rw [if_neg]
    rw [ofNat_toNat_small _ (by omega)]; omega
  · simp only [h, if_false]

theorem lowerTable_stable : lowerRanges.all rangeStable = true := by decide!

theorem ofNat_toNat_valid (m : Nat) (h : m < 55296 ∨ (57344 ≤ m ∧ m < 1114112)) :
    (Char.ofNat m).toNat = m := by
  unfold Char.ofNat
  have hv : m.isValidChar := by
    rcases h with h | h
    · exact Or.inl h
    · exact Or.inr ⟨by omega, h.2⟩
  rw [dif_pos hv]
  simp only [Char.ofNatAux, Char.toNat]
  show (BitVec.ofNatLt m _).toNat = m
  rfl

theorem inLowerRange_iff (n : Nat) (r : Nat × Nat × Nat × Nat) :
    inLowerRange n r = true ↔ r.1 ≤ n ∧ n ≤ r.2.1 ∧ (n - r.1) % r.2.2.1 = 0 := by
  simp [inLowerRange, and_assoc]

/-- The image of a source of the table is the code point of a character, is neither U+0130
nor U+03A3, and is not a source of the table. -/
theorem lowerImage_stable (n : Nat) (r : Nat × Nat × Nat × Nat) (hr : r ∈ lowerRanges)
    (hn : inLowerRange n r = true) :
    (r.2.2.2 + (n - r.1) < 55296 ∨
      (57344 ≤ r.2.2.2 + (n - r.1) ∧ r.2.2.2 + (n - r.1) < 1114112)) ∧
    r.2.2.2 + (n - r.1) ≠ 304 ∧ r.2.2.2 + (n - r.1) ≠ 931 ∧
    ∀ q ∈ lowerRanges, inLowerRange (r.2.2.2 + (n - r.1)) q = false := by
  obtain ⟨h1, h2, h3⟩ := (inLowerRange_iff n r).1 hn
  have hst := List.all_eq_true.1 lowerTable_stable r hr
  simp only [rangeStable, Bool.and_eq_true, Bool.or_eq_true, decide_eq_true_eq] at hst
  obtain ⟨⟨⟨hv, h304⟩, h931⟩, hav⟩ := hst
  refine ⟨?_, ?_, ?_, ?_⟩
  · rcases hv with hv | hv
    · left; omega
    · right; omega
  · rcases h304 with h | h <;> omega
  · rcases h931 with h | h <;> omega
  · intro q hq
    have hq1 := List.all_eq_true.1 hav q hq
    simp only [rangeAvoids, Bool.or_eq_true, decide_eq_true_eq] at hq1
    cases hin : inLowerRange (r.2.2.2 + (n - r.1)) q with
    | false => rfl
    | true =>
      exfalso
      obtain ⟨g1, g2, _⟩ := (inLowerRange_iff _ q).1 hin
      rcases hq1 with (hq1 | hq1) | hq1
      · omega
      · omega
      · have hmem : n - r.1 ∈ List.range (r.2.1 - r.1 + 1) := List.mem_range.2 (by omega)
        have := List.all_eq_true.1 hq1 (n - r.1) hmem
        simp only [Bool.or_eq_true, bne_iff_ne, ne_eq, Bool.not_eq_true', hin] at this
        rcases this with h | h
        · exact h h3
        · cases h

theorem lowerCode_of_avoid (m : Nat) (h : ∀ q ∈ lowerRanges, inLowerRange m q = false) :
    lowerCode m = m := by
  unfold lowerCode
  have : lowerRanges.find? (inLowerRange m) = none := by
    rw [List.find?_eq_none]
    intro q hq
    rw [h q hq]
    simp
  rw [this]

theorem toLower_toNat_lt (c : Char) (h : c.toNat < 128) : c.toLower.toNat < 128 := by
  unfold Char.toLower
  by_cases hc : c.toNat ≥ 65 ∧ c.toNat ≤ 90
  · simp only [hc, and_self, if_true]
    rw [ofNat_toNat_small _ (by omega)]
    omega
  · simp only [hc, if_false]
    exact h

theorem asciiRange_mem : ((65, 90, 1, 97) : Nat × Nat × Nat × Nat) ∈ lowerRanges := by
  unfold lowerRanges
  exact List.mem_cons_self _ _

/-- The lowercase mapping of a character is left as it is by lower-casing. -/
theorem lowerChar_lowered (c : Char) (h1 : c.toNat ≠ 931) (h2 : c.toNat ≠ 304) :
    Lowered (lowerChar c) := by
  by_cases hlt : c.toNat < 128
  · have hl : lowerChar c = c.toLower := by
      unfold lowerChar
      rw [if_pos hlt]
    have hlt2 := toLower_toNat_lt c hlt
    rw [hl]
    refine ⟨by omega, by omega, ?_⟩
    unfold lowerChar
    rw [if_pos hlt2]
    exact toLower_idem c
  · have hl : lowerChar c = Char.ofNat (lowerCode c.toNat) := by
      unfold lowerChar
      rw [if_neg hlt]
    rw [hl]
    unfold lowerCode
    cases hfind : lowerRanges.find? (inLowerRange c.toNat) with
    | none =>
      simp only
      have hc : Char.ofNat c.toNat = c := Char.ofNat_toNat c
      rw [hc]
      refine ⟨h1, h2, ?_⟩
      unfold lowerChar lowerCode
      rw [if_neg hlt, hfind]
      exact hc
    | some r =>
      simp only
      have hr : r ∈ lowerRanges := List.mem_of_find?_eq_some hfind
      have hn : inLowerRange c.toNat r = true := List.find?_some hfind
      obtain ⟨hv, h304, h931, hav⟩ := lowerImage_stable c.toNat r hr hn
      have hto := ofNat_toNat_valid _ hv
      refine ⟨by rw [hto]; exact h931, by rw [hto]; exact h304, ?_⟩
      unfold lowerChar
      rw [hto]
      by_cases hm : r.2.2.2 + (c.toNat - r.1) < 128
      · rw [if_pos hm]
        have hnot := hav _ asciiRange_mem
        have hnr : ¬ (65 ≤ r.2.2.2 + (c.toNat - r.1) ∧ r.2.2.2 + (c.toNat - r.1) ≤ 90) := by
          intro hh
          have : inLowerRange (r.2.2.2 + (c.toNat - r.1)) (65, 90, 1, 97) = true := by
            rw [inLowerRange_iff]
            exact ⟨hh.1, hh.2, Nat.mod_one _⟩
          rw [hnot] at this
          cases this
        unfold Char.toLower
        rw [hto]
        rw [if_neg]
        intro hh
        exact hnr ⟨hh.1, hh.2⟩
      · rw [if_neg hm, lowerCode_of_avoid _ hav]

set_option maxRecDepth 100000 in
theorem specials_lowered :
    Lowered (Char.ofNat 962) ∧ Lowered (Char.ofNat 963) ∧ Lowered (Char.ofNat 105) ∧
    Lowered (Char.ofNat 775) := by
  unfold Lowered
  decide!

/-- Lower-casing leaves a list of lowered characters as it is. -/
theorem lowerFrom_of_lowered :
    ∀ (l before : List Char), (∀ c ∈ l, Lowered c) → lowerFrom before l = l := by
  intro l
  induction l with
  | nil => intro before _; rfl
  | cons c rest ih =>
    intro before h
    obtain ⟨h1, h2, h3⟩ := h c (List.mem_cons_self _ _)
    unfold lowerFrom
    rw [if_neg h1, if_neg h2, h3, ih (c :: before) (fun x hx => h x (List.mem_cons_of_mem _ hx))]
    rfl

/-- Every character produced by lower-casing is lowered. -/
theorem lowerFrom_lowered :
    ∀ (l before : List Char), ∀ d ∈ lowerFrom before l, Lowered d := by
  intro l
  induction l with
  | nil => intro before d hd; cases hd
  | cons c rest ih =>
    intro before d hd
    unfold lowerFrom at hd
    rcases List.mem_append.1 hd with hd | hd
    · by_cases h1 : c.toNat = 931
      · rw [if_pos h1] at hd
        rw [List.mem_singleton] at hd
        subst hd
        split_ifs
        · exact specials_lowered.1
        · exact specials_lowered.2.1
      · rw [if_neg h1] at hd
        by_cases h2 : c.toNat = 304
        · rw [if_pos h2] at hd
          simp only [List.mem_cons, List.mem_singleton, List.not_mem_nil, or_false] at hd
          rcases hd with hd | hd
          · subst hd; exact specials_lowered.2.2.1
          · subst hd; exact specials_lowered.2.2.2
        · rw [if_neg h2, List.mem_singleton] at hd
          subst hd
          exact lowerChar_lowered c h1 h2
    · exact ih (c :: before) d hd

/-- Lower-casing a lower-cased text changes nothing. -/
theorem toLowerCase_idem (text : String) : toLowerCase (toLowerCase text) = toLowerCase text := by
  unfold toLowerCase
  congr 1
  exact lowerFrom_of_lowered _ [] (lowerFrom_lowered text.toList [])

/-- On a text of ASCII characters lower-casing maps the letters A to Z to a to z and keeps
every other character. -/
theorem lowerFrom_ascii :
    ∀ (l before : List Char), (∀ c ∈ l, c.toNat < 128) →
      lowerFrom before l = l.map Char.toLower := by
  intro l
  induction l with
  | nil => intro before _; rfl
  | cons c rest ih =>
    intro before h
    have hc := h c (List.mem_cons_self _ _)
    unfold lowerFrom
    rw [if_neg (by omega), if_neg (by omega),
      ih (c :: before) (fun x hx => h x (List.mem_cons_of_mem _ hx))]
    unfold lowerChar
    rw [if_pos hc]
    rfl

/-- The table of ratios, written out: per category, the number of its keywords that occur in
the content, divided by 5. -/
theorem abuseRatios_eq (content : String) :
    abuseRatios content
      = abuseKeywords.map (fun e =>
          (e.1, ((e.2.filter (fun keyword => includes content keyword)).length : ℚ) / 5)) := by
  simp only [abuseRatios, abuseKeywords, keywordRatio, countMatches_eq, List.map_cons,
    List.map_nil, List.length_cons, List.length_nil]
  norm_num

/-- The two worked threats in lower case: the capitals and the Kelvin sign become the ASCII
letters of the keyword "kill". -/
theorem threats_lower :
    toLowerCase mixedThreat = "i will kill you" ∧ toLowerCase kelvinThreat = "kill you" ∧
    toLowerCase "\u0130" = "i\u0307" := by
  decide

/-- The table of ratios of a lower-cased text in which "kill" is the only keyword. -/
theorem threat_ratios (content : String)
    (h1 : countMatches content ["idiot", "stupid", "loser", "worthless", "useless"] = 0)
    (h2 : countMatches content ["hate", "racist", "bigot", "nazi", "supremacist"] = 0)
    (h3 : countMatches content ["kill", "hurt", "destroy", "attack", "violence"] = 1)
    (h4 : countMatches content ["weak", "pathetic", "nobody", "freak", "reject"] = 0)
    (h5 : countMatches content ["buy now", "click here", "free money", "winner", "lottery"] = 0)
    (h6 : countMatches content ["xxx", "adult", "explicit", "sexual", "inappropriate"] = 0) :
    abuseRatios content
      = [("harassment", 0), ("hate_speech", 0), ("threats", 1 / 5), ("bullying", 0),
         ("spam", 0), ("sexual_content", 0)] := by
  simp only [abuseRatios, abuseKeywords, keywordRatio, List.map_cons, List.map_nil, h1, h2, h3,
    h4, h5, h6]
  norm_num

/-- The engine finds the keyword "kill" in both worked threats. -/
theorem threats_categories (rng : Rng) (now : Nat) :
    (MockMLService.analyzeText mixedThreat rng now).abuse_detection.categories
      = [("harassment", 0), ("hate_speech", 0), ("threats", 1 / 5), ("bullying", 0),
         ("spam", 0), ("sexual_content", 0)] ∧
    (MockMLService.analyzeText kelvinThreat rng now).abuse_detection.categories
      = [("harassment", 0), ("hate_speech", 0), ("threats", 1 / 5), ("bullying", 0),
         ("spam", 0), ("sexual_content", 0)] := by
  constructor
  · show (abuseScan (toLowerCase mixedThreat)).categories = _
    rw [(abuseScan_spec _).1, threats_lower.1]
    exact threat_ratios _ (by decide) (by decide) (by decide) (by decide) (by decide)
      (by decide)
  · show (abuseScan (toLowerCase kelvinThreat)).categories = _
    rw [(abuseScan_spec _).1, threats_lower.2.1]
    exact threat_ratios _ (by decide) (by decide) (by decide) (by decide) (by decide)
      (by decide)

/-- Claim C25: for every text, the table `categories` of the engine lists the six categories
in table order, each with the number of its five keywords that occur as a substring of the
lower-cased text (a keyword counts once) divided by 5; either every ratio is 0 and the loop
has no candidate, or the candidate is the first category in table order whose ratio is the
greatest (earlier categories have a strictly smaller ratio, later ones at most the same), and
that ratio is positive; and with the draws held fixed the analysis of the lower-cased text is
the analysis of the text.  Lower-casing is the Unicode mapping: on a text of ASCII characters
it maps A to Z to a to z and keeps the rest, "I Will KILL You" becomes "i will kill you",
the Kelvin sign of "\u212AILL you" becomes "k" and U+0130 becomes "i" followed by U+0307, so
that the engine scores 1/5 for threats on both worked threats. -/
theorem C25_abuse_candidate (text : String) (rng : Rng) (now : Nat) :
    (MockMLService.analyzeText text rng now).abuse_detection.categories
      = abuseKeywords.map (fun e =>
          (e.1, ((e.2.filter (fun keyword => includes (toLowerCase text) keyword)).length : ℚ)
            / 5)) ∧
    (abuseRatios (toLowerCase text)).map Prod.fst
      = ["harassment", "hate_speech", "threats", "bullying", "spam", "sexual_content"] ∧
    (∀ keyword : String, includes (toLowerCase text) keyword = true
      ↔ keyword.toList <:+: (toLowerCase text).toList) ∧
    (((abuseScan (toLowerCase text)).detectedType = none ∧
        ∀ x ∈ abuseRatios (toLowerCase text), x.2 = 0) ∨
      ∃ pre t post,
        abuseRatios (toLowerCase text)
          = pre ++ (t, (abuseScan (toLowerCase text)).highestConfidence) :: post ∧
        (abuseScan (toLowerCase text)).detectedType = some t ∧
        0 < (abuseScan (toLowerCase text)).highestConfidence ∧
        (∀ x ∈ pre, x.2 < (abuseScan (toLowerCase text)).highestConfidence) ∧
        ∀ x ∈ post, x.2 ≤ (abuseScan (toLowerCase text)).highestConfidence) ∧
    MLService.analyzeText true (toLowerCase text) rng none now
      = MLService.analyzeText true text rng none now ∧
    (MockMLService.analyzeText (toLowerCase text) rng now).abuse_detection
      = (MockMLService.analyzeText text rng now).abuse_detection ∧
    (MockMLService.analyzeText (toLowerCase text) rng now).emotion_analysis
      = (MockMLService.analyzeText text rng now).emotion_analysis ∧
    ((∀ c ∈ text.toList, c.toNat < 128) →
      (toLowerCase text).toList = text.toList.map Char.toLower) ∧
    toLowerCase mixedThreat = "i will kill you" ∧
    toLowerCase kelvinThreat = "kill you" ∧
    toLowerCase "\u0130" = "i\u0307" ∧
    (MockMLService.analyzeText mixedThreat rng now).abuse_detection.categories
      = [("harassment", 0), ("hate_speech", 0), ("threats", 1 / 5), ("bullying", 0),
         ("spam", 0), ("sexual_content", 0)] ∧
    (MockMLService.analyzeText kelvinThreat rng now).abuse_detection.categories
      = [("harassment", 0), ("hate_speech", 0), ("threats", 1 / 5), ("bullying", 0),
         ("spam", 0), ("sexual_content", 0)] := by
  obtain ⟨hcat, hmax⟩ := abuseScan_spec (toLowerCase text)
  refine ⟨?_, ?_, ?_, ?_, ?_, ?_, ?_, ?_, threats_lower.1, threats_lower.2.1,
    threats_lower.2.2, (threats_categories rng now).1, (threats_categories rng now).2⟩
  · show (abuseScan (toLowerCase text)).categories = _
    rw [hcat, abuseRatios_eq]
  · simp [abuseRatios, abuseKeywords]
  · intro keyword
    exact includesChars_iff keyword.toList (toLowerCase text).toList
  · rcases hmax with ⟨_, h2, h3⟩ | h
    · exact Or.inl ⟨h2, h3⟩
    · exact Or.inr h
  · simp only [MLService.analyzeText, if_true, MLService.convert, MockMLService.analyzeText,
      toLowerCase_idem]
  · simp only [MockMLService.analyzeText, toLowerCase_idem]
  · simp only [MockMLService.analyzeText, toLowerCase_idem]
  · intro hascii
    exact lowerFrom_ascii text.toList [] hascii

/-- Witness for C25: the mixed-case threat is a text of ASCII characters, and its lower-cased
form is obtained letter by letter. -/
theorem C25_abuse_candidate_witness :
    (∀ c ∈ mixedThreat.toList, c.toNat < 128) ∧
    (toLowerCase mixedThreat).toList = mixedThreat.toList.map Char.toLower :=
  ⟨by decide, (C25_abuse_candidate mixedThreat (fun _ => 0) 0).2.2.2.2.2.2.2.1 (by decide)⟩

/-! ## Confidence of the abuse verdict -/

/-- A ratio of the table is a number of keywords divided by 5. -/
theorem abuseRatios_fifths (content : String) :
    ∀ x ∈ abuseRatios content, ∃ k : Nat, x.2 = (k : ℚ) / 5 := by
  intro x hx
  rw [abuseRatios_eq] at hx
  obtain ⟨e, _, rfl⟩ := List.mem_map.1 hx
  exact ⟨_, rfl⟩

/-- The names of the table of ratios are the six categories. -/
theorem abuseRatios_names (content : String) :
    ∀ x ∈ abuseRatios content, x.1 ∈ abuseNames := by
  intro x hx
  obtain ⟨e, he, rfl⟩ := List.mem_map.1 hx
  exact List.mem_map_of_mem Prod.fst he

/-- A best ratio that does not exceed 0.1 is 0, without candidate. -/
theorem abuseScan_low (content : String) (h : ¬ (abuseScan content).highestConfidence > 1 / 10) :
    (abuseScan content).highestConfidence = 0 ∧ (abuseScan content).detectedType = none := by
  rcases (abuseScan_spec content).2 with ⟨h1, h2, _⟩ | ⟨pre, t, post, hl, _, hpos, _, _⟩
  · exact ⟨h1, h2⟩
  · exfalso
    have hmem : (t, (abuseScan content).highestConfidence) ∈ abuseRatios content := by
      rw [hl]; simp
    obtain ⟨k, hk⟩ := abuseRatios_fifths content _ hmem
    simp only at hk
    rw [hk] at hpos h
    have hk1 : (1 : ℚ) ≤ (k : ℚ) := by
      have : 0 < k := by
        by_contra hz
        have : k = 0 := by omega
        subst this
        norm_num at hpos
      exact_mod_cast this
    apply h
    linarith

/-- A positive best ratio comes with a candidate among the six categories. -/
theorem abuseScan_high (content : String) (h : (abuseScan content).highestConfidence > 0) :
    ∃ t ∈ abuseNames, (abuseScan content).detectedType = some t := by
  rcases (abuseScan_spec content).2 with ⟨h1, _, _⟩ | ⟨pre, t, post, hl, ht, _, _, _⟩
  · rw [h1] at h
    exact absurd h (lt_irrefl _)
  · refine ⟨t, ?_, ht⟩
    have hmem : (t, (abuseScan content).highestConfidence) ∈ abuseRatios content := by
      rw [hl]; simp
    exact abuseRatios_names content _ hmem

/-- A draw in the unit interval picks one of the six categories. -/
theorem randomCategory (r : ℚ) (_ : 0 ≤ r) (h1 : r < 1) :
    ∃ t ∈ abuseNames, abuseNames[floorIndex (r * 6)]? = some t := by
  have hfl : Rat.floor (r * 6) < 6 := by
    by_contra hcon
    have h6 : (6 : ℤ) ≤ Rat.floor (r * 6) := not_lt.1 hcon
    have h7 := Rat.le_floor.1 h6
    push_cast at h7
    linarith
  have hlt : floorIndex (r * 6) < abuseNames.length := by
    have hlen : abuseNames.length = 6 := by decide
    rw [hlen]
    unfold floorIndex
    omega
  refine ⟨abuseNames[floorIndex (r * 6)], List.getElem_mem hlt, ?_⟩
  exact List.getElem?_eq_getElem hlt

/-- The three branches of `detectAbuse`, as the triple confidence, candidate, next draw. -/
theorem detectAbuse_branches (content : String) (rng : Rng) (n : Nat) :
    ∃ c : ℚ, ∃ cand : Option String,
      (MockMLService.detectAbuse content rng n).1
        = { is_abusive := decide (c > 3 / 10), abuse_type := if c > 3 / 10 then cand else none,
            confidence := c, categories := (abuseScan content).categories } ∧
      (((abuseScan content).highestConfidence > 1 / 10 ∧
          c = min (95 / 100) ((abuseScan content).highestConfidence + rng n * (3 / 10)) ∧
          cand = (abuseScan content).detectedType) ∨
        (¬ (abuseScan content).highestConfidence > 1 / 10 ∧ rng n < 5 / 100 ∧
          c = 2 / 10 + rng (n + 2) * (3 / 10) ∧
          cand = abuseNames[floorIndex (rng (n + 1) * 6)]?) ∨
        (¬ (abuseScan content).highestConfidence > 1 / 10 ∧ ¬ rng n < 5 / 100 ∧
          c = (abuseScan content).highestConfidence ∧
          cand = (abuseScan content).detectedType)) := by
  by_cases hhi : (abuseScan content).highestConfidence > 1 / 10
  · refine ⟨_, _, ?_, Or.inl ⟨hhi, rfl, rfl⟩⟩
    simp only [MockMLService.detectAbuse, hhi, if_true]
  · by_cases hfp : rng n < 5 / 100
    · refine ⟨_, _, ?_, Or.inr (Or.inl ⟨hhi, hfp, rfl, rfl⟩)⟩
      have hlen : ((abuseKeywords.map Prod.fst).length : ℚ) = 6 := by
        simp [abuseKeywords]
      simp only [MockMLService.detectAbuse, hhi, if_false, hfp, if_true, hlen, abuseNames]
    · refine ⟨_, _, ?_, Or.inr (Or.inr ⟨hhi, hfp, rfl, rfl⟩)⟩
      simp only [MockMLService.detectAbuse, hhi, if_false, hfp]

/-- Claim C26: the confidence of `detectAbuse`, for draws in `[0, 1)` read from position `n`.
If the best ratio `b` exceeds 0.1 the confidence is `min(0.95, b + 0.3 r)` with `r` the draw
at `n`, and the candidate is the category found by the loop.  Otherwise, if the draw at `n`
is below 0.05, the candidate is the category picked by the draw at `n + 1` and the confidence
is `0.2 + 0.3 r'` with `r'` the draw at `n + 2`, which lies in `[0.2, 0.5)`.  Otherwise the
confidence is 0 and there is no category.  In every case the confidence lies in `[0, 0.95]`,
`is_abusive` holds exactly when the confidence is greater than 0.3, and `abuse_type` is the
candidate when `is_abusive` holds and null otherwise. -/
theorem C26_abuse_confidence (content : String) (rng : Rng) (hr : Rng.unit rng) (n : Nat) :
    ((abuseScan content).highestConfidence > 1 / 10 →
      (MockMLService.detectAbuse content rng n).1.confidence
        = min (95 / 100) ((abuseScan content).highestConfidence + 3 / 10 * rng n) ∧
      ∃ t ∈ abuseNames, (abuseScan content).detectedType = some t ∧
        ((MockMLService.detectAbuse content rng n).1.is_abusive = true →
          (MockMLService.detectAbuse content rng n).1.abuse_type = some t)) ∧
    (¬ (abuseScan content).highestConfidence > 1 / 10 → rng n < 5 / 100 →
      (MockMLService.detectAbuse content rng n).1.confidence = 2 / 10 + 3 / 10 * rng (n + 2) ∧
      2 / 10 ≤ (MockMLService.detectAbuse content rng n).1.confidence ∧
      (MockMLService.detectAbuse content rng n).1.confidence < 5 / 10 ∧
      ∃ t ∈ abuseNames, abuseNames[floorIndex (rng (n + 1) * 6)]? = some t ∧
        ((MockMLService.detectAbuse content rng n).1.is_abusive = true →
          (MockMLService.detectAbuse content rng n).1.abuse_type = some t)) ∧
    (¬ (abuseScan content).highestConfidence > 1 / 10 → ¬ rng n < 5 / 100 →
      (MockMLService.detectAbuse content rng n).1.confidence = 0 ∧
      (abuseScan content).detectedType = none ∧
      (MockMLService.detectAbuse content rng n).1.abuse_type = none) ∧
    0 ≤ (MockMLService.detectAbuse content rng n).1.confidence ∧
    (MockMLService.detectAbuse content rng n).1.confidence ≤ 95 / 100 ∧
    ((MockMLService.detectAbuse content rng n).1.is_abusive = true
      ↔ (MockMLService.detectAbuse content rng n).1.confidence > 3 / 10) ∧
    ((MockMLService.detectAbuse content rng n).1.is_abusive = false →
      (MockMLService.detectAbuse content rng n).1.abuse_type = none) := by
  obtain ⟨hc0, hc1, _⟩ := detectAbuse_range content rng hr n
  obtain ⟨c, cand, hd, hbr⟩ := detectAbuse_branches content rng n
  have h2a := (hr (n + 2)).1
  have h2b := (hr (n + 2)).2
  refine ⟨?_, ?_, ?_, hc0, hc1, ?_, ?_⟩
  · intro hhi
    rcases hbr with ⟨_, hc, hcand⟩ | ⟨hlo, _⟩ | ⟨hlo, _⟩
    · obtain ⟨t, ht, hdt⟩ := abuseScan_high content (lt_trans (by norm_num) hhi)
      rw [hd]
      refine ⟨by rw [hc, mul_comm], t, ht, hdt, ?_⟩
      intro hab
      have hgt : c > 3 / 10 := by simpa using hab
      simp only [hgt, if_true, hcand, hdt]
    · exact absurd hhi hlo
    · exact absurd hhi hlo
  · intro hlo hfp
    rcases hbr with ⟨hhi, _⟩ | ⟨_, _, hc, hcand⟩ | ⟨_, hnfp, _⟩
    · exact absurd hhi hlo
    · obtain ⟨t, ht, hpick⟩ := randomCategory (rng (n + 1)) (hr (n + 1)).1 (hr (n + 1)).2
      rw [hd]
      refine ⟨by rw [hc, mul_comm], ?_, ?_, t, ht, hpick, ?_⟩
      · show 2 / 10 ≤ c
        rw [hc]; nlinarith
      · show c < 5 / 10
        rw [hc]; nlinarith
      · intro hab
        have hgt : c > 3 / 10 := by simpa using hab
        simp only [hgt, if_true, hcand, hpick]
    · exact absurd hfp hnfp
  · intro hlo hnfp
    rcases hbr with ⟨hhi, _⟩ | ⟨_, hfp, _⟩ | ⟨_, _, hc, hcand⟩
    · exact absurd hhi hlo
    · exact absurd hfp hnfp
    · obtain ⟨hz, hnone⟩ := abuseScan_low content hlo
      rw [hd]
      refine ⟨by rw [hc, hz], hnone, ?_⟩
      show (if c > 3 / 10 then cand else none) = none
      rw [hcand, hnone]
      split_ifs <;> rfl
  · rw [hd]
    simp
  · intro hab
    rw [hd] at hab ⊢
    have hgt : ¬ c > 3 / 10 := by simpa using hab
    simp only [hgt, if_false]

/-- Witness for C26: with every draw one half, the verdict on "you are an idiot" has a
confidence in `[0, 0.95]`, and it is abusive exactly when the confidence exceeds 0.3. -/
theorem C26_abuse_confidence_witness :
    Rng.unit (fun _ => 1 / 2) ∧
    0 ≤ (MockMLService.detectAbuse "you are an idiot" (fun _ => 1 / 2) 0).1.confidence ∧
    (MockMLService.detectAbuse "you are an idiot" (fun _ => 1 / 2) 0).1.confidence ≤ 95 / 100 ∧
    ((MockMLService.detectAbuse "you are an idiot" (fun _ => 1 / 2) 0).1.is_abusive = true
      ↔ (MockMLService.detectAbuse "you are an idiot" (fun _ => 1 / 2) 0).1.confidence
          > 3 / 10) :=
  ⟨halves_unit,
    (C26_abuse_confidence "you are an idiot" (fun _ => 1 / 2) halves_unit 0).2.2.2.1,
    (C26_abuse_confidence "you are an idiot" (fun _ => 1 / 2) halves_unit 0).2.2.2.2.1,
    (C26_abuse_confidence "you are an idiot" (fun _ => 1 / 2) halves_unit 0).2.2.2.2.2.1⟩

/-! ## Consistency of verdict and category -/

/-- The verdict of `detectAbuse` names a category exactly when it reports abuse. -/
theorem detectAbuse_verdict (content : String) (rng : Rng) (hr : Rng.unit rng) (n : Nat) :
    ((MockMLService.detectAbuse content rng n).1.is_abusive = true →
      ∃ t ∈ abuseNames, (MockMLService.detectAbuse content rng n).1.abuse_type = some t) ∧
    ((MockMLService.detectAbuse content rng n).1.is_abusive = false →
      (MockMLService.detectAbuse content rng n).1.abuse_type = none) := by
  obtain ⟨c, cand, hd, hbr⟩ := detectAbuse_branches content rng n
  rw [hd]
  constructor
  · intro hab
    have hgt : c > 3 / 10 := by simpa using hab
    simp only [hgt, if_true]
    rcases hbr with ⟨hhi, _, hcand⟩ | ⟨_, _, _, hcand⟩ | ⟨hlo, _, hc, _⟩
    · obtain ⟨t, ht, hdt⟩ := abuseScan_high content (lt_trans (by norm_num) hhi)
      exact ⟨t, ht, by rw [hcand, hdt]⟩
    · obtain ⟨t, ht, hpick⟩ := randomCategory (rng (n + 1)) (hr (n + 1)).1 (hr (n + 1)).2
      exact ⟨t, ht, by rw [hcand, hpick]⟩
    · exfalso
      rw [hc, (abuseScan_low content hlo).1] at hgt
      norm_num at hgt
  · intro hab
    have hgt : ¬ c > 3 / 10 := by simpa using hab
    simp only [hgt, if_false]

/-- The six categories are reasons of the Flag schema and none of them is the empty string or
"none". -/
theorem abuseNames_facts (t : String) (ht : t ∈ abuseNames) :
    flagReasons.contains t = true ∧ t ≠ "" ∧ t ≠ "none" := by
  have hcases : t = "harassment" ∨ t = "hate_speech" ∨ t = "threats" ∨ t = "bullying" ∨
      t = "spam" ∨ t = "sexual_content" := by
    simpa [abuseNames, abuseKeywords] using ht
  rcases hcases with h | h | h | h | h | h <;> subst h <;> decide

/-- Claim C30: in built-in engine mode, for every text and every outcome of the draws,
`abuse_detected` is true if and only if `abuse_type` is one of the six categories
harassment, hate_speech, threats, bullying, spam, sexual_content, and `abuse_type` is "none"
otherwise; every `abuse_type` is in the `abuse_type` enum of the Message schema, every
`abuse_type` returned with `abuse_detected` is in the reason enum of the Flag schema, and the
primary and secondary emotions are in the emotion enum of the Message schema. -/
theorem C30_verdict_category_consistency (text : String) (rng : Rng) (hr : Rng.unit rng)
    (now : Nat) :
    abuseNames
      = ["harassment", "hate_speech", "threats", "bullying", "spam", "sexual_content"] ∧
    ((MLService.analyzeText true text rng none now).abuse_detected = true
      ↔ (MLService.analyzeText true text rng none now).abuse_type ∈ abuseNames) ∧
    ((MLService.analyzeText true text rng none now).abuse_detected = false →
      (MLService.analyzeText true text rng none now).abuse_type = "none") ∧
    abuseTypes.contains (MLService.analyzeText true text rng none now).abuse_type = true ∧
    ((MLService.analyzeText true text rng none now).abuse_detected = true →
      flagReasons.contains (MLService.analyzeText true text rng none now).abuse_type = true) ∧
    emotions.contains (MLService.analyzeText true text rng none now).emotion = true ∧
    (∀ e ∈ (MLService.analyzeText true text rng none now).secondary_emotions,
      emotions.contains e.emotion = true) := by
  obtain ⟨hyes, hno⟩ := detectAbuse_verdict (toLowerCase text) rng hr 0
  obtain ⟨hvalid, _⟩ := analyzeText_mock_valid text rng hr now
  have hdet : (MLService.analyzeText true text rng none now).abuse_detected
      = (MockMLService.detectAbuse (toLowerCase text) rng 0).1.is_abusive := rfl
  have htype : (MLService.analyzeText true text rng none now).abuse_type
      = orNone (MockMLService.detectAbuse (toLowerCase text) rng 0).1.abuse_type := rfl
  have hpos : (MockMLService.detectAbuse (toLowerCase text) rng 0).1.is_abusive = true →
      (MLService.analyzeText true text rng none now).abuse_type ∈ abuseNames ∧
      flagReasons.contains (MLService.analyzeText true text rng none now).abuse_type = true := by
    intro hab
    obtain ⟨t, ht, hsome⟩ := hyes hab
    obtain ⟨hf, hne, _⟩ := abuseNames_facts t ht
    have : (MLService.analyzeText true text rng none now).abuse_type = t := by
      rw [htype, hsome]
      show (if t = "" then "none" else t) = t
      rw [if_neg hne]
    rw [this]
    exact ⟨ht, hf⟩
  have hneg : (MockMLService.detectAbuse (toLowerCase text) rng 0).1.is_abusive = false →
      (MLService.analyzeText true text rng none now).abuse_type = "none" := by
    intro hab
    rw [htype, hno hab]
    rfl
  simp only [Analysis.valid, Bool.and_eq_true, List.all_eq_true] at hvalid
  obtain ⟨⟨⟨⟨hv1, _⟩, hv3⟩, _⟩, hv5⟩ := hvalid
  refine ⟨by decide, ?_, ?_, hv1, ?_, hv3, ?_⟩
  · rw [hdet]
    constructor
    · intro hab
      exact (hpos hab).1
    · intro hmem
      by_contra hab
      have hfalse : (MockMLService.detectAbuse (toLowerCase text) rng 0).1.is_abusive = false := by
        simpa using hab
      rw [hneg hfalse] at hmem
      exact (abuseNames_facts "none" hmem).2.2 rfl
  · rw [hdet]
    exact hneg
  · rw [hdet]
    intro hab
    exact (hpos hab).2
  · intro e he
    exact (hv5 e he).1

/-- Witness for C30: with every draw one half the analysis of the Scenario A text reports
abuse exactly when it names one of the six categories. -/
theorem C30_verdict_category_consistency_witness :
    Rng.unit (fun _ => 1 / 2) ∧
    ((MLService.analyzeText true scenarioA (fun _ => 1 / 2) none 0).abuse_detected = true
      ↔ (MLService.analyzeText true scenarioA (fun _ => 1 / 2) none 0).abuse_type ∈ abuseNames) :=
  ⟨halves_unit, (C30_verdict_category_consistency scenarioA (fun _ => 1 / 2) halves_unit 0).2.1⟩

/-! ## The built-in engine never triggers the rule -/

/-- The built-in engine never reaches the threshold of the rule. -/
theorem engine_never_flags (rng : Rng) (hr : Rng.unit rng) (s : Store) (caller : User)
    (text chatroom : String) (recipientId : Option Nat) (messageType : String) (now : Nat) :
    (MLService.analyzeText true text rng none now).confidence_score ≤ 95 / 100 ∧
    ¬ ((MLService.analyzeText true text rng none now).abuse_detected = true ∧
        (MLService.analyzeText true text rng none now).confidence_score > 70) ∧
    autoFlagDirective (MLService.analyzeText true text rng none now) = none ∧
    (submitMessage s caller text chatroom recipientId messageType
      (MLService.analyzeText true text rng none now) now).store.flags = s.flags ∧
    (∀ e ∈ (submitMessage s caller text chatroom recipientId messageType
      (MLService.analyzeText true text rng none now) now).events,
      e.event ≠ "message-flagged") ∧
    ((submitMessage s caller text chatroom recipientId messageType
        (MLService.analyzeText true text rng none now) now).response.success = true →
      ∃ m, (submitMessage s caller text chatroom recipientId messageType
          (MLService.analyzeText true text rng none now) now).store.messages
            = s.messages ++ [m] ∧
        m.status = "active" ∧ m.analysis = MLService.analyzeText true text rng none now ∧
        m.text = text ∧ m.userId = caller._id) ∧
    (messageType = "public" → caller.username ≠ "" → text ≠ "" → jsLength text ≤ 2000 →
      chatroom ≠ "" →
      (submitMessage s caller text chatroom recipientId messageType
        (MLService.analyzeText true text rng none now) now).response.success = true) := by
  obtain ⟨hvalid, hle⟩ := analyzeText_mock_valid text rng hr now
  have hle70 : (MLService.analyzeText true text rng none now).confidence_score ≤ 70 := by
    linarith
  have hnone := no_directive_of_le _ hle70
  obtain ⟨hf, he, hs⟩ := submit_no_directive s caller text chatroom recipientId messageType
    _ now hnone
  refine ⟨hle, fun h => absurd h.2 (not_lt.2 hle70), hnone, hf, he, hs, ?_⟩
  intro hpub hu ht hl hch
  subst hpub
  rw [submit_public_success s caller text chatroom recipientId _ now hnone hvalid hu ht hl hch]

/-- Claim C29: with the built-in engine selected, for every text and every outcome of the
draws, the `confidence_score` returned by `MLService.analyzeText` is at most 0.95, the
condition `abuse_detected && confidence_score > 70` is false and the rule gives no directive;
submitMessage then stores no flag and emits no `message-flagged`; every successful call
persists the message with status "active" and that analysis; and a public submission of a
non-empty text of at most 2000 UTF-16 code units (the `maxlength` of the Message schema) by
a named caller to a named room is successful.  A public
submission whose text exceeds 2000 code units is answered 500 and stores no message. -/
theorem C29_engine_never_flags (rng : Rng) (hr : Rng.unit rng) (s : Store) (caller : User)
    (text chatroom : String) (recipientId : Option Nat) (messageType : String) (now : Nat) :
    ((MLService.analyzeText true text rng none now).confidence_score ≤ 95 / 100 ∧
    ¬ ((MLService.analyzeText true text rng none now).abuse_detected = true ∧
        (MLService.analyzeText true text rng none now).confidence_score > 70) ∧
    autoFlagDirective (MLService.analyzeText true text rng none now) = none ∧
    (submitMessage s caller text chatroom recipientId messageType
      (MLService.analyzeText true text rng none now) now).store.flags = s.flags ∧
    (∀ e ∈ (submitMessage s caller text chatroom recipientId messageType
      (MLService.analyzeText true text rng none now) now).events,
      e.event ≠ "message-flagged") ∧
    ((submitMessage s caller text chatroom recipientId messageType
        (MLService.analyzeText true text rng none now) now).response.success = true →
      ∃ m, (submitMessage s caller text chatroom recipientId messageType
          (MLService.analyzeText true text rng none now) now).store.messages
            = s.messages ++ [m] ∧
        m.status = "active" ∧ m.analysis = MLService.analyzeText true text rng none now ∧
        m.text = text ∧ m.userId = caller._id) ∧
    (messageType = "public" → caller.username ≠ "" → text ≠ "" → jsLength text ≤ 2000 →
      chatroom ≠ "" →
      (submitMessage s caller text chatroom recipientId messageType
        (MLService.analyzeText true text rng none now) now).response.success = true)) ∧
    (messageType = "public" → 2000 < jsLength text →
      (submitMessage s caller text chatroom recipientId messageType
        (MLService.analyzeText true text rng none now) now).response = serverError ∧
      (submitMessage s caller text chatroom recipientId messageType
        (MLService.analyzeText true text rng none now) now).store.messages = s.messages) :=
  ⟨engine_never_flags rng hr s caller text chatroom recipientId messageType now,
    fun hpub hl => by
      subst hpub
      exact submit_public_too_long s caller text chatroom recipientId _ now
        (engine_never_flags rng hr s caller text chatroom recipientId "public" now).2.2.1 hl⟩

/-- Witness for C29: alice posts "you are an idiot" publicly into an empty store, every draw
being one half; the call succeeds and stores no flag. -/
theorem C29_engine_never_flags_witness :
    Rng.unit (fun _ => 1 / 2) ∧
    (submitMessage (emptyStore [alice] 10) alice "you are an idiot" "general" none "public"
      (MLService.analyzeText true "you are an idiot" (fun _ => 1 / 2) none 0) 0).store.flags
        = [] ∧
    (submitMessage (emptyStore [alice] 10) alice "you are an idiot" "general" none "public"
      (MLService.analyzeText true "you are an idiot" (fun _ => 1 / 2) none 0) 0).response.success
        = true :=
  ⟨halves_unit,
    (C29_engine_never_flags (fun _ => 1 / 2) halves_unit (emptyStore [alice] 10) alice
      "you are an idiot" "general" none "public" 0).1.2.2.2.1,
    (C29_engine_never_flags (fun _ => 1 / 2) halves_unit (emptyStore [alice] 10) alice
      "you are an idiot" "general" none "public" 0).1.2.2.2.2.2.2 rfl (by decide) (by decide)
      (by decide) (by decide)⟩

/-! ## Primary and secondary emotions -/

/-- The running maximum of a score table either stays at its initial value (no score exceeds
it) or ends at the first entry whose score is the greatest. -/
theorem bestScore_spec :
    ∀ (scores : List (String × ℚ)) (init : ℚ × String),
      (bestScore init scores = init ∧ ∀ x ∈ scores, x.2 ≤ init.1) ∨
      ∃ pre e post, scores = pre ++ e :: post ∧ bestScore init scores = (e.2, e.1) ∧
        init.1 < e.2 ∧ (∀ x ∈ pre, x.2 < e.2) ∧ ∀ x ∈ post, x.2 ≤ e.2 := by
  intro scores
  induction scores with
  | nil =>
    intro init
    exact Or.inl ⟨rfl, fun x hx => by cases hx⟩
  | cons e rest ih =>
    intro init
    have hstep : bestScore init (e :: rest)
        = bestScore (if e.2 > init.1 then (e.2, e.1) else init) rest := rfl
    rw [hstep]
    by_cases hgt : e.2 > init.1
    · rw [if_pos hgt]
      right
      rcases ih (e.2, e.1) with ⟨h1, h2⟩ | ⟨pre, e2, post, hl, h1, h2, h3, h4⟩
      · refine ⟨[], e, rest, rfl, h1, hgt, ?_, h2⟩
        intro x hx; cases hx
      · refine ⟨e :: pre, e2, post, by rw [hl]; rfl, h1, lt_trans hgt h2, ?_, h4⟩
        intro x hx
        rcases List.mem_cons.1 hx with hx | hx
        · subst hx; exact h2
        · exact h3 x hx
    · rw [if_neg hgt]
      have hle : e.2 ≤ init.1 := not_lt.1 hgt
      rcases ih init with ⟨h1, h2⟩ | ⟨pre, e2, post, hl, h1, h2, h3, h4⟩
      · left
        refine ⟨h1, ?_⟩
        intro x hx
        rcases List.mem_cons.1 hx with hx | hx
        · subst hx; exact hle
        · exact h2 x hx
      · right
        refine ⟨e :: pre, e2, post, by rw [hl]; rfl, h1, h2, ?_, h4⟩
        intro x hx
        rcases List.mem_cons.1 hx with hx | hx
        · subst hx; exact lt_of_le_of_lt hle h2
        · exact h3 x hx

/-- No score exceeds the running maximum. -/
theorem bestScore_upper (scores : List (String × ℚ)) (init : ℚ × String) :
    init.1 ≤ (bestScore init scores).1 ∧ ∀ x ∈ scores, x.2 ≤ (bestScore init scores).1 := by
  rcases bestScore_spec scores init with ⟨h1, h2⟩ | ⟨pre, e, post, hl, h1, h2, h3, h4⟩
  · rw [h1]
    exact ⟨le_refl _, h2⟩
  · rw [h1]
    refine ⟨le_of_lt h2, ?_⟩
    intro x hx
    rw [hl] at hx
    rcases List.mem_append.1 hx with hx | hx
    · exact le_of_lt (h3 x hx)
    · rcases List.mem_cons.1 hx with hx | hx
      · subst hx; exact le_refl _
      · exact h4 x hx

/-- The second loop pushes, in order, the entries of the table that are not the primary
emotion and score above 0.2. -/
theorem secondaryLoop_map (rng : Rng) (primaryEmotion : String) :
    ∀ (scores : List (String × ℚ)) (n : Nat),
      (secondaryLoop rng primaryEmotion scores n).1.map (fun x => (x.emotion, x.intensity))
        = scores.filter (fun e => decide (e.1 ≠ primaryEmotion ∧ e.2 > 2 / 10)) := by
  intro scores
  induction scores with
  | nil => intro n; rfl
  | cons e rest ih =>
    intro n
    obtain ⟨emotion, intensity⟩ := e
    unfold secondaryLoop
    by_cases hc : emotion ≠ primaryEmotion ∧ intensity > 2 / 10
    · rw [if_pos hc, List.filter_cons]
      simp only [hc, and_self, decide_True, if_true, List.map_cons, ne_eq, not_false_eq_true]
      rw [← ih (n + 1)]
    · rw [if_neg hc, List.filter_cons]
      have hd : decide (emotion ≠ primaryEmotion ∧ intensity > 2 / 10) = false := by
        simpa using hc
      simp only [hd]
      exact ih n

/-- The names of the score table are the six categories of the table of keywords. -/
theorem emotionScores_names (content : String) (rng : Rng) (n : Nat) :
    (emotionScoresFrom content rng n emotionKeywords).map Prod.fst
      = ["anger", "joy", "sadness", "fear", "surprise", "neutral"] := rfl

/-- The verdict of `detectEmotion` when the best score is at least 0.1. -/
theorem detectEmotion_scored (content : String) (rng : Rng) (n : Nat)
    (h : ¬ (bestScore (0, "neutral") (emotionScoresFrom content rng n emotionKeywords)).1
      < 1 / 10) :
    (MockMLService.detectEmotion content rng n).1.primary_emotion.emotion
      = (bestScore (0, "neutral") (emotionScoresFrom content rng n emotionKeywords)).2 ∧
    (MockMLService.detectEmotion content rng n).1.primary_emotion.intensity
      = (bestScore (0, "neutral") (emotionScoresFrom content rng n emotionKeywords)).1 ∧
    (MockMLService.detectEmotion content rng n).1.secondary_emotions
      = (secondaryLoop rng
          (bestScore (0, "neutral") (emotionScoresFrom content rng n emotionKeywords)).2
          (emotionScoresFrom content rng n emotionKeywords) (n + 6)).1.take 2 ∧
    (MockMLService.detectEmotion content rng n).1.all_emotions
      = emotionScoresFrom content rng n emotionKeywords := by
  simp only [MockMLService.detectEmotion, emotionScan_eq, emotionDefault, h, if_false]
  exact ⟨trivial, trivial, trivial, trivial⟩

/-- The verdict of `detectEmotion` when the best score is below 0.1: the neutral default. -/
theorem detectEmotion_default (content : String) (rng : Rng) (n : Nat)
    (h : (bestScore (0, "neutral") (emotionScoresFrom content rng n emotionKeywords)).1
      < 1 / 10) :
    (MockMLService.detectEmotion content rng n).1.primary_emotion.emotion = "neutral" ∧
    (MockMLService.detectEmotion content rng n).1.primary_emotion.intensity
      = 3 / 10 + rng (n + 6) * (4 / 10) ∧
    (MockMLService.detectEmotion content rng n).1.secondary_emotions = [] := by
  have hup := (bestScore_upper (emotionScoresFrom content rng n emotionKeywords)
    (0, "neutral")).2
  have hsec : secondaryLoop rng "neutral"
      (setScore (emotionScoresFrom content rng n emotionKeywords) "neutral"
        (3 / 10 + rng (n + 6) * (4 / 10))) (n + 6 + 1) = ([], n + 6 + 1) := by
    apply secondaryLoop_nil
    intro e he hne
    unfold setScore at he
    split_ifs at he with hany
    · obtain ⟨x, hx, rfl⟩ := List.mem_map.1 he
      by_cases hk : (x.1 == "neutral") = true
      · rw [if_pos hk] at hne
        exact absurd (by simpa using hk) hne
      · rw [if_neg hk]
        have := hup x hx
        linarith
    · rcases List.mem_append.1 he with he | he
      · have := hup e he
        linarith
      · rw [List.mem_singleton] at he
        subst he
        exact absurd rfl hne
  simp only [MockMLService.detectEmotion, emotionScan_eq, emotionDefault, h, if_true, hsec]
  exact ⟨trivial, trivial, rfl⟩

/-- The score table, written out: per category, the number of its keywords that occur in the
content divided by their number, plus 0.2 times the draw of the category, capped at 1. -/
theorem emotionTable_eq (content : String) (rng : Rng) (n : Nat) :
    emotionTable content rng n
      = emotionKeywords.enum.map (fun p =>
          (p.2.1, min 1 (((p.2.2.filter (fun keyword => includes content keyword)).length : ℚ)
            / (p.2.2.length : ℚ) + 2 / 10 * rng (n + p.1)))) := by
  simp only [emotionTable, emotionKeywords, emotionScoresFrom, emotionIntensity, countMatches_eq,
    List.enum, List.enumFrom, List.map, add_zero, zero_add, add_assoc, Nat.reduceAdd, mul_comm]

/-- Every score of the table lies in `[0, 1]`. -/
theorem emotionTable_range (content : String) (rng : Rng) (hr : Rng.unit rng) (n : Nat) :
    ∀ x ∈ emotionTable content rng n, 0 ≤ x.2 ∧ x.2 ≤ 1 := by
  have h := (emotionScan_ok content rng hr n).2.2.2
  rw [emotionScan_eq] at h
  intro x hx
  exact (h x hx).2

/-- The best score is at least 0.1 exactly when some score is. -/
theorem best_ge_iff (scores : List (String × ℚ)) :
    ¬ (bestScore (0, "neutral") scores).1 < 1 / 10 ↔ ∃ x ∈ scores, 1 / 10 ≤ x.2 := by
  constructor
  · intro h
    rcases bestScore_spec scores (0, "neutral") with ⟨h1, _⟩ | ⟨pre, e, post, hl, h1, _, _, _⟩
    · rw [h1] at h
      norm_num at h
    · rw [h1] at h
      exact ⟨e, by rw [hl]; simp, not_lt.1 h⟩
  · rintro ⟨x, hx, hge⟩ hlt
    have := (bestScore_upper scores (0, "neutral")).2 x hx
    linarith

/-- Claim C27: the primary emotion of `detectEmotion`, for draws in `[0, 1)` read from
position `n`.  The six categories anger, joy, sadness, fear, surprise, neutral get, in this
order, the score `min(1, matched keywords / keyword count + 0.2 r)`, each with its own draw,
and every score lies in `[0, 1]`.  When some score is at least 0.1, the primary emotion is
the first category in table order whose score is the greatest, and the intensity is that
score.  When every score is below 0.1, the primary emotion is "neutral" and the intensity is
`0.3 + 0.4 r'` for the next draw `r'`, a value in `[0.3, 0.7)`. -/
theorem C27_primary_emotion (content : String) (rng : Rng) (hr : Rng.unit rng) (n : Nat) :
    emotionTable content rng n
      = emotionKeywords.enum.map (fun p =>
          (p.2.1, min 1 (((p.2.2.filter (fun keyword => includes content keyword)).length : ℚ)
            / (p.2.2.length : ℚ) + 2 / 10 * rng (n + p.1)))) ∧
    (emotionTable content rng n).map Prod.fst
      = ["anger", "joy", "sadness", "fear", "surprise", "neutral"] ∧
    (∀ x ∈ emotionTable content rng n, 0 ≤ x.2 ∧ x.2 ≤ 1) ∧
    ((∃ x ∈ emotionTable content rng n, 1 / 10 ≤ x.2) →
      ∃ pre e post, emotionTable content rng n = pre ++ e :: post ∧
        (MockMLService.detectEmotion content rng n).1.primary_emotion.emotion = e.1 ∧
        (MockMLService.detectEmotion content rng n).1.primary_emotion.intensity = e.2 ∧
        (∀ x ∈ pre, x.2 < e.2) ∧ (∀ x ∈ post, x.2 ≤ e.2)) ∧
    ((∀ x ∈ emotionTable content rng n, x.2 < 1 / 10) →
      (MockMLService.detectEmotion content rng n).1.primary_emotion.emotion = "neutral" ∧
      (MockMLService.detectEmotion content rng n).1.primary_emotion.intensity
        = 3 / 10 + 4 / 10 * rng (n + 6) ∧
      3 / 10 ≤ (MockMLService.detectEmotion content rng n).1.primary_emotion.intensity ∧
      (MockMLService.detectEmotion content rng n).1.primary_emotion.intensity < 7 / 10) := by
  refine ⟨emotionTable_eq content rng n, emotionScores_names content rng n,
    emotionTable_range content rng hr n, ?_, ?_⟩
  · intro hex
    have hge := (best_ge_iff (emotionTable content rng n)).2 hex
    obtain ⟨h1, h2, _, _⟩ := detectEmotion_scored content rng n hge
    rcases bestScore_spec (emotionTable content rng n) (0, "neutral") with
      ⟨hb, _⟩ | ⟨pre, e, post, hl, hb, _, h3, h4⟩
    · exfalso
      apply hge
      show (bestScore (0, "neutral") (emotionTable content rng n)).1 < 1 / 10
      rw [hb]
      norm_num
    · refine ⟨pre, e, post, hl, ?_, ?_, h3, h4⟩
      · rw [h1]
        show (bestScore (0, "neutral") (emotionTable content rng n)).2 = e.1
        rw [hb]
      · rw [h2]
        show (bestScore (0, "neutral") (emotionTable content rng n)).1 = e.2
        rw [hb]
  · intro hall
    have hlt : (bestScore (0, "neutral") (emotionTable content rng n)).1 < 1 / 10 := by
      by_contra hge
      obtain ⟨x, hx, hxge⟩ := (best_ge_iff (emotionTable content rng n)).1 hge
      have := hall x hx
      linarith
    obtain ⟨h1, h2, _⟩ := detectEmotion_default content rng n hlt
    have r0 := (hr (n + 6)).1
    have r1 := (hr (n + 6)).2
    refine ⟨h1, by rw [h2, mul_comm], ?_, ?_⟩
    · rw [h2]; nlinarith
    · rw [h2]; nlinarith

/-- The score table of the empty text when every draw is 0. -/
theorem silence_table :
    emotionTable silence (fun _ => 0) 0
      = [("anger", 0), ("joy", 0), ("sadness", 0), ("fear", 0), ("surprise", 0),
         ("neutral", 0)] := by
  have h1 : countMatches silence
      ["angry", "mad", "furious", "rage", "irritated", "pissed"] = 0 := by decide
  have h2 : countMatches silence
      ["happy", "excited", "love", "great", "awesome", "amazing"] = 0 := by decide
  have h3 : countMatches silence
      ["sad", "depressed", "upset", "crying", "miserable", "lonely"] = 0 := by decide
  have h4 : countMatches silence
      ["scared", "afraid", "terrified", "worried", "anxious", "panic"] = 0 := by decide
  have h5 : countMatches silence
      ["wow", "amazing", "incredible", "shocking", "unexpected"] = 0 := by decide
  have h6 : countMatches silence
      ["okay", "fine", "normal", "regular", "standard"] = 0 := by decide
  simp only [emotionTable, emotionKeywords, emotionScoresFrom, emotionIntensity, h1, h2, h3, h4,
    h5, h6]
  norm_num

/-- Every score of the empty text is below 0.1 when every draw is 0. -/
theorem silence_low : ∀ x ∈ emotionTable silence (fun _ => 0) 0, x.2 < 1 / 10 := by
  rw [silence_table]
  intro x hx
  simp only [List.mem_cons, List.mem_singleton, List.not_mem_nil, or_false] at hx
  rcases hx with h | h | h | h | h | h <;> subst h <;> norm_num

/-- Witness for C27: for the empty text and every draw 0 all scores are below 0.1, and the
verdict is "neutral" with intensity 0.3. -/
theorem C27_primary_emotion_witness :
    Rng.unit (fun _ => 0) ∧
    (∀ x ∈ emotionTable silence (fun _ => 0) 0, x.2 < 1 / 10) ∧
    (MockMLService.detectEmotion silence (fun _ => 0) 0).1.primary_emotion.emotion = "neutral" ∧
    (MockMLService.detectEmotion silence (fun _ => 0) 0).1.primary_emotion.intensity
      = 3 / 10 + 4 / 10 * (0 : ℚ) :=
  ⟨zeros_unit, silence_low,
    ((C27_primary_emotion silence (fun _ => 0) zeros_unit 0).2.2.2.2 silence_low).1,
    ((C27_primary_emotion silence (fun _ => 0) zeros_unit 0).2.2.2.2 silence_low).2.1⟩

/-- Claim C28: the secondary emotions of `detectEmotion`, for every content and all draws.
The list has at most two entries, never names the primary emotion, names no category twice,
every entry has an intensity above 0.2 that is the score of its category, and the entries
are the first two, in table order, of the categories other than the primary one whose score
exceeds 0.2.  When the neutral default applies (every score is below 0.1) the list is
empty. -/
theorem C28_secondary_emotions (content : String) (rng : Rng) (n : Nat) :
    (MockMLService.detectEmotion content rng n).1.secondary_emotions.length ≤ 2 ∧
    (∀ x ∈ (MockMLService.detectEmotion content rng n).1.secondary_emotions,
      x.emotion ≠ (MockMLService.detectEmotion content rng n).1.primary_emotion.emotion) ∧
    ((MockMLService.detectEmotion content rng n).1.secondary_emotions.map
      (fun x => x.emotion)).Nodup ∧
    (∀ x ∈ (MockMLService.detectEmotion content rng n).1.secondary_emotions,
      x.intensity > 2 / 10 ∧ (x.emotion, x.intensity) ∈ emotionTable content rng n) ∧
    (MockMLService.detectEmotion content rng n).1.secondary_emotions.map
        (fun x => (x.emotion, x.intensity))
      = ((emotionTable content rng n).filter (fun e =>
          decide (e.1 ≠ (MockMLService.detectEmotion content rng n).1.primary_emotion.emotion
            ∧ e.2 > 2 / 10))).take 2 ∧
    ((∀ x ∈ emotionTable content rng n, x.2 < 1 / 10) →
      (MockMLService.detectEmotion content rng n).1.secondary_emotions = []) := by
  have hmap : (MockMLService.detectEmotion content rng n).1.secondary_emotions.map
        (fun x => (x.emotion, x.intensity))
      = ((emotionTable content rng n).filter (fun e =>
          decide (e.1 ≠ (MockMLService.detectEmotion content rng n).1.primary_emotion.emotion
            ∧ e.2 > 2 / 10))).take 2 := by
    by_cases hlt : (bestScore (0, "neutral") (emotionTable content rng n)).1 < 1 / 10
    · obtain ⟨h1, _, h3⟩ := detectEmotion_default content rng n hlt
      rw [h3, h1]
      have hup := (bestScore_upper (emotionTable content rng n) (0, "neutral")).2
      have hnil : (emotionTable content rng n).filter (fun e =>
          decide (e.1 ≠ "neutral" ∧ e.2 > 2 / 10)) = [] := by
        apply List.filter_eq_nil_iff.2
        intro x hx
        have := hup x hx
        have hx2 : ¬ x.2 > 2 / 10 := by
          intro hgt
          linarith
        simp [hx2]
      rw [hnil]
      rfl
    · obtain ⟨h1, _, h3, _⟩ := detectEmotion_scored content rng n hlt
      rw [h3, h1, List.map_take, secondaryLoop_map]
      rfl
  have hsub : ((MockMLService.detectEmotion content rng n).1.secondary_emotions.map
        (fun x => (x.emotion, x.intensity))).Sublist (emotionTable content rng n) := by
    rw [hmap]
    exact (List.take_sublist _ _).trans (List.filter_sublist _)
  have hmem : ∀ x ∈ (MockMLService.detectEmotion content rng n).1.secondary_emotions,
      (x.emotion, x.intensity) ∈ ((emotionTable content rng n).filter (fun e =>
          decide (e.1 ≠ (MockMLService.detectEmotion content rng n).1.primary_emotion.emotion
            ∧ e.2 > 2 / 10))) := by
    intro x hx
    have h1 : (x.emotion, x.intensity)
        ∈ (MockMLService.detectEmotion content rng n).1.secondary_emotions.map
          (fun x => (x.emotion, x.intensity)) := List.mem_map.2 ⟨x, hx, rfl⟩
    rw [hmap] at h1
    exact List.mem_of_mem_take h1
  refine ⟨?_, ?_, ?_, ?_, hmap, ?_⟩
  · have hlen := congrArg List.length hmap
    rw [List.length_map, List.length_take] at hlen
    omega
  · intro x hx
    have := (List.mem_filter.1 (hmem x hx)).2
    simp only [decide_eq_true_eq] at this
    exact this.1
  · have hnames : ((MockMLService.detectEmotion content rng n).1.secondary_emotions.map
          (fun x => x.emotion))
        = ((MockMLService.detectEmotion content rng n).1.secondary_emotions.map
            (fun x => (x.emotion, x.intensity))).map Prod.fst := by
      rw [List.map_map]
      rfl
    rw [hnames]
    have hs := List.Sublist.map Prod.fst hsub
    apply List.Nodup.sublist hs
    show ((emotionScoresFrom content rng n emotionKeywords).map Prod.fst).Nodup
    rw [emotionScores_names]
    decide
  · intro x hx
    have h := List.mem_filter.1 (hmem x hx)
    have h2 := h.2
    simp only [decide_eq_true_eq] at h2
    exact ⟨h2.2, h.1⟩
  · intro hall
    have hlt : (bestScore (0, "neutral") (emotionTable content rng n)).1 < 1 / 10 := by
      by_contra hge
      obtain ⟨x, hx, hxge⟩ := (best_ge_iff (emotionTable content rng n)).1 hge
      have := hall x hx
      linarith
    exact (detectEmotion_default content rng n hlt).2.2

/-- Witness for C28: for the empty text and every draw 0 the neutral default applies and
there are no secondary emotions. -/
theorem C28_secondary_emotions_witness :
    (∀ x ∈ emotionTable silence (fun _ => 0) 0, x.2 < 1 / 10) ∧
    (MockMLService.detectEmotion silence (fun _ => 0) 0).1.secondary_emotions = [] :=
  ⟨silence_low, (C28_secondary_emotions silence (fun _ => 0) 0).2.2.2.2.2 silence_low⟩

/-! ## Concurrent manual flags -/

/-- A request that runs alone through its six awaited operations does what the handler
`createManualFlag` does. -/
theorem solo_run (a b : FlagRequest) (s : Store) :
    (Race.run a b s [true, true, true, true, true, true]).store
      = (createManualFlag s a.caller a.messageId a.reason a.description a.severity a.now).store ∧
    (Race.run a b s [true, true, true, true, true, true]).first
      = FlagTask.done
          (createManualFlag s a.caller a.messageId a.reason a.description a.severity
            a.now).response
          (createManualFlag s a.caller a.messageId a.reason a.description a.severity
            a.now).events := by
  rcases createManualFlag_cases s a.caller a.messageId a.reason a.description a.severity a.now
    with ⟨h0, h⟩ | ⟨m, h0, h1, h⟩ | ⟨m, h0, h1, h2, h⟩ | ⟨m, h0, h1, h2, h3, h⟩ |
      ⟨m, h0, h1, h2, h3, h⟩
  · rw [h]
    simp [Race.run, Race.step, Race.start, FlagTask.step, h0]
  · rw [h]
    simp [Race.run, Race.step, Race.start, FlagTask.step, h0, h1, conflict]
  · rw [h]
    simp [Race.run, Race.step, Race.start, FlagTask.step, h0, h1, h2]
  · rw [h]
    simp [Race.run, Race.step, Race.start, FlagTask.step, h0, h1, h2, h3]
  · rw [h]
    simp [Race.run, Race.step, Race.start, FlagTask.step, h0, h1, h2, h3, flaggedStore]

/-- Claim C23 (failing interleaving): bob and carol flag the same unflagged message and the
scheduler lets the two requests take turns.  Both requests pass the check for an existing
flag before either has saved its flag, so both are answered 201 and the message ends with
two non-dismissed flags.  When the first request runs to its end before the second starts,
the second is answered with the conflict error and the message ends with one flag. -/
theorem C23_concurrent_flags_both_succeed :
    (Race.run bobRequest carolRequest raceStore alternating).first.response
      = some { status := 201, success := true, message := "Flag created successfully" } ∧
    (Race.run bobRequest carolRequest raceStore alternating).second.response
      = some { status := 201, success := true, message := "Flag created successfully" } ∧
    activeCount (Race.run bobRequest carolRequest raceStore alternating).store 10 = 2 ∧
    (Race.run bobRequest carolRequest raceStore oneAfterTheOther).first.response
      = some { status := 201, success := true, message := "Flag created successfully" } ∧
    (Race.run bobRequest carolRequest raceStore oneAfterTheOther).second.response
      = some conflict ∧
    activeCount (Race.run bobRequest carolRequest raceStore oneAfterTheOther).store 10 = 1 := by
  decide

/-! ## Registration input validation -/

/-- The chains of `validateUser` record no error exactly when all five validators pass. -/
theorem validateUser_nil_iff (isEmail : String → Bool) (body : RegistrationBody) :
    validateUser isEmail body = [] ↔
      isLength 3 (some 30) (trim body.username) = true ∧
      matchesUsername (trim body.username) = true ∧ isEmail body.email = true ∧
      isLength 6 none body.password = true ∧ matchesPassword body.password = true := by
  unfold validateUser
  simp only [List.append_eq_nil, ite_eq_left_iff, List.cons_ne_nil, imp_false, not_not,
    and_assoc]

/-- The gate lets a body through exactly when the chains record no error, and answers 400
with the recorded errors otherwise. -/
theorem registrationGate_cases (isEmail : String → Bool) (body : RegistrationBody) :
    (validateUser isEmail body = [] ∧ registrationGate isEmail body = Passage.next) ∨
    (validateUser isEmail body ≠ [] ∧
      registrationGate isEmail body
        = Passage.rejected { status := 400, success := false, message := "Validation errors" }
            (validateUser isEmail body)) := by
  unfold registrationGate handleValidationErrors
  cases h : validateUser isEmail body with
  | nil => exact Or.inl ⟨rfl, by simp⟩
  | cons e es => exact Or.inr ⟨by simp, by simp⟩

/-- A lookahead finds no character of a class that the value does not contain. -/
theorem lookahead_false (cls : Char → Bool) (v : String) (h : ∀ c ∈ v.toList, cls c = false) :
    lookahead cls v = false := by
  unfold lookahead
  rw [List.any_eq_false]
  intro c hc
  have hmem : c ∈ v.toList := (List.takeWhile_sublist _).subset hc
  rw [h c hmem]
  simp

/-- Claim C24: `validateUser` followed by `handleValidationErrors` answers every registration
body with status 400 and `success` false (and a non-empty list of errors) when the password
has fewer than 6 characters, or has no lowercase letter, or no uppercase letter, or no digit,
or when the trimmed username is not made of 3 to 30 letters, digits and underscores; a body
is passed to the next handler exactly when the five validators accept it, which is the case
for the body with username "testuser", email "test@example.com" and password "Test123!" as
soon as the library validator `isEmail` accepts that email. -/
theorem C24_registration_validation (isEmail : String → Bool) (body : RegistrationBody) :
    ((body.password.length < 6 ∨
        (∀ c ∈ body.password.toList, c.isLower = false) ∨
        (∀ c ∈ body.password.toList, c.isUpper = false) ∨
        (∀ c ∈ body.password.toList, c.isDigit = false) ∨
        ¬ (3 ≤ (trim body.username).length ∧ (trim body.username).length ≤ 30 ∧
            ∀ c ∈ (trim body.username).toList,
              c.isAlpha = true ∨ c.isDigit = true ∨ c = '_')) →
      ∃ errors, errors ≠ [] ∧
        registrationGate isEmail body
          = Passage.rejected { status := 400, success := false, message := "Validation errors" }
              errors) ∧
    (registrationGate isEmail body = Passage.next ↔
      isLength 3 (some 30) (trim body.username) = true ∧
      matchesUsername (trim body.username) = true ∧ isEmail body.email = true ∧
      isLength 6 none body.password = true ∧ matchesPassword body.password = true) ∧
    (isEmail "test@example.com" = true →
      registrationGate isEmail goodRegistration = Passage.next) := by
  refine ⟨?_, ?_, ?_⟩
  · intro hbad
    rcases registrationGate_cases isEmail body with ⟨hnil, _⟩ | ⟨hne, hrej⟩
    · exfalso
      obtain ⟨hu1, hu2, _, hp1, hp2⟩ := (validateUser_nil_iff isEmail body).1 hnil
      simp only [matchesPassword, Bool.and_eq_true] at hp2
      obtain ⟨⟨hlow, hup⟩, hdig⟩ := hp2
      rcases hbad with h | h | h | h | h
      · simp only [isLength, Bool.and_eq_true, decide_eq_true_eq] at hp1
        omega
      · rw [lookahead_false _ _ h] at hlow
        cases hlow
      · rw [lookahead_false _ _ h] at hup
        cases hup
      · rw [lookahead_false _ _ h] at hdig
        cases hdig
      · apply h
        simp only [isLength, Bool.and_eq_true, decide_eq_true_eq] at hu1
        refine ⟨hu1.1, hu1.2, ?_⟩
        intro c hc
        simp only [matchesUsername, Bool.and_eq_true, List.all_eq_true] at hu2
        have hw := hu2.2 c hc
        simp only [isWordChar, Char.isAlphanum, Bool.or_eq_true, beq_iff_eq] at hw
        rcases hw with (ha | hd) | hu
        · exact Or.inl ha
        · exact Or.inr (Or.inl hd)
        · exact Or.inr (Or.inr hu)
    · exact ⟨_, hne, hrej⟩
  · rw [← validateUser_nil_iff]
    rcases registrationGate_cases isEmail body with ⟨hnil, hnext⟩ | ⟨hne, hrej⟩
    · exact ⟨fun _ => hnil, fun _ => hnext⟩
    · constructor
      · intro h
        rw [hrej] at h
        cases h
      · intro h
        exact absurd h hne
  · intro hmail
    rcases registrationGate_cases isEmail goodRegistration with ⟨_, hnext⟩ | ⟨hne, _⟩
    · exact hnext
    · exfalso
      apply hne
      rw [validateUser_nil_iff]
      exact ⟨by decide, by decide, hmail, by decide, by decide⟩

/-- Witness for C24: with a validator `isEmail` that asks for an "@", the body of the first
test passes the gate, and the body of the second test, whose password has 3 characters, is
answered 400. -/
theorem C24_registration_validation_witness :
    includes "test@example.com" "@" = true ∧
    registrationGate (fun v => includes v "@") goodRegistration = Passage.next ∧
    badRegistration.password.length < 6 ∧
    ∃ errors, errors ≠ [] ∧
      registrationGate (fun v => includes v "@") badRegistration
        = Passage.rejected { status := 400, success := false, message := "Validation errors" }
            errors :=
  ⟨by decide,
    (C24_registration_validation (fun v => includes v "@") goodRegistration).2.2 (by decide),
    by decide,
    (C24_registration_validation (fun v => includes v "@") badRegistration).1
      (Or.inl (by decide))⟩

end SafeChat
